import Mathlib

/-!
SPC700 platform of wiz: instruction encodings and test-and-branch lowering.

A shallow embedding of `src/wiz/platform/spc700_platform.cpp`.

* Bytes are natural numbers; a conversion to `std::uint8_t` / `std::uint16_t` is a
  reduction modulo `2^8` / `2^16`, a conversion to `int` is a wrap into the signed
  32-bit range.
* An encoding's write function takes the report, the bank, the output buffer, the
  options, the capture lists and the source location, and returns the new buffer, the
  new report and the success flag.  A read outside a vector (`options.parameter[k]`,
  `captureLists[i][j]`, `buffer[i]`) or of the `integer` member of an operand that is
  not an integer has no defined behaviour in the source: the embedding returns `none`.
-/

set_option autoImplicit false

namespace wiz

/-! ## Machine integers -/

/-- The conversion `static_cast<std::uint8_t>(v)`. -/
def toU8 (v : Int) : Nat := (v % 256).toNat

/-- The conversion `static_cast<std::uint16_t>(v)`. -/
def toU16 (v : Int) : Nat := (v % 65536).toNat

/-- The conversion `static_cast<std::int32_t>(v)` (also `static_cast<int>(v)`), and the
wrap-around of 32-bit signed arithmetic. -/
def toI32 (v : Int) : Int := (v + 2147483648) % 4294967296 - 2147483648

/-! ## Definitions, operators and expressions -/

/-- Interned names of the definitions that `reserveDefinitions` creates. -/
inductive Symbol where
  | a | x | y | ya | sp | psw
  | negative | overflow | direct_page | break_flag | half_carry | interrupt | zero | carry
  | push | pop | irqcall | nop | sleep | stop | swap_digits | test_and_set | test_and_clear
  | divmod | decimal_adjust_add | decimal_adjust_sub
  | cmp | cmp_branch_not_equal | dec_branch_not_zero
  deriving DecidableEq, Repr

/-- Modelled from the spec: the definition registry of the surrounding compiler
(`wiz/compiler/definition.h`), whose entries this platform treats as comparable tokens.
Built-in types carry their size and value range, built-in registers and intrinsics their
type and name, and `Other` stands for every definition declared by the compiled program. -/
inductive Definition where
  | BuiltinBoolType
  | BuiltinIntegerType (size : Nat) (min max : Int)
  | BuiltinRegister (type : Definition) (name : Symbol)
  | BuiltinVoidIntrinsic (name : Symbol)
  | BuiltinLoadIntrinsic (type : Definition) (name : Symbol)
  | Other (id : Nat)
  deriving DecidableEq, Repr

/-- Modelled from the spec: the binary operators of `wiz/ast/expression.h`. -/
inductive BinaryOperatorKind where
  | Addition | AdditionWithCarry | Assignment | BitIndexing | BitwiseAnd | BitwiseOr
  | BitwiseXor | Concatenation | Division | Equal | GreaterThan | GreaterThanOrEqual
  | Indexing | LeftRotate | LeftRotateWithCarry | LeftShift | LessThan | LessThanOrEqual
  | LogicalAnd | LogicalLeftShift | LogicalOr | LogicalRightShift | Modulo | Multiplication
  | NotEqual | RightRotate | RightRotateWithCarry | RightShift | Subtraction
  | SubtractionWithCarry
  deriving DecidableEq, Repr

/-- Modelled from the spec: the unary operators of `wiz/ast/expression.h`. -/
inductive UnaryOperatorKind where
  | AddressOf | BitwiseNegation | Grouping | Indirection | LogicalNegation
  | PostDecrement | PostIncrement | PreDecrement | PreIncrement | SignedNegation
  deriving DecidableEq, Repr

/-- Modelled from the spec: the branch kinds of `wiz/ast/statement.h`. -/
inductive BranchKind where
  | Break | Continue | Goto | IrqReturn | NmiReturn | Return | Call
  | FarGoto | FarCall | FarReturn
  deriving DecidableEq, Repr

/-- Modelled from the spec: the typed expression tree of `wiz/ast/expression.h`, with the
variants that the platform inspects (`UnaryOperator`, `IntegerLiteral`,
`ResolvedIdentifier`) and further variants it does not. -/
inductive Expression where
  | BinaryOperator (op : BinaryOperatorKind) (left right : Expression)
  | BooleanLiteral (value : Bool)
  | IntegerLiteral (value : Int)
  | ResolvedIdentifier (definition : Definition)
  | UnaryOperator (op : UnaryOperatorKind) (operand : Expression)
  deriving DecidableEq, Repr

/-! ## Instruction operands, patterns and options -/

/-- Modelled from the spec: the concrete operand of `wiz/compiler/instruction.h`. -/
inductive InstructionOperand where
  | BitIndex (operand subscript : InstructionOperand)
  | Binary (kind : BinaryOperatorKind) (left right : InstructionOperand)
  | Boolean (value : Bool)
  | Dereference (far : Bool) (operand : InstructionOperand) (size : Nat)
  | Index (far : Bool) (operand subscript : InstructionOperand) (subscriptScale size : Nat)
  | Integer (value : Int)
  | Register (definition : Definition)
  | Unary (kind : UnaryOperatorKind) (operand : InstructionOperand)
  deriving DecidableEq, Repr

/-- Modelled from the spec: the operand pattern of `wiz/compiler/instruction.h`. -/
inductive InstructionOperandPattern where
  | BitIndex (operandPattern subscriptPattern : InstructionOperandPattern)
  | Boolean (value : Bool)
  | Capture (operandPattern : InstructionOperandPattern)
  | Dereference (far : Bool) (operandPattern : InstructionOperandPattern) (size : Nat)
  | Index (far : Bool) (operandPattern subscriptPattern : InstructionOperandPattern)
      (subscriptScale size : Nat)
  | IntegerAtLeast (min : Int)
  | IntegerRange (min max : Int)
  | Register (definition : Definition)
  | Unary (kind : UnaryOperatorKind) (operandPattern : InstructionOperandPattern)
  deriving DecidableEq, Repr

/-- Modelled from the spec: the instruction options `(opcodeBytes[], parameterSlots[],
invalidatedFlags[])` of `wiz/compiler/instruction.h`. -/
structure InstructionOptions where
  opcode : List Nat
  parameter : List Nat
  affectedFlags : List Definition
  deriving DecidableEq, Repr

/-- Modelled from the spec: a source location, passed through to the report. -/
structure SourceLocation where
  line : Nat
  deriving DecidableEq, Repr

/-- Modelled from the spec: one call `report->error(message, location)`. -/
structure Diagnostic where
  message : String
  location : SourceLocation
  deriving DecidableEq, Repr

/-- Modelled from the spec: the report sink, the list of the errors reported so far. -/
abbrev Report := List Diagnostic

/-- The call `report->error(message, location)`. -/
def Report.error (report : Report) (message : String) (location : SourceLocation) : Report :=
  report ++ [Diagnostic.mk message location]

/-- Modelled from the spec: the bank, exposing the current absolute output address
(`bank->getAddress().absolutePosition.get()`). -/
structure Bank where
  absolutePosition : Nat
  deriving DecidableEq, Repr

/-- The capture lists: one list of captured operands per operand position. -/
abbrev CaptureLists := List (List InstructionOperand)

/-- The read `captureLists[i][j]->integer.value`. -/
def captureInteger (captureLists : CaptureLists) (i j : Nat) : Option Int :=
  match captureLists[i]? with
  | some captures =>
    match captures[j]? with
    | some (InstructionOperand.Integer value) => some value
    | _ => none
  | none => none

/-- The outcome of a write function: the buffer and the report after the call, and the
returned flag. -/
structure WriteResult where
  success : Bool
  buffer : List Nat
  report : Report
  deriving DecidableEq, Repr

/-- Modelled from the spec: an instruction encoding of `wiz/compiler/instruction.h`, the
pair of a size function and a write function. -/
structure InstructionEncoding where
  calculateSize : InstructionOptions → CaptureLists → Option Nat
  write : Report → Bank → List Nat → InstructionOptions → CaptureLists → SourceLocation →
    Option WriteResult

/-- The message of a PC-relative range violation. -/
def pcRelativeRangeMessage : String :=
  "pc-relative offset is outside of representable signed 8-bit range -128..127"

/-- The message of a 13-bit address range violation. -/
def absoluteRangeMessage : String :=
  "absolute address is outside representable unsigned 13-bit range 0x0000..0x1FFF used by single-bit instruction"

/-- The byte pushed for an in-range PC-relative offset:
`offset < 0 ? (static_cast<std::uint8_t>(-offset) ^ 0xFF) + 1 : static_cast<std::uint8_t>(offset)`,
converted to `std::uint8_t` by `push_back`. -/
def pcRelativeByte (offset : Int) : Nat :=
  if offset < 0 then ((toU8 (-offset) ^^^ 0xFF) + 1) % 256 else toU8 offset

/-- The tail shared by the three PC-relative write functions: the range test on `offset`,
then either the offset byte, or the placeholder and the error. -/
def writePCRelativeOffset (report : Report) (buffer : List Nat) (offset : Int)
    (location : SourceLocation) : WriteResult :=
  if offset ≥ -128 ∧ offset ≤ 127 then
    WriteResult.mk true (buffer ++ [pcRelativeByte offset]) report
  else
    WriteResult.mk false (buffer ++ [0]) (report.error pcRelativeRangeMessage location)

/-! ## Instruction encodings (source lines 226-456) -/

/-- The encoding `encodingImplicit`. -/
def encodingImplicit : InstructionEncoding where
  calculateSize := fun options _ => some options.opcode.length
  write := fun report _ buffer options _ _ =>
    some (WriteResult.mk true (buffer ++ options.opcode) report)

/-- The encoding `encodingU8Operand`. -/
def encodingU8Operand : InstructionEncoding where
  calculateSize := fun options _ => some (options.opcode.length + 1)
  write := fun report _ buffer options captureLists _ => do
    let buffer := buffer ++ options.opcode
    let p0 ← options.parameter[0]?
    let value ← captureInteger captureLists p0 0
    some (WriteResult.mk true (buffer ++ [toU8 value]) report)

/-- The encoding `encodingU16Operand`. -/
def encodingU16Operand : InstructionEncoding where
  calculateSize := fun options _ => some (options.opcode.length + 2)
  write := fun report _ buffer options captureLists _ => do
    let buffer := buffer ++ options.opcode
    let p0 ← options.parameter[0]?
    let value := toU16 (← captureInteger captureLists p0 0)
    let buffer := buffer ++ [(value &&& 0xFF) % 256]
    let buffer := buffer ++ [((value >>> 8) &&& 0xFF) % 256]
    some (WriteResult.mk true buffer report)

/-- The encoding `encodingPCRelativeI8Operand`. -/
def encodingPCRelativeI8Operand : InstructionEncoding where
  calculateSize := fun options _ => some (options.opcode.length + 1)
  write := fun report bank buffer options captureLists location => do
    let buffer := buffer ++ options.opcode
    let base := toI32 (Int.ofNat (bank.absolutePosition &&& 0xFFFF))
    let p0 ← options.parameter[0]?
    let dest := toI32 (← captureInteger captureLists p0 0)
    let offset := toI32 (toI32 (dest - base) - 2)
    some (writePCRelativeOffset report buffer offset location)

/-- The encoding `encodingU8OperandPCRelativeI8Operand`. -/
def encodingU8OperandPCRelativeI8Operand : InstructionEncoding where
  calculateSize := fun options _ => some (options.opcode.length + 2)
  write := fun report bank buffer options captureLists location => do
    let buffer := buffer ++ options.opcode
    let p0 ← options.parameter[0]?
    let buffer := buffer ++ [toU8 (← captureInteger captureLists p0 0)]
    let base := toI32 (Int.ofNat bank.absolutePosition)
    let p1 ← options.parameter[1]?
    let dest := toI32 (← captureInteger captureLists p1 0)
    let offset := toI32 (toI32 (dest - base) - 3)
    some (writePCRelativeOffset report buffer offset location)

/-- The statement `buffer[i] |= bits`.  On an empty buffer `buffer.size() - 1` is no valid
index either: there the natural-number index `0` is out of range as well. -/
def orByteAt (buffer : List Nat) (i : Nat) (bits : Nat) : Option (List Nat) :=
  match buffer[i]? with
  | some byte => some (buffer.set i ((byte ||| bits) % 256))
  | none => none

/-- The encoding `encodingU8OperandBitIndex`. -/
def encodingU8OperandBitIndex : InstructionEncoding where
  calculateSize := fun options _ => some (options.opcode.length + 1)
  write := fun report _ buffer options captureLists _ => do
    let p0 ← options.parameter[0]?
    let zp := toU8 (← captureInteger captureLists p0 0)
    let p1 ← options.parameter[1]?
    let p2 ← options.parameter[2]?
    let n := toU8 (← captureInteger captureLists p1 p2)
    let buffer := buffer ++ options.opcode
    let buffer ← orByteAt buffer (buffer.length - 1) (toU8 (Int.ofNat (n <<< 5)))
    some (WriteResult.mk true (buffer ++ [zp]) report)

/-- The encoding `encodingU8OperandBitIndexBranch`. -/
def encodingU8OperandBitIndexBranch : InstructionEncoding where
  calculateSize := fun options _ => some (options.opcode.length + 2)
  write := fun report bank buffer options captureLists location => do
    let p0 ← options.parameter[0]?
    let zp := toU8 (← captureInteger captureLists p0 0)
    let p1 ← options.parameter[1]?
    let p2 ← options.parameter[2]?
    let n := toU8 (← captureInteger captureLists p1 p2)
    let buffer := buffer ++ options.opcode
    let buffer ← orByteAt buffer 0 (toU8 (Int.ofNat (n <<< 4)))
    let buffer := buffer ++ [zp]
    let base := toI32 (Int.ofNat bank.absolutePosition)
    let p3 ← options.parameter[3]?
    let dest := toI32 (← captureInteger captureLists p3 0)
    let offset := toI32 (toI32 (dest - base) - 3)
    some (writePCRelativeOffset report buffer offset location)

/-- The encoding `encodingU13OperandBitIndex`. -/
def encodingU13OperandBitIndex : InstructionEncoding where
  calculateSize := fun options _ => some (options.opcode.length + 2)
  write := fun report _ buffer options captureLists location => do
    let p0 ← options.parameter[0]?
    let abs := toU16 (← captureInteger captureLists p0 0)
    let p1 ← options.parameter[1]?
    let p2 ← options.parameter[2]?
    let n := toU16 (← captureInteger captureLists p1 p2)
    if abs < 0x2000 then
      let value := toU16 (Int.ofNat ((abs &&& 0x1FFF) ||| (n <<< 13)))
      let buffer := buffer ++ options.opcode
      let buffer := buffer ++ [(value &&& 0xFF) % 256]
      let buffer := buffer ++ [((value >>> 8) &&& 0xFF) % 256]
      some (WriteResult.mk true buffer report)
    else
      some (WriteResult.mk false (buffer ++ [0]) (report.error absoluteRangeMessage location))

/-- The encoding `encodingU8OperandU8Operand`. -/
def encodingU8OperandU8Operand : InstructionEncoding where
  calculateSize := fun options _ => some (options.opcode.length + 2)
  write := fun report _ buffer options captureLists _ => do
    let buffer := buffer ++ options.opcode
    let p0 ← options.parameter[0]?
    let buffer := buffer ++ [toU8 (← captureInteger captureLists p0 0)]
    let p1 ← options.parameter[1]?
    let buffer := buffer ++ [toU8 (← captureInteger captureLists p1 0)]
    some (WriteResult.mk true buffer report)

/-- The conversion `static_cast<std::size_t>(v)`. -/
def toSize (v : Int) : Nat := (v % 18446744073709551616).toNat

/-- The loop `for (std::size_t i = 0; i != count; ++i)` whose body appends `chunk` to the
buffer. -/
def appendRepeated (buffer : List Nat) (chunk : List Nat) : Nat → List Nat
  | 0 => buffer
  | count + 1 => appendRepeated (buffer ++ chunk) chunk count

/-- The encoding `encodingRepeatedImplicit`. -/
def encodingRepeatedImplicit : InstructionEncoding where
  calculateSize := fun options captureLists => do
    let p0 ← options.parameter[0]?
    let value ← captureInteger captureLists p0 0
    some ((toSize value * options.opcode.length) % 18446744073709551616)
  write := fun report _ buffer options captureLists _ => do
    let p0 ← options.parameter[0]?
    let count := toU8 (← captureInteger captureLists p0 0)
    some (WriteResult.mk true (appendRepeated buffer options.opcode count) report)

/-- The encoding `encodingRepeatedU8Operand`. -/
def encodingRepeatedU8Operand : InstructionEncoding where
  calculateSize := fun options captureLists => do
    let p1 ← options.parameter[1]?
    let value ← captureInteger captureLists p1 0
    some ((toSize value * (options.opcode.length + 1)) % 18446744073709551616)
  write := fun report _ buffer options captureLists _ => do
    let p0 ← options.parameter[0]?
    let value := toU8 (← captureInteger captureLists p0 0)
    let p1 ← options.parameter[1]?
    let count := toU8 (← captureInteger captureLists p1 0)
    some (WriteResult.mk true (appendRepeated buffer (options.opcode ++ [value]) count) report)

/-- The encoding `encodingRepeatedU16Operand`. -/
def encodingRepeatedU16Operand : InstructionEncoding where
  calculateSize := fun options captureLists => do
    let p1 ← options.parameter[1]?
    let value ← captureInteger captureLists p1 0
    some ((toSize value * (options.opcode.length + 2)) % 18446744073709551616)
  write := fun report _ buffer options captureLists _ => do
    let p0 ← options.parameter[0]?
    let value := toU16 (← captureInteger captureLists p0 0)
    let p1 ← options.parameter[1]?
    let count := toU8 (← captureInteger captureLists p1 0)
    some (WriteResult.mk true
      (appendRepeated buffer
        (options.opcode ++ [(value &&& 0xFF) % 256, ((value >>> 8) &&& 0xFF) % 256]) count)
      report)

/-! ## Instruction table and selection -/

/-- Modelled from the spec: the operation tag of a signature
(`InstructionType` of `wiz/compiler/instruction.h`). -/
inductive InstructionType where
  | BinaryOperator (kind : BinaryOperatorKind)
  | UnaryOperator (kind : UnaryOperatorKind)
  | Branch (kind : BranchKind)
  | VoidIntrinsic (definition : Definition)
  | LoadIntrinsic (definition : Definition)
  deriving DecidableEq, Repr

/-- Modelled from the spec: the instruction signature
`(operationTag, distanceHint, operandPatterns[])`. -/
structure InstructionSignature where
  type : InstructionType
  distanceHint : Nat
  operandPatterns : List InstructionOperandPattern
  deriving DecidableEq, Repr

/-- Modelled from the spec: a registered `(Signature, Encoding, Options)` triple. -/
structure Instruction where
  signature : InstructionSignature
  encoding : InstructionEncoding
  options : InstructionOptions

/-- Modelled from the spec: an operand root, the expression an operand was resolved from
(absent for a synthesized operand) and the resolved operand (absent when the resolution
failed). -/
structure InstructionOperandRoot where
  expression : Option Expression
  operand : Option InstructionOperand
  deriving DecidableEq, Repr

/-- Modelled from the spec: the structural matcher of section 4.1,
`match(pattern, concreteOperand) -> Option<CaptureList>`, which is not under `src/`.
A register, boolean or integer pattern matches the operand of its kind that is equal to
it or lies in its inclusive range; a composite pattern matches the operand of the same
shape and access width whose parts match; `Capture` retains the operand it matches, once.
An integer pattern retains the integer it matches as well: the registrations of the source
encode that integer (`{patternA, patternImmU8}` with the parameter map `{1}` is written
from the first capture of operand position 1, `{0, 0, 1}` takes the bit subscript of
`patternDirectU8BitIndex` as the capture of index 1), where section 3 of the spec names
`Capture` alone.  Captures are listed left to right, depth first. -/
def InstructionOperandPattern.extract :
    InstructionOperandPattern → InstructionOperand → Option (List InstructionOperand)
  | .Capture inner, operand =>
    match inner.extract operand with
    | some _ => some [operand]
    | none => none
  | .Register d, .Register d1 => if d = d1 then some [] else none
  | .Boolean b, .Boolean b1 => if b = b1 then some [] else none
  | .IntegerRange lo hi, .Integer v =>
    if lo ≤ v ∧ v ≤ hi then some [InstructionOperand.Integer v] else none
  | .IntegerAtLeast lo, .Integer v =>
    if lo ≤ v then some [InstructionOperand.Integer v] else none
  | .Dereference far inner size, .Dereference far1 operand size1 =>
    if far = far1 ∧ size = size1 then inner.extract operand else none
  | .Index far base sub scale size, .Index far1 operand subscript scale1 size1 =>
    if far = far1 ∧ scale = scale1 ∧ size = size1 then
      match base.extract operand, sub.extract subscript with
      | some c1, some c2 => some (c1 ++ c2)
      | _, _ => none
    else none
  | .BitIndex container sub, .BitIndex operand subscript =>
    match container.extract operand, sub.extract subscript with
    | some c1, some c2 => some (c1 ++ c2)
    | _, _ => none
  | .Unary kind inner, .Unary kind1 operand =>
    if kind = kind1 then inner.extract operand else none
  | _, _ => none

/-- Modelled from the spec: the positional match of section 4.2 of every operand root
against the pattern list of a candidate; both lists must have the same length, and an
absent operand matches no pattern. -/
def extractCaptureLists :
    List InstructionOperandPattern → List InstructionOperandRoot → Option CaptureLists
  | [], [] => some []
  | pattern :: patterns, root :: roots =>
    match root.operand with
    | some operand =>
      match pattern.extract operand, extractCaptureLists patterns roots with
      | some captures, some rest => some (captures :: rest)
      | _, _ => none
    | none => none
  | _, _ => none

/-- Modelled from the spec: the instruction table, in registration order. -/
structure Builtins where
  instructions : List Instruction

/-- Modelled from the spec: `selectInstruction(operationTag, distanceHint, operandRoots[])`
of section 4.2, which is not under `src/`: the first candidate in registration order with
this operation tag and distance hint whose patterns all match, with its capture lists. -/
def Builtins.selectInstruction (builtins : Builtins) (type : InstructionType)
    (distanceHint : Nat) (operandRoots : List InstructionOperandRoot) :
    Option (Instruction × CaptureLists) :=
  builtins.instructions.findSome? fun instruction =>
    if instruction.signature.type = type ∧ instruction.signature.distanceHint = distanceHint then
      (extractCaptureLists instruction.signature.operandPatterns operandRoots).map
        (fun captureLists => (instruction, captureLists))
    else none

/-- Modelled from the spec: the part of the compiler that `getTestAndBranch` uses, the
instruction table (`getBuiltins()`) and the operand resolution
`createOperandFromExpression(expression, quiet)` of the surrounding compiler. -/
structure Compiler where
  builtins : Builtins
  createOperandFromExpression : Expression → Bool → Option InstructionOperand

/-- Modelled from the spec: the platform branch
`(flagDefinition, expectedPolarity, combineAsConjunction)`. -/
structure PlatformBranch where
  flagDefinition : Definition
  expectedPolarity : Bool
  combineAsConjunction : Bool
  deriving DecidableEq, Repr

/-- Modelled from the spec: the lowering result
`(intrinsicOrCompareOperation, operandExpressions[], branchTests[])`. -/
structure PlatformTestAndBranch where
  intrinsicOrCompareOperation : InstructionType
  operandExpressions : List Expression
  branchTests : List PlatformBranch
  deriving DecidableEq, Repr

/-! ## The platform (source lines 23-87 and 731-872) -/

namespace Spc700Platform

/-- The built-in type `u8`. -/
def u8Type : Definition := Definition.BuiltinIntegerType 1 0 0xFF

/-- The built-in type `u16`. -/
def u16Type : Definition := Definition.BuiltinIntegerType 2 0 0xFFFF

/-- The built-in type `u24`. -/
def u24Type : Definition := Definition.BuiltinIntegerType 3 0 0xFFFFFF

/-- The built-in type `bool`. -/
def boolType : Definition := Definition.BuiltinBoolType

/-- The register `a`. -/
def a : Definition := Definition.BuiltinRegister u8Type Symbol.a
/-- The register `x`. -/
def x : Definition := Definition.BuiltinRegister u8Type Symbol.x
/-- The register `y`. -/
def y : Definition := Definition.BuiltinRegister u8Type Symbol.y
/-- The register `ya`. -/
def ya : Definition := Definition.BuiltinRegister u16Type Symbol.ya
/-- The register `sp`. -/
def sp : Definition := Definition.BuiltinRegister u8Type Symbol.sp
/-- The register `psw`. -/
def psw : Definition := Definition.BuiltinRegister u8Type Symbol.psw

/-- The flag `negative`. -/
def negative : Definition := Definition.BuiltinRegister boolType Symbol.negative
/-- The flag `overflow`. -/
def overflow : Definition := Definition.BuiltinRegister boolType Symbol.overflow
/-- The flag `direct_page`. -/
def direct_page : Definition := Definition.BuiltinRegister boolType Symbol.direct_page
/-- The flag `break_flag`. -/
def break_flag : Definition := Definition.BuiltinRegister boolType Symbol.break_flag
/-- The flag `half_carry`. -/
def half_carry : Definition := Definition.BuiltinRegister boolType Symbol.half_carry
/-- The flag `interrupt`. -/
def interrupt : Definition := Definition.BuiltinRegister boolType Symbol.interrupt
/-- The flag `zero`. -/
def zero : Definition := Definition.BuiltinRegister boolType Symbol.zero
/-- The flag `carry`. -/
def carry : Definition := Definition.BuiltinRegister boolType Symbol.carry

/-- The intrinsic `push`. -/
def push : Definition := Definition.BuiltinVoidIntrinsic Symbol.push
/-- The intrinsic `pop`. -/
def pop : Definition := Definition.BuiltinLoadIntrinsic u8Type Symbol.pop
/-- The intrinsic `irqcall`. -/
def irqcall : Definition := Definition.BuiltinVoidIntrinsic Symbol.irqcall
/-- The intrinsic `nop`. -/
def nop : Definition := Definition.BuiltinVoidIntrinsic Symbol.nop
/-- The intrinsic `sleep`. -/
def sleep : Definition := Definition.BuiltinVoidIntrinsic Symbol.sleep
/-- The intrinsic `stop`. -/
def stop : Definition := Definition.BuiltinVoidIntrinsic Symbol.stop
/-- The intrinsic `swap_digits`. -/
def swap_digits : Definition := Definition.BuiltinVoidIntrinsic Symbol.swap_digits
/-- The intrinsic `test_and_set`. -/
def test_and_set : Definition := Definition.BuiltinVoidIntrinsic Symbol.test_and_set
/-- The intrinsic `test_and_clear`. -/
def test_and_clear : Definition := Definition.BuiltinVoidIntrinsic Symbol.test_and_clear
/-- The intrinsic `divmod`. -/
def divmod : Definition := Definition.BuiltinVoidIntrinsic Symbol.divmod
/-- The intrinsic `decimal_adjust_add`. -/
def decimal_adjust_add : Definition := Definition.BuiltinVoidIntrinsic Symbol.decimal_adjust_add
/-- The intrinsic `decimal_adjust_sub`. -/
def decimal_adjust_sub : Definition := Definition.BuiltinVoidIntrinsic Symbol.decimal_adjust_sub
/-- The intrinsic `cmp`. -/
def cmp : Definition := Definition.BuiltinVoidIntrinsic Symbol.cmp
/-- The intrinsic `cmp_branch_not_equal`. -/
def cmp_branch_not_equal : Definition := Definition.BuiltinVoidIntrinsic Symbol.cmp_branch_not_equal
/-- The intrinsic `dec_branch_not_zero`. -/
def dec_branch_not_zero : Definition := Definition.BuiltinVoidIntrinsic Symbol.dec_branch_not_zero

/-- The register decompositions added by `reserveDefinitions`, in the order of the calls
`builtins.addRegisterDecomposition(wide, parts)`. -/
def registerDecompositions : List (Definition × List Definition) := [(ya, [a, y])]

/-! ### Operand patterns (source lines 48-223) -/

/-- The pattern `patternA`. -/
def patternA : InstructionOperandPattern := InstructionOperandPattern.Register a
/-- The pattern `patternX`. -/
def patternX : InstructionOperandPattern := InstructionOperandPattern.Register x
/-- The pattern `patternY`. -/
def patternY : InstructionOperandPattern := InstructionOperandPattern.Register y
/-- The pattern `patternSP`. -/
def patternSP : InstructionOperandPattern := InstructionOperandPattern.Register sp
/-- The pattern `patternPSW`. -/
def patternPSW : InstructionOperandPattern := InstructionOperandPattern.Register psw
/-- The pattern `patternYA`. -/
def patternYA : InstructionOperandPattern := InstructionOperandPattern.Register ya
/-- The pattern `patternNegative`. -/
def patternNegative : InstructionOperandPattern := InstructionOperandPattern.Register negative
/-- The pattern `patternOverflow`. -/
def patternOverflow : InstructionOperandPattern := InstructionOperandPattern.Register overflow
/-- The pattern `patternDirectPage`. -/
def patternDirectPage : InstructionOperandPattern := InstructionOperandPattern.Register direct_page
/-- The pattern `patternInterrupt`. -/
def patternInterrupt : InstructionOperandPattern := InstructionOperandPattern.Register interrupt
/-- The pattern `patternZero`. -/
def patternZero : InstructionOperandPattern := InstructionOperandPattern.Register zero
/-- The pattern `patternCarry`. -/
def patternCarry : InstructionOperandPattern := InstructionOperandPattern.Register carry

/-- The pattern `patternFalse`. -/
def patternFalse : InstructionOperandPattern := InstructionOperandPattern.Boolean false
/-- The pattern `patternTrue`. -/
def patternTrue : InstructionOperandPattern := InstructionOperandPattern.Boolean true
/-- The pattern `patternAtLeast0`. -/
def patternAtLeast0 : InstructionOperandPattern := InstructionOperandPattern.IntegerAtLeast 0
/-- The pattern `patternAtLeast1`. -/
def patternAtLeast1 : InstructionOperandPattern := InstructionOperandPattern.IntegerAtLeast 1
/-- The pattern `patternImmBitSubscript`. -/
def patternImmBitSubscript : InstructionOperandPattern :=
  InstructionOperandPattern.IntegerRange 0 7
/-- The pattern `patternImmU8`. -/
def patternImmU8 : InstructionOperandPattern := InstructionOperandPattern.IntegerRange 0 0xFF
/-- The pattern `patternImmU16`. -/
def patternImmU16 : InstructionOperandPattern := InstructionOperandPattern.IntegerRange 0 0xFFFF
/-- The pattern `patternImmHighPageAddress`. -/
def patternImmHighPageAddress : InstructionOperandPattern :=
  InstructionOperandPattern.IntegerRange 0xFF00 0xFFFF

/-- The patterns `patternTableCall0` to `patternTableCallF`: a 16-bit dereference of the
single address `entry` (the one-argument `IntegerRange(entry)`). -/
def patternTableCall (entry : Int) : InstructionOperandPattern :=
  InstructionOperandPattern.Dereference false (InstructionOperandPattern.IntegerRange entry entry) 2

/-- The pattern `patternTableCall0`. -/
def patternTableCall0 : InstructionOperandPattern := patternTableCall 0xFFDE
/-- The pattern `patternTableCall1`. -/
def patternTableCall1 : InstructionOperandPattern := patternTableCall 0xFFDC
/-- The pattern `patternTableCall2`. -/
def patternTableCall2 : InstructionOperandPattern := patternTableCall 0xFFDA
/-- The pattern `patternTableCall3`. -/
def patternTableCall3 : InstructionOperandPattern := patternTableCall 0xFFD8
/-- The pattern `patternTableCall4`. -/
def patternTableCall4 : InstructionOperandPattern := patternTableCall 0xFFD6
/-- The pattern `patternTableCall5`. -/
def patternTableCall5 : InstructionOperandPattern := patternTableCall 0xFFD4
/-- The pattern `patternTableCall6`. -/
def patternTableCall6 : InstructionOperandPattern := patternTableCall 0xFFD2
/-- The pattern `patternTableCall7`. -/
def patternTableCall7 : InstructionOperandPattern := patternTableCall 0xFFD0
/-- The pattern `patternTableCall8`. -/
def patternTableCall8 : InstructionOperandPattern := patternTableCall 0xFFCE
/-- The pattern `patternTableCall9`. -/
def patternTableCall9 : InstructionOperandPattern := patternTableCall 0xFFCC
/-- The pattern `patternTableCallA`. -/
def patternTableCallA : InstructionOperandPattern := patternTableCall 0xFFCA
/-- The pattern `patternTableCallB`. -/
def patternTableCallB : InstructionOperandPattern := patternTableCall 0xFFC8
/-- The pattern `patternTableCallC`. -/
def patternTableCallC : InstructionOperandPattern := patternTableCall 0xFFC6
/-- The pattern `patternTableCallD`. -/
def patternTableCallD : InstructionOperandPattern := patternTableCall 0xFFC4
/-- The pattern `patternTableCallE`. -/
def patternTableCallE : InstructionOperandPattern := patternTableCall 0xFFC2
/-- The pattern `patternTableCallF`. -/
def patternTableCallF : InstructionOperandPattern := patternTableCall 0xFFC0

/-- The pattern `patternDirectU8`. -/
def patternDirectU8 : InstructionOperandPattern :=
  InstructionOperandPattern.Dereference false (InstructionOperandPattern.Capture patternImmU8) 1
/-- The pattern `patternDirectU16`. -/
def patternDirectU16 : InstructionOperandPattern :=
  InstructionOperandPattern.Dereference false (InstructionOperandPattern.Capture patternImmU8) 2
/-- The pattern `patternDirectIndexedByXU8`. -/
def patternDirectIndexedByXU8 : InstructionOperandPattern :=
  InstructionOperandPattern.Index false (InstructionOperandPattern.Capture patternImmU8)
    patternX 1 1
/-- The pattern `patternDirectIndexedByYU8`. -/
def patternDirectIndexedByYU8 : InstructionOperandPattern :=
  InstructionOperandPattern.Index false (InstructionOperandPattern.Capture patternImmU8)
    patternY 1 1
/-- The pattern `patternDirectU8BitIndex`. -/
def patternDirectU8BitIndex : InstructionOperandPattern :=
  InstructionOperandPattern.BitIndex
    (InstructionOperandPattern.Dereference false
      (InstructionOperandPattern.Capture patternImmU8) 1)
    (InstructionOperandPattern.Capture patternImmBitSubscript)
/-- The pattern `patternDirectIndexedByXIndirectU8`. -/
def patternDirectIndexedByXIndirectU8 : InstructionOperandPattern :=
  InstructionOperandPattern.Dereference false
    (InstructionOperandPattern.Index false (InstructionOperandPattern.Capture patternImmU16)
      patternX 1 2)
    1
/-- The pattern `patternDirectIndirectIndexedByYU8`. -/
def patternDirectIndirectIndexedByYU8 : InstructionOperandPattern :=
  InstructionOperandPattern.Index false
    (InstructionOperandPattern.Dereference false
      (InstructionOperandPattern.Capture patternImmU16) 2)
    patternY 1 1
/-- The pattern `patternAbsoluteU8`. -/
def patternAbsoluteU8 : InstructionOperandPattern :=
  InstructionOperandPattern.Dereference false (InstructionOperandPattern.Capture patternImmU16) 1
/-- The pattern `patternAbsoluteIndexedByXU8`. -/
def patternAbsoluteIndexedByXU8 : InstructionOperandPattern :=
  InstructionOperandPattern.Index false (InstructionOperandPattern.Capture patternImmU16)
    patternX 1 1
/-- The pattern `patternAbsoluteIndexedByYU8`. -/
def patternAbsoluteIndexedByYU8 : InstructionOperandPattern :=
  InstructionOperandPattern.Index false (InstructionOperandPattern.Capture patternImmU16)
    patternY 1 1
/-- The pattern `patternAbsoluteU8BitIndex`. -/
def patternAbsoluteU8BitIndex : InstructionOperandPattern :=
  InstructionOperandPattern.BitIndex
    (InstructionOperandPattern.Dereference false
      (InstructionOperandPattern.Capture patternImmU16) 1)
    (InstructionOperandPattern.Capture patternImmBitSubscript)
/-- The pattern `patternAbsoluteU8BitIndexNot`. -/
def patternAbsoluteU8BitIndexNot : InstructionOperandPattern :=
  InstructionOperandPattern.Unary UnaryOperatorKind.LogicalNegation
    (InstructionOperandPattern.BitIndex
      (InstructionOperandPattern.Dereference false
        (InstructionOperandPattern.Capture patternImmU16) 1)
      (InstructionOperandPattern.Capture patternImmBitSubscript))
/-- The pattern `patternXIndirectU8`. -/
def patternXIndirectU8 : InstructionOperandPattern :=
  InstructionOperandPattern.Dereference false patternX 1
/-- The pattern `patternYIndirectU8`. -/
def patternYIndirectU8 : InstructionOperandPattern :=
  InstructionOperandPattern.Dereference false patternY 1
/-- The pattern `patternXPostIncrementIndirectU8`. -/
def patternXPostIncrementIndirectU8 : InstructionOperandPattern :=
  InstructionOperandPattern.Dereference false
    (InstructionOperandPattern.Unary UnaryOperatorKind.PostIncrement patternX) 1
/-- The pattern `patternAbsoluteIndexedByXIndirectU16`. -/
def patternAbsoluteIndexedByXIndirectU16 : InstructionOperandPattern :=
  InstructionOperandPattern.Dereference false (InstructionOperandPattern.Capture patternImmU16) 2

/-! ### Instructions (source lines 458-720) -/

/-- The statement `opcode[opcode.size() - 1] |= bits` of the arithmetic loop. -/
def orLastOpcodeByte (opcode : List Nat) (bits : Nat) : List Nat :=
  match opcode[opcode.length - 1]? with
  | some byte => opcode.set (opcode.length - 1) ((byte ||| bits) % 256)
  | none => opcode

/-- The array `arithmeticOperators` (source lines 483-492). -/
def arithmeticOperators : List (InstructionType × List Nat) := [
  (InstructionType.BinaryOperator BinaryOperatorKind.BitwiseOr, [0x00]),
  (InstructionType.BinaryOperator BinaryOperatorKind.BitwiseAnd, [0x20]),
  (InstructionType.BinaryOperator BinaryOperatorKind.BitwiseXor, [0x40]),
  (InstructionType.BinaryOperator BinaryOperatorKind.AdditionWithCarry, [0x80]),
  (InstructionType.BinaryOperator BinaryOperatorKind.Addition, [0x60, 0x80]),
  (InstructionType.VoidIntrinsic cmp, [0x60]),
  (InstructionType.BinaryOperator BinaryOperatorKind.SubtractionWithCarry, [0xA0]),
  (InstructionType.BinaryOperator BinaryOperatorKind.Subtraction, [0x80, 0xA0])]

/-- One entry of `arithmeticOperandSignatures`: the two patterns, the encoding, the opcode
bits and the parameter list. -/
structure ArithmeticOperandSignature where
  left : InstructionOperandPattern
  right : InstructionOperandPattern
  encoding : InstructionEncoding
  bits : Nat
  parameter : List Nat

/-- The array `arithmeticOperandSignatures` (source lines 495-508). -/
def arithmeticOperandSignatures : List ArithmeticOperandSignature := [
  ArithmeticOperandSignature.mk patternA patternImmU8 encodingU8Operand 0x08 [1],
  ArithmeticOperandSignature.mk patternA patternXIndirectU8 encodingImplicit 0x06 [],
  ArithmeticOperandSignature.mk patternA patternDirectU8 encodingU8Operand 0x04 [1],
  ArithmeticOperandSignature.mk patternA patternDirectIndexedByXU8 encodingU8Operand 0x14 [1],
  ArithmeticOperandSignature.mk patternA patternAbsoluteU8 encodingU16Operand 0x05 [1],
  ArithmeticOperandSignature.mk patternA patternAbsoluteIndexedByXU8 encodingU16Operand 0x15 [1],
  ArithmeticOperandSignature.mk patternA patternAbsoluteIndexedByYU8 encodingU16Operand 0x16 [1],
  ArithmeticOperandSignature.mk patternA patternDirectIndexedByXIndirectU8 encodingU8Operand 0x07 [1],
  ArithmeticOperandSignature.mk patternA patternDirectIndirectIndexedByYU8 encodingU8Operand 0x17 [1],
  ArithmeticOperandSignature.mk patternXIndirectU8 patternYIndirectU8 encodingImplicit 0x19 [0, 1],
  ArithmeticOperandSignature.mk patternDirectU8 patternImmU8 encodingU8OperandU8Operand 0x18 [1, 0],
  ArithmeticOperandSignature.mk patternDirectU8 patternDirectU8 encodingU8OperandU8Operand 0x09 [1, 0]]

/-- The instructions registered by the arithmetic loop (source lines 510-516). -/
def arithmeticInstructions : List Instruction :=
  arithmeticOperators.flatMap fun op =>
    arithmeticOperandSignatures.map fun sig =>
      Instruction.mk (InstructionSignature.mk op.1 0 [sig.left, sig.right])
        sig.encoding (InstructionOptions.mk (orLastOpcodeByte op.2 sig.bits) sig.parameter [])

/-- The array `shiftOperators` (source lines 574-580). -/
def shiftOperators : List (InstructionType × Nat) := [
  (InstructionType.BinaryOperator BinaryOperatorKind.LeftShift, 0x00),
  (InstructionType.BinaryOperator BinaryOperatorKind.LogicalLeftShift, 0x00),
  (InstructionType.BinaryOperator BinaryOperatorKind.LeftRotateWithCarry, 0x20),
  (InstructionType.BinaryOperator BinaryOperatorKind.LogicalRightShift, 0x40),
  (InstructionType.BinaryOperator BinaryOperatorKind.RightRotateWithCarry, 0x60)]

/-- The instructions registered by the shift loop (source lines 581-586). -/
def shiftInstructions : List Instruction :=
  shiftOperators.flatMap fun op => [
    Instruction.mk (InstructionSignature.mk op.1 0 [patternA, patternImmU8])
      encodingRepeatedImplicit (InstructionOptions.mk [(op.2 ||| 0x1C) % 256] [1] []),
    Instruction.mk (InstructionSignature.mk op.1 0 [patternDirectU8, patternImmU8])
      encodingRepeatedU8Operand (InstructionOptions.mk [(op.2 ||| 0x0B) % 256] [0, 1] []),
    Instruction.mk (InstructionSignature.mk op.1 0 [patternDirectIndexedByXU8, patternImmU8])
      encodingRepeatedU8Operand (InstructionOptions.mk [(op.2 ||| 0x1B) % 256] [0, 1] []),
    Instruction.mk (InstructionSignature.mk op.1 0 [patternAbsoluteU8, patternImmU8])
      encodingRepeatedU16Operand (InstructionOptions.mk [(op.2 ||| 0x0C) % 256] [0, 1] [])]

/-- The instructions registered before the arithmetic loop (source lines 459-481). -/
def loadStoreInstructions : List Instruction := [
  Instruction.mk (InstructionSignature.mk (InstructionType.BinaryOperator BinaryOperatorKind.Assignment) 0 [patternA, patternImmU8])
    encodingU8Operand (InstructionOptions.mk [0xE8] [1] []),
  Instruction.mk (InstructionSignature.mk (InstructionType.BinaryOperator BinaryOperatorKind.Assignment) 0 [patternA, patternXIndirectU8])
    encodingImplicit (InstructionOptions.mk [0xE6] [] []),
  Instruction.mk (InstructionSignature.mk (InstructionType.BinaryOperator BinaryOperatorKind.Assignment) 0 [patternA, patternDirectU8])
    encodingU8Operand (InstructionOptions.mk [0xE4] [1] []),
  Instruction.mk (InstructionSignature.mk (InstructionType.BinaryOperator BinaryOperatorKind.Assignment) 0 [patternA, patternDirectIndexedByXU8])
    encodingU8Operand (InstructionOptions.mk [0xF4] [1] []),
  Instruction.mk (InstructionSignature.mk (InstructionType.BinaryOperator BinaryOperatorKind.Assignment) 0 [patternA, patternAbsoluteU8])
    encodingU16Operand (InstructionOptions.mk [0xE5] [1] []),
  Instruction.mk (InstructionSignature.mk (InstructionType.BinaryOperator BinaryOperatorKind.Assignment) 0 [patternA, patternAbsoluteIndexedByXU8])
    encodingU16Operand (InstructionOptions.mk [0xF5] [1] []),
  Instruction.mk (InstructionSignature.mk (InstructionType.BinaryOperator BinaryOperatorKind.Assignment) 0 [patternA, patternAbsoluteIndexedByYU8])
    encodingU16Operand (InstructionOptions.mk [0xF6] [1] []),
  Instruction.mk (InstructionSignature.mk (InstructionType.BinaryOperator BinaryOperatorKind.Assignment) 0 [patternA, patternDirectIndexedByXIndirectU8])
    encodingU8Operand (InstructionOptions.mk [0xE7] [1] []),
  Instruction.mk (InstructionSignature.mk (InstructionType.BinaryOperator BinaryOperatorKind.Assignment) 0 [patternA, patternDirectIndirectIndexedByYU8])
    encodingU8Operand (InstructionOptions.mk [0xF7] [1] []),
  Instruction.mk (InstructionSignature.mk (InstructionType.BinaryOperator BinaryOperatorKind.Assignment) 0 [patternA, patternXPostIncrementIndirectU8])
    encodingImplicit (InstructionOptions.mk [0xBF] [] []),
  Instruction.mk (InstructionSignature.mk (InstructionType.BinaryOperator BinaryOperatorKind.Assignment) 0 [patternXPostIncrementIndirectU8, patternA])
    encodingImplicit (InstructionOptions.mk [0xAF] [] []),
  Instruction.mk (InstructionSignature.mk (InstructionType.BinaryOperator BinaryOperatorKind.Assignment) 0 [patternXIndirectU8, patternA])
    encodingImplicit (InstructionOptions.mk [0xC6] [] []),
  Instruction.mk (InstructionSignature.mk (InstructionType.BinaryOperator BinaryOperatorKind.Assignment) 0 [patternDirectU8, patternA])
    encodingU8Operand (InstructionOptions.mk [0xC4] [0] []),
  Instruction.mk (InstructionSignature.mk (InstructionType.BinaryOperator BinaryOperatorKind.Assignment) 0 [patternDirectIndexedByXU8, patternA])
    encodingU8Operand (InstructionOptions.mk [0xD4] [0] []),
  Instruction.mk (InstructionSignature.mk (InstructionType.BinaryOperator BinaryOperatorKind.Assignment) 0 [patternAbsoluteU8, patternA])
    encodingU16Operand (InstructionOptions.mk [0xC5] [0] []),
  Instruction.mk (InstructionSignature.mk (InstructionType.BinaryOperator BinaryOperatorKind.Assignment) 0 [patternAbsoluteIndexedByXU8, patternA])
    encodingU16Operand (InstructionOptions.mk [0xD5] [0] []),
  Instruction.mk (InstructionSignature.mk (InstructionType.BinaryOperator BinaryOperatorKind.Assignment) 0 [patternAbsoluteIndexedByYU8, patternA])
    encodingU16Operand (InstructionOptions.mk [0xD6] [0] []),
  Instruction.mk (InstructionSignature.mk (InstructionType.BinaryOperator BinaryOperatorKind.Assignment) 0 [patternDirectIndexedByXIndirectU8, patternA])
    encodingU8Operand (InstructionOptions.mk [0xC7] [0] []),
  Instruction.mk (InstructionSignature.mk (InstructionType.BinaryOperator BinaryOperatorKind.Assignment) 0 [patternDirectIndirectIndexedByYU8, patternA])
    encodingU8Operand (InstructionOptions.mk [0xD7] [0] [])]

/-- The instructions registered between the arithmetic loop and the shift loop (source lines 518-571). -/
def registerInstructions : List Instruction := [
  Instruction.mk (InstructionSignature.mk (InstructionType.BinaryOperator BinaryOperatorKind.Assignment) 0 [patternX, patternImmU8])
    encodingU8Operand (InstructionOptions.mk [0xCD] [1] []),
  Instruction.mk (InstructionSignature.mk (InstructionType.BinaryOperator BinaryOperatorKind.Assignment) 0 [patternX, patternDirectU8])
    encodingU8Operand (InstructionOptions.mk [0xF8] [1] []),
  Instruction.mk (InstructionSignature.mk (InstructionType.BinaryOperator BinaryOperatorKind.Assignment) 0 [patternX, patternDirectIndexedByYU8])
    encodingU8Operand (InstructionOptions.mk [0xF9] [1] []),
  Instruction.mk (InstructionSignature.mk (InstructionType.BinaryOperator BinaryOperatorKind.Assignment) 0 [patternX, patternAbsoluteU8])
    encodingU16Operand (InstructionOptions.mk [0xE9] [1] []),
  Instruction.mk (InstructionSignature.mk (InstructionType.BinaryOperator BinaryOperatorKind.Assignment) 0 [patternDirectU8, patternX])
    encodingU8Operand (InstructionOptions.mk [0xD8] [0] []),
  Instruction.mk (InstructionSignature.mk (InstructionType.BinaryOperator BinaryOperatorKind.Assignment) 0 [patternDirectIndexedByYU8, patternX])
    encodingU8Operand (InstructionOptions.mk [0xD9] [0] []),
  Instruction.mk (InstructionSignature.mk (InstructionType.BinaryOperator BinaryOperatorKind.Assignment) 0 [patternAbsoluteU8, patternX])
    encodingU16Operand (InstructionOptions.mk [0xC9] [0] []),
  Instruction.mk (InstructionSignature.mk (InstructionType.BinaryOperator BinaryOperatorKind.Assignment) 0 [patternY, patternImmU8])
    encodingU8Operand (InstructionOptions.mk [0x8D] [1] []),
  Instruction.mk (InstructionSignature.mk (InstructionType.BinaryOperator BinaryOperatorKind.Assignment) 0 [patternY, patternDirectU8])
    encodingU8Operand (InstructionOptions.mk [0xEB] [1] []),
  Instruction.mk (InstructionSignature.mk (InstructionType.BinaryOperator BinaryOperatorKind.Assignment) 0 [patternY, patternDirectIndexedByXU8])
    encodingU8Operand (InstructionOptions.mk [0xFB] [1] []),
  Instruction.mk (InstructionSignature.mk (InstructionType.BinaryOperator BinaryOperatorKind.Assignment) 0 [patternY, patternAbsoluteU8])
    encodingU16Operand (InstructionOptions.mk [0xEC] [1] []),
  Instruction.mk (InstructionSignature.mk (InstructionType.BinaryOperator BinaryOperatorKind.Assignment) 0 [patternDirectU8, patternY])
    encodingU8Operand (InstructionOptions.mk [0xCB] [0] []),
  Instruction.mk (InstructionSignature.mk (InstructionType.BinaryOperator BinaryOperatorKind.Assignment) 0 [patternDirectIndexedByXU8, patternY])
    encodingU8Operand (InstructionOptions.mk [0xDB] [0] []),
  Instruction.mk (InstructionSignature.mk (InstructionType.BinaryOperator BinaryOperatorKind.Assignment) 0 [patternAbsoluteU8, patternY])
    encodingU16Operand (InstructionOptions.mk [0xCC] [0] []),
  Instruction.mk (InstructionSignature.mk (InstructionType.BinaryOperator BinaryOperatorKind.Assignment) 0 [patternA, patternX])
    encodingImplicit (InstructionOptions.mk [0x7D] [] []),
  Instruction.mk (InstructionSignature.mk (InstructionType.BinaryOperator BinaryOperatorKind.Assignment) 0 [patternA, patternY])
    encodingImplicit (InstructionOptions.mk [0xDD] [] []),
  Instruction.mk (InstructionSignature.mk (InstructionType.BinaryOperator BinaryOperatorKind.Assignment) 0 [patternX, patternA])
    encodingImplicit (InstructionOptions.mk [0x5D] [] []),
  Instruction.mk (InstructionSignature.mk (InstructionType.BinaryOperator BinaryOperatorKind.Assignment) 0 [patternY, patternA])
    encodingImplicit (InstructionOptions.mk [0xFD] [] []),
  Instruction.mk (InstructionSignature.mk (InstructionType.BinaryOperator BinaryOperatorKind.Assignment) 0 [patternX, patternSP])
    encodingImplicit (InstructionOptions.mk [0x9D] [] []),
  Instruction.mk (InstructionSignature.mk (InstructionType.BinaryOperator BinaryOperatorKind.Assignment) 0 [patternSP, patternX])
    encodingImplicit (InstructionOptions.mk [0xBD] [] []),
  Instruction.mk (InstructionSignature.mk (InstructionType.BinaryOperator BinaryOperatorKind.Assignment) 0 [patternDirectU8, patternImmU8])
    encodingU8OperandU8Operand (InstructionOptions.mk [0x8F] [1, 0] []),
  Instruction.mk (InstructionSignature.mk (InstructionType.BinaryOperator BinaryOperatorKind.Assignment) 0 [patternDirectU8, patternDirectU8])
    encodingU8OperandU8Operand (InstructionOptions.mk [0xFA] [1, 0] []),
  Instruction.mk (InstructionSignature.mk (InstructionType.VoidIntrinsic cmp) 0 [patternX, patternImmU8])
    encodingU8Operand (InstructionOptions.mk [0xC8] [1] []),
  Instruction.mk (InstructionSignature.mk (InstructionType.VoidIntrinsic cmp) 0 [patternX, patternDirectU8])
    encodingU8Operand (InstructionOptions.mk [0x3E] [1] []),
  Instruction.mk (InstructionSignature.mk (InstructionType.VoidIntrinsic cmp) 0 [patternX, patternAbsoluteU8])
    encodingU16Operand (InstructionOptions.mk [0x1E] [1] []),
  Instruction.mk (InstructionSignature.mk (InstructionType.VoidIntrinsic cmp) 0 [patternY, patternImmU8])
    encodingU8Operand (InstructionOptions.mk [0xAD] [1] []),
  Instruction.mk (InstructionSignature.mk (InstructionType.VoidIntrinsic cmp) 0 [patternY, patternDirectU8])
    encodingU8Operand (InstructionOptions.mk [0x7E] [1] []),
  Instruction.mk (InstructionSignature.mk (InstructionType.VoidIntrinsic cmp) 0 [patternY, patternAbsoluteU8])
    encodingU16Operand (InstructionOptions.mk [0x5E] [1] []),
  Instruction.mk (InstructionSignature.mk (InstructionType.UnaryOperator UnaryOperatorKind.PreIncrement) 0 [patternA])
    encodingImplicit (InstructionOptions.mk [0xBC] [0] [zero]),
  Instruction.mk (InstructionSignature.mk (InstructionType.UnaryOperator UnaryOperatorKind.PreIncrement) 0 [patternDirectU8])
    encodingU8Operand (InstructionOptions.mk [0xAB] [0] [zero]),
  Instruction.mk (InstructionSignature.mk (InstructionType.UnaryOperator UnaryOperatorKind.PreIncrement) 0 [patternDirectIndexedByXU8])
    encodingU8Operand (InstructionOptions.mk [0xBB] [0] [zero]),
  Instruction.mk (InstructionSignature.mk (InstructionType.UnaryOperator UnaryOperatorKind.PreIncrement) 0 [patternAbsoluteU8])
    encodingU16Operand (InstructionOptions.mk [0xAC] [0] [zero]),
  Instruction.mk (InstructionSignature.mk (InstructionType.UnaryOperator UnaryOperatorKind.PreIncrement) 0 [patternX])
    encodingImplicit (InstructionOptions.mk [0x3D] [] [zero]),
  Instruction.mk (InstructionSignature.mk (InstructionType.UnaryOperator UnaryOperatorKind.PreIncrement) 0 [patternY])
    encodingImplicit (InstructionOptions.mk [0xFC] [] [zero]),
  Instruction.mk (InstructionSignature.mk (InstructionType.UnaryOperator UnaryOperatorKind.PreDecrement) 0 [patternA])
    encodingImplicit (InstructionOptions.mk [0x9C] [0] [zero]),
  Instruction.mk (InstructionSignature.mk (InstructionType.UnaryOperator UnaryOperatorKind.PreDecrement) 0 [patternDirectU8])
    encodingU8Operand (InstructionOptions.mk [0x8B] [0] [zero]),
  Instruction.mk (InstructionSignature.mk (InstructionType.UnaryOperator UnaryOperatorKind.PreDecrement) 0 [patternDirectIndexedByXU8])
    encodingU8Operand (InstructionOptions.mk [0x9B] [0] [zero]),
  Instruction.mk (InstructionSignature.mk (InstructionType.UnaryOperator UnaryOperatorKind.PreDecrement) 0 [patternAbsoluteU8])
    encodingU16Operand (InstructionOptions.mk [0x8C] [0] [zero]),
  Instruction.mk (InstructionSignature.mk (InstructionType.UnaryOperator UnaryOperatorKind.PreDecrement) 0 [patternX])
    encodingImplicit (InstructionOptions.mk [0x1D] [] [zero]),
  Instruction.mk (InstructionSignature.mk (InstructionType.UnaryOperator UnaryOperatorKind.PreDecrement) 0 [patternY])
    encodingImplicit (InstructionOptions.mk [0xDC] [] [zero]),
  Instruction.mk (InstructionSignature.mk (InstructionType.UnaryOperator UnaryOperatorKind.BitwiseNegation) 0 [patternA])
    encodingImplicit (InstructionOptions.mk [0x48, 0xFF] [] []),
  Instruction.mk (InstructionSignature.mk (InstructionType.UnaryOperator UnaryOperatorKind.BitwiseNegation) 0 [patternA])
    encodingImplicit (InstructionOptions.mk [0x48, 0xFF, 0x60, 0x88, 0x01] [] [])]

/-- The instructions registered after the shift loop up to the call instructions (source lines 588-663). -/
def branchInstructions : List Instruction := [
  Instruction.mk (InstructionSignature.mk (InstructionType.VoidIntrinsic swap_digits) 0 [patternA])
    encodingImplicit (InstructionOptions.mk [0x9F] [] []),
  Instruction.mk (InstructionSignature.mk (InstructionType.BinaryOperator BinaryOperatorKind.Assignment) 0 [patternYA, patternDirectU16])
    encodingU8Operand (InstructionOptions.mk [0xBA] [1] []),
  Instruction.mk (InstructionSignature.mk (InstructionType.BinaryOperator BinaryOperatorKind.Assignment) 0 [patternDirectU16, patternYA])
    encodingU8Operand (InstructionOptions.mk [0xDA] [0] []),
  Instruction.mk (InstructionSignature.mk (InstructionType.UnaryOperator UnaryOperatorKind.PreIncrement) 0 [patternDirectU16])
    encodingU8Operand (InstructionOptions.mk [0x3A] [0] [zero]),
  Instruction.mk (InstructionSignature.mk (InstructionType.UnaryOperator UnaryOperatorKind.PreDecrement) 0 [patternDirectU16])
    encodingU8Operand (InstructionOptions.mk [0x1A] [0] [zero]),
  Instruction.mk (InstructionSignature.mk (InstructionType.BinaryOperator BinaryOperatorKind.Addition) 0 [patternYA, patternDirectU16])
    encodingU8Operand (InstructionOptions.mk [0x7A] [1] []),
  Instruction.mk (InstructionSignature.mk (InstructionType.BinaryOperator BinaryOperatorKind.Subtraction) 0 [patternYA, patternDirectU16])
    encodingU8Operand (InstructionOptions.mk [0x9A] [1] []),
  Instruction.mk (InstructionSignature.mk (InstructionType.VoidIntrinsic cmp) 0 [patternYA, patternDirectU16])
    encodingU8Operand (InstructionOptions.mk [0x5A] [1] []),
  Instruction.mk (InstructionSignature.mk (InstructionType.BinaryOperator BinaryOperatorKind.Multiplication) 0 [patternYA, patternY, patternA])
    encodingImplicit (InstructionOptions.mk [0xCF] [] []),
  Instruction.mk (InstructionSignature.mk (InstructionType.BinaryOperator BinaryOperatorKind.Multiplication) 0 [patternYA, patternA, patternY])
    encodingImplicit (InstructionOptions.mk [0xCF] [] []),
  Instruction.mk (InstructionSignature.mk (InstructionType.VoidIntrinsic divmod) 0 [patternYA, patternX])
    encodingImplicit (InstructionOptions.mk [0x9E] [] []),
  Instruction.mk (InstructionSignature.mk (InstructionType.VoidIntrinsic decimal_adjust_add) 0 [])
    encodingImplicit (InstructionOptions.mk [0xDF] [] []),
  Instruction.mk (InstructionSignature.mk (InstructionType.VoidIntrinsic decimal_adjust_sub) 0 [])
    encodingImplicit (InstructionOptions.mk [0xBE] [] []),
  Instruction.mk (InstructionSignature.mk (InstructionType.Branch BranchKind.Goto) 0 [patternAtLeast0, patternImmU16])
    encodingPCRelativeI8Operand (InstructionOptions.mk [0x2F] [1] []),
  Instruction.mk (InstructionSignature.mk (InstructionType.Branch BranchKind.Goto) 0 [patternAtLeast1, patternImmU16])
    encodingU16Operand (InstructionOptions.mk [0x5F] [1] []),
  Instruction.mk (InstructionSignature.mk (InstructionType.Branch BranchKind.Goto) 0 [patternAtLeast0, patternAbsoluteIndexedByXIndirectU16])
    encodingU16Operand (InstructionOptions.mk [0x1F] [1] []),
  Instruction.mk (InstructionSignature.mk (InstructionType.Branch BranchKind.Goto) 0 [patternAtLeast0, patternImmU16, patternCarry, patternFalse])
    encodingPCRelativeI8Operand (InstructionOptions.mk [0x90] [1] []),
  Instruction.mk (InstructionSignature.mk (InstructionType.Branch BranchKind.Goto) 0 [patternAtLeast0, patternImmU16, patternCarry, patternTrue])
    encodingPCRelativeI8Operand (InstructionOptions.mk [0xB0] [1] []),
  Instruction.mk (InstructionSignature.mk (InstructionType.Branch BranchKind.Goto) 0 [patternAtLeast0, patternImmU16, patternZero, patternFalse])
    encodingPCRelativeI8Operand (InstructionOptions.mk [0xD0] [1] []),
  Instruction.mk (InstructionSignature.mk (InstructionType.Branch BranchKind.Goto) 0 [patternAtLeast0, patternImmU16, patternZero, patternTrue])
    encodingPCRelativeI8Operand (InstructionOptions.mk [0xF0] [1] []),
  Instruction.mk (InstructionSignature.mk (InstructionType.Branch BranchKind.Goto) 0 [patternAtLeast0, patternImmU16, patternNegative, patternFalse])
    encodingPCRelativeI8Operand (InstructionOptions.mk [0x10] [1] []),
  Instruction.mk (InstructionSignature.mk (InstructionType.Branch BranchKind.Goto) 0 [patternAtLeast0, patternImmU16, patternNegative, patternTrue])
    encodingPCRelativeI8Operand (InstructionOptions.mk [0x30] [1] []),
  Instruction.mk (InstructionSignature.mk (InstructionType.Branch BranchKind.Goto) 0 [patternAtLeast0, patternImmU16, patternOverflow, patternFalse])
    encodingPCRelativeI8Operand (InstructionOptions.mk [0x50] [1] []),
  Instruction.mk (InstructionSignature.mk (InstructionType.Branch BranchKind.Goto) 0 [patternAtLeast0, patternImmU16, patternOverflow, patternTrue])
    encodingPCRelativeI8Operand (InstructionOptions.mk [0x70] [1] []),
  Instruction.mk (InstructionSignature.mk (InstructionType.Branch BranchKind.Goto) 0 [patternAtLeast0, patternImmU16, patternDirectU8BitIndex, patternFalse])
    encodingU8OperandBitIndexBranch (InstructionOptions.mk [0x13] [0, 0, 1] []),
  Instruction.mk (InstructionSignature.mk (InstructionType.Branch BranchKind.Goto) 0 [patternAtLeast0, patternImmU16, patternDirectU8BitIndex, patternTrue])
    encodingU8OperandBitIndexBranch (InstructionOptions.mk [0x03] [0, 0, 1] []),
  Instruction.mk (InstructionSignature.mk (InstructionType.Branch BranchKind.Goto) 0 [patternAtLeast1, patternImmU16, patternCarry, patternFalse])
    encodingU16Operand (InstructionOptions.mk [0xB0, 3, 0x5F] [1] []),
  Instruction.mk (InstructionSignature.mk (InstructionType.Branch BranchKind.Goto) 0 [patternAtLeast1, patternImmU16, patternCarry, patternTrue])
    encodingU16Operand (InstructionOptions.mk [0x90, 3, 0x5F] [1] []),
  Instruction.mk (InstructionSignature.mk (InstructionType.Branch BranchKind.Goto) 0 [patternAtLeast1, patternImmU16, patternZero, patternFalse])
    encodingU16Operand (InstructionOptions.mk [0xF0, 3, 0x5F] [1] []),
  Instruction.mk (InstructionSignature.mk (InstructionType.Branch BranchKind.Goto) 0 [patternAtLeast1, patternImmU16, patternZero, patternTrue])
    encodingU16Operand (InstructionOptions.mk [0xD0, 3, 0x5F] [1] []),
  Instruction.mk (InstructionSignature.mk (InstructionType.Branch BranchKind.Goto) 0 [patternAtLeast1, patternImmU16, patternNegative, patternFalse])
    encodingU16Operand (InstructionOptions.mk [0x30, 3, 0x5F] [1] []),
  Instruction.mk (InstructionSignature.mk (InstructionType.Branch BranchKind.Goto) 0 [patternAtLeast1, patternImmU16, patternNegative, patternTrue])
    encodingU16Operand (InstructionOptions.mk [0x10, 3, 0x5F] [1] []),
  Instruction.mk (InstructionSignature.mk (InstructionType.Branch BranchKind.Goto) 0 [patternAtLeast1, patternImmU16, patternOverflow, patternFalse])
    encodingU16Operand (InstructionOptions.mk [0x70, 3, 0x5F] [1] []),
  Instruction.mk (InstructionSignature.mk (InstructionType.Branch BranchKind.Goto) 0 [patternAtLeast1, patternImmU16, patternOverflow, patternTrue])
    encodingU16Operand (InstructionOptions.mk [0x50, 3, 0x5F] [1] []),
  Instruction.mk (InstructionSignature.mk (InstructionType.Branch BranchKind.Goto) 0 [patternAtLeast1, patternImmU16, patternDirectU8BitIndex, patternFalse])
    encodingU8OperandBitIndexBranch (InstructionOptions.mk [0x03, 3, 0x5F] [0, 0, 1] []),
  Instruction.mk (InstructionSignature.mk (InstructionType.Branch BranchKind.Goto) 0 [patternAtLeast1, patternImmU16, patternDirectU8BitIndex, patternTrue])
    encodingU8OperandBitIndexBranch (InstructionOptions.mk [0x13, 3, 0x5F] [0, 0, 1] []),
  Instruction.mk (InstructionSignature.mk (InstructionType.VoidIntrinsic cmp_branch_not_equal) 0 [patternA, patternDirectU8, patternImmU16])
    encodingU8OperandPCRelativeI8Operand (InstructionOptions.mk [0x2E] [1, 2] []),
  Instruction.mk (InstructionSignature.mk (InstructionType.VoidIntrinsic cmp_branch_not_equal) 0 [patternA, patternDirectIndexedByXU8, patternImmU16])
    encodingU8OperandPCRelativeI8Operand (InstructionOptions.mk [0xDE] [1, 2] []),
  Instruction.mk (InstructionSignature.mk (InstructionType.VoidIntrinsic dec_branch_not_zero) 0 [patternY, patternImmU16])
    encodingPCRelativeI8Operand (InstructionOptions.mk [0xFE] [1] []),
  Instruction.mk (InstructionSignature.mk (InstructionType.VoidIntrinsic dec_branch_not_zero) 0 [patternDirectU8, patternImmU16])
    encodingU8OperandPCRelativeI8Operand (InstructionOptions.mk [0x6E] [0, 1] []),
  Instruction.mk (InstructionSignature.mk (InstructionType.Branch BranchKind.Call) 0 [patternAtLeast0, patternImmHighPageAddress])
    encodingU8Operand (InstructionOptions.mk [0x4F] [1] []),
  Instruction.mk (InstructionSignature.mk (InstructionType.Branch BranchKind.Call) 0 [patternAtLeast0, patternImmU16])
    encodingU16Operand (InstructionOptions.mk [0x3F] [1] []),
  Instruction.mk (InstructionSignature.mk (InstructionType.Branch BranchKind.Call) 0 [patternAtLeast0, patternTableCall0])
    encodingImplicit (InstructionOptions.mk [0x01] [] []),
  Instruction.mk (InstructionSignature.mk (InstructionType.Branch BranchKind.Call) 0 [patternAtLeast0, patternTableCall1])
    encodingImplicit (InstructionOptions.mk [0x11] [] []),
  Instruction.mk (InstructionSignature.mk (InstructionType.Branch BranchKind.Call) 0 [patternAtLeast0, patternTableCall2])
    encodingImplicit (InstructionOptions.mk [0x21] [] []),
  Instruction.mk (InstructionSignature.mk (InstructionType.Branch BranchKind.Call) 0 [patternAtLeast0, patternTableCall3])
    encodingImplicit (InstructionOptions.mk [0x31] [] []),
  Instruction.mk (InstructionSignature.mk (InstructionType.Branch BranchKind.Call) 0 [patternAtLeast0, patternTableCall4])
    encodingImplicit (InstructionOptions.mk [0x41] [] []),
  Instruction.mk (InstructionSignature.mk (InstructionType.Branch BranchKind.Call) 0 [patternAtLeast0, patternTableCall5])
    encodingImplicit (InstructionOptions.mk [0x51] [] []),
  Instruction.mk (InstructionSignature.mk (InstructionType.Branch BranchKind.Call) 0 [patternAtLeast0, patternTableCall6])
    encodingImplicit (InstructionOptions.mk [0x61] [] []),
  Instruction.mk (InstructionSignature.mk (InstructionType.Branch BranchKind.Call) 0 [patternAtLeast0, patternTableCall7])
    encodingImplicit (InstructionOptions.mk [0x71] [] []),
  Instruction.mk (InstructionSignature.mk (InstructionType.Branch BranchKind.Call) 0 [patternAtLeast0, patternTableCall8])
    encodingImplicit (InstructionOptions.mk [0x81] [] []),
  Instruction.mk (InstructionSignature.mk (InstructionType.Branch BranchKind.Call) 0 [patternAtLeast0, patternTableCall9])
    encodingImplicit (InstructionOptions.mk [0x91] [] []),
  Instruction.mk (InstructionSignature.mk (InstructionType.Branch BranchKind.Call) 0 [patternAtLeast0, patternTableCallA])
    encodingImplicit (InstructionOptions.mk [0xA1] [] []),
  Instruction.mk (InstructionSignature.mk (InstructionType.Branch BranchKind.Call) 0 [patternAtLeast0, patternTableCallB])
    encodingImplicit (InstructionOptions.mk [0xB1] [] []),
  Instruction.mk (InstructionSignature.mk (InstructionType.Branch BranchKind.Call) 0 [patternAtLeast0, patternTableCallC])
    encodingImplicit (InstructionOptions.mk [0xC1] [] []),
  Instruction.mk (InstructionSignature.mk (InstructionType.Branch BranchKind.Call) 0 [patternAtLeast0, patternTableCallD])
    encodingImplicit (InstructionOptions.mk [0xD1] [] []),
  Instruction.mk (InstructionSignature.mk (InstructionType.Branch BranchKind.Call) 0 [patternAtLeast0, patternTableCallE])
    encodingImplicit (InstructionOptions.mk [0xE1] [] []),
  Instruction.mk (InstructionSignature.mk (InstructionType.Branch BranchKind.Call) 0 [patternAtLeast0, patternTableCallF])
    encodingImplicit (InstructionOptions.mk [0xF1] [] [])]

/-- The instructions registered last (source lines 664-720). -/
def miscInstructions : List Instruction := [
  Instruction.mk (InstructionSignature.mk (InstructionType.Branch BranchKind.Return) 0 [patternAtLeast0])
    encodingImplicit (InstructionOptions.mk [0x6F] [] []),
  Instruction.mk (InstructionSignature.mk (InstructionType.Branch BranchKind.IrqReturn) 0 [patternAtLeast0])
    encodingImplicit (InstructionOptions.mk [0x7F] [] []),
  Instruction.mk (InstructionSignature.mk (InstructionType.VoidIntrinsic irqcall) 0 [])
    encodingImplicit (InstructionOptions.mk [0x0F] [] []),
  Instruction.mk (InstructionSignature.mk (InstructionType.VoidIntrinsic push) 0 [patternA])
    encodingImplicit (InstructionOptions.mk [0x2D] [] []),
  Instruction.mk (InstructionSignature.mk (InstructionType.VoidIntrinsic push) 0 [patternX])
    encodingImplicit (InstructionOptions.mk [0x4D] [] []),
  Instruction.mk (InstructionSignature.mk (InstructionType.VoidIntrinsic push) 0 [patternY])
    encodingImplicit (InstructionOptions.mk [0x6D] [] []),
  Instruction.mk (InstructionSignature.mk (InstructionType.VoidIntrinsic push) 0 [patternPSW])
    encodingImplicit (InstructionOptions.mk [0x0D] [] []),
  Instruction.mk (InstructionSignature.mk (InstructionType.LoadIntrinsic pop) 0 [patternA])
    encodingImplicit (InstructionOptions.mk [0xAE] [] []),
  Instruction.mk (InstructionSignature.mk (InstructionType.LoadIntrinsic pop) 0 [patternX])
    encodingImplicit (InstructionOptions.mk [0xCE] [] []),
  Instruction.mk (InstructionSignature.mk (InstructionType.LoadIntrinsic pop) 0 [patternY])
    encodingImplicit (InstructionOptions.mk [0xEE] [] []),
  Instruction.mk (InstructionSignature.mk (InstructionType.LoadIntrinsic pop) 0 [patternPSW])
    encodingImplicit (InstructionOptions.mk [0x8E] [] []),
  Instruction.mk (InstructionSignature.mk (InstructionType.BinaryOperator BinaryOperatorKind.Assignment) 0 [patternCarry, patternFalse])
    encodingImplicit (InstructionOptions.mk [0x60] [] []),
  Instruction.mk (InstructionSignature.mk (InstructionType.BinaryOperator BinaryOperatorKind.Assignment) 0 [patternCarry, patternTrue])
    encodingImplicit (InstructionOptions.mk [0x80] [] []),
  Instruction.mk (InstructionSignature.mk (InstructionType.UnaryOperator UnaryOperatorKind.LogicalNegation) 0 [patternCarry])
    encodingImplicit (InstructionOptions.mk [0xED] [] []),
  Instruction.mk (InstructionSignature.mk (InstructionType.BinaryOperator BinaryOperatorKind.Assignment) 0 [patternOverflow, patternFalse])
    encodingImplicit (InstructionOptions.mk [0xE0] [] []),
  Instruction.mk (InstructionSignature.mk (InstructionType.BinaryOperator BinaryOperatorKind.Assignment) 0 [patternDirectPage, patternFalse])
    encodingImplicit (InstructionOptions.mk [0x20] [] []),
  Instruction.mk (InstructionSignature.mk (InstructionType.BinaryOperator BinaryOperatorKind.Assignment) 0 [patternDirectPage, patternTrue])
    encodingImplicit (InstructionOptions.mk [0x40] [] []),
  Instruction.mk (InstructionSignature.mk (InstructionType.BinaryOperator BinaryOperatorKind.Assignment) 0 [patternInterrupt, patternFalse])
    encodingImplicit (InstructionOptions.mk [0xC0] [] []),
  Instruction.mk (InstructionSignature.mk (InstructionType.BinaryOperator BinaryOperatorKind.Assignment) 0 [patternInterrupt, patternTrue])
    encodingImplicit (InstructionOptions.mk [0xA0] [] []),
  Instruction.mk (InstructionSignature.mk (InstructionType.BinaryOperator BinaryOperatorKind.Assignment) 0 [patternDirectU8BitIndex, patternFalse])
    encodingU8OperandBitIndex (InstructionOptions.mk [0x12] [0, 0, 1] []),
  Instruction.mk (InstructionSignature.mk (InstructionType.BinaryOperator BinaryOperatorKind.Assignment) 0 [patternDirectU8BitIndex, patternTrue])
    encodingU8OperandBitIndex (InstructionOptions.mk [0x02] [0, 0, 1] []),
  Instruction.mk (InstructionSignature.mk (InstructionType.VoidIntrinsic test_and_clear) 0 [patternA, patternAbsoluteU8])
    encodingU16Operand (InstructionOptions.mk [0x4E] [1] []),
  Instruction.mk (InstructionSignature.mk (InstructionType.VoidIntrinsic test_and_set) 0 [patternA, patternAbsoluteU8])
    encodingU16Operand (InstructionOptions.mk [0x0E] [1] []),
  Instruction.mk (InstructionSignature.mk (InstructionType.BinaryOperator BinaryOperatorKind.BitwiseAnd) 0 [patternCarry, patternAbsoluteU8BitIndex])
    encodingU13OperandBitIndex (InstructionOptions.mk [0x4A] [1, 1, 1] []),
  Instruction.mk (InstructionSignature.mk (InstructionType.BinaryOperator BinaryOperatorKind.BitwiseAnd) 0 [patternCarry, patternAbsoluteU8BitIndexNot])
    encodingU13OperandBitIndex (InstructionOptions.mk [0x6A] [1, 1, 1] []),
  Instruction.mk (InstructionSignature.mk (InstructionType.BinaryOperator BinaryOperatorKind.BitwiseOr) 0 [patternCarry, patternAbsoluteU8BitIndex])
    encodingU13OperandBitIndex (InstructionOptions.mk [0x0A] [1, 1, 1] []),
  Instruction.mk (InstructionSignature.mk (InstructionType.BinaryOperator BinaryOperatorKind.BitwiseOr) 0 [patternCarry, patternAbsoluteU8BitIndexNot])
    encodingU13OperandBitIndex (InstructionOptions.mk [0x2A] [1, 1, 1] []),
  Instruction.mk (InstructionSignature.mk (InstructionType.BinaryOperator BinaryOperatorKind.BitwiseXor) 0 [patternCarry, patternAbsoluteU8BitIndex])
    encodingU13OperandBitIndex (InstructionOptions.mk [0x8A] [1, 1, 1] []),
  Instruction.mk (InstructionSignature.mk (InstructionType.UnaryOperator UnaryOperatorKind.LogicalNegation) 0 [patternAbsoluteU8BitIndex])
    encodingU13OperandBitIndex (InstructionOptions.mk [0xEA] [0, 0, 1] []),
  Instruction.mk (InstructionSignature.mk (InstructionType.BinaryOperator BinaryOperatorKind.Assignment) 0 [patternCarry, patternAbsoluteU8BitIndex])
    encodingU13OperandBitIndex (InstructionOptions.mk [0xAA] [1, 1, 1] []),
  Instruction.mk (InstructionSignature.mk (InstructionType.BinaryOperator BinaryOperatorKind.Assignment) 0 [patternAbsoluteU8BitIndex, patternCarry])
    encodingU13OperandBitIndex (InstructionOptions.mk [0xCA] [0, 0, 1] []),
  Instruction.mk (InstructionSignature.mk (InstructionType.VoidIntrinsic nop) 0 [])
    encodingImplicit (InstructionOptions.mk [0x00] [] []),
  Instruction.mk (InstructionSignature.mk (InstructionType.VoidIntrinsic sleep) 0 [])
    encodingImplicit (InstructionOptions.mk [0xEF] [] []),
  Instruction.mk (InstructionSignature.mk (InstructionType.VoidIntrinsic stop) 0 [])
    encodingImplicit (InstructionOptions.mk [0xFF] [] [])]

/-- The instruction table after `reserveDefinitions`, in registration order. -/
def instructions : List Instruction :=
  loadStoreInstructions ++ arithmeticInstructions ++ registerInstructions ++ shiftInstructions ++
    branchInstructions ++ miscInstructions

/-- The built-ins after `reserveDefinitions`. -/
def builtins : Builtins := Builtins.mk instructions

/-- The instructions registered with a given signature, in registration order. -/
def registered (signature : InstructionSignature) : List Instruction :=
  instructions.filter (fun instruction => instruction.signature = signature)

/-! ### Test-and-branch lowering (source lines 731-872) -/

/-- The first fusion of the equality case (source lines 735-751):
`--operand != 0 -> decrement_branch_not_zero(operand, dest)`. -/
def decrementBranchFusion (op : BinaryOperatorKind) (left right : Expression) :
    Option PlatformTestAndBranch :=
  match left with
  | Expression.UnaryOperator innerOp innerOperand =>
    if innerOp = UnaryOperatorKind.PreDecrement then
      match right with
      | Expression.IntegerLiteral value =>
        if op = BinaryOperatorKind.NotEqual ∧ value = 0 then
          some (PlatformTestAndBranch.mk
            (InstructionType.VoidIntrinsic dec_branch_not_zero) [innerOperand] [])
        else none
      | _ => none
    else none
  | _ => none

/-- The vector `operandRoots` built for the trial selection (source lines 757-760): the
register `a` for `left`, the resolved operand of `right`, and an integer placeholder for
the destination, which the source fixes to `0x1234`. -/
def operandRoots (compiler : Compiler) (left right : Expression) (placeholder : Int) :
    List InstructionOperandRoot := [
  InstructionOperandRoot.mk (some left) (some (InstructionOperand.Register a)),
  InstructionOperandRoot.mk (some right) (compiler.createOperandFromExpression right true),
  InstructionOperandRoot.mk none (some (InstructionOperand.Integer placeholder))]

/-- The second fusion of the equality case (source lines 753-771):
`a != right -> compare_branch(a, right, dest)`, probed by a trial selection with the
placeholder destination `0x1234`. -/
def compareBranchFusion (compiler : Compiler) (op : BinaryOperatorKind)
    (left right : Expression) (distanceHint : Nat) : Option PlatformTestAndBranch :=
  if distanceHint = 0 ∧ op = BinaryOperatorKind.NotEqual then
    match left with
    | Expression.ResolvedIdentifier definition =>
      if definition = a then
        if (compiler.builtins.selectInstruction
            (InstructionType.VoidIntrinsic cmp_branch_not_equal) 0
            (operandRoots compiler left right 0x1234)).isSome then
          some (PlatformTestAndBranch.mk
            (InstructionType.VoidIntrinsic cmp_branch_not_equal) [left, right] [])
        else none
      else none
    | _ => none
  else none

/-- The test shared by the signed branches of the ordering cases: `right` is an integer
literal whose value is zero. -/
def isZeroLiteral (right : Expression) : Bool :=
  match right with
  | Expression.IntegerLiteral value => value = 0
  | _ => false

/-- The function `Spc700Platform::getTestAndBranch` (source lines 731-872). -/
def getTestAndBranch (compiler : Compiler) (type : Definition) (op : BinaryOperatorKind)
    (left right : Expression) (distanceHint : Nat) : Option PlatformTestAndBranch :=
  match op with
  | BinaryOperatorKind.Equal | BinaryOperatorKind.NotEqual =>
    match decrementBranchFusion op left right with
    | some result => some result
    | none =>
      match compareBranchFusion compiler op left right distanceHint with
      | some result => some result
      | none =>
        some (PlatformTestAndBranch.mk (InstructionType.VoidIntrinsic cmp) [left, right]
          [PlatformBranch.mk zero (op = BinaryOperatorKind.Equal) true])
  | BinaryOperatorKind.LessThan | BinaryOperatorKind.GreaterThanOrEqual =>
    match type with
    | Definition.BuiltinIntegerType _ min _ =>
      if min < 0 then
        if isZeroLiteral right then
          some (PlatformTestAndBranch.mk (InstructionType.VoidIntrinsic cmp) [left, right]
            [PlatformBranch.mk negative (op = BinaryOperatorKind.LessThan) true])
        else none
      else
        some (PlatformTestAndBranch.mk (InstructionType.VoidIntrinsic cmp) [left, right]
          [PlatformBranch.mk carry (op = BinaryOperatorKind.GreaterThanOrEqual) true])
    | _ => none
  | BinaryOperatorKind.LessThanOrEqual =>
    match type with
    | Definition.BuiltinIntegerType _ min _ =>
      if min < 0 then
        if isZeroLiteral right then
          some (PlatformTestAndBranch.mk (InstructionType.VoidIntrinsic cmp) [left, right]
            [PlatformBranch.mk zero true true, PlatformBranch.mk negative true true])
        else none
      else
        some (PlatformTestAndBranch.mk (InstructionType.VoidIntrinsic cmp) [left, right]
          [PlatformBranch.mk zero true true, PlatformBranch.mk carry false true])
    | _ => none
  | BinaryOperatorKind.GreaterThan =>
    match type with
    | Definition.BuiltinIntegerType _ min _ =>
      if min < 0 then
        if isZeroLiteral right then
          some (PlatformTestAndBranch.mk (InstructionType.VoidIntrinsic cmp) [left, right]
            [PlatformBranch.mk zero true false, PlatformBranch.mk negative false true])
        else none
      else
        some (PlatformTestAndBranch.mk (InstructionType.VoidIntrinsic cmp) [left, right]
          [PlatformBranch.mk zero true false, PlatformBranch.mk carry true true])
    | _ => none
  | _ => none

/-- The general compare plan of the equality case: `cmp` over `[left, right]` and one test
of the zero flag. -/
def equalityComparePlan (op : BinaryOperatorKind) (left right : Expression) :
    PlatformTestAndBranch :=
  PlatformTestAndBranch.mk (InstructionType.VoidIntrinsic cmp) [left, right]
    [PlatformBranch.mk zero (op = BinaryOperatorKind.Equal) true]

/-- The second fusion of the equality case with the placeholder destination of the trial
selection, which the source fixes to `0x1234`, as a parameter. -/
def compareBranchFusionWith (placeholder : Int) (compiler : Compiler)
    (op : BinaryOperatorKind) (left right : Expression) (distanceHint : Nat) :
    Option PlatformTestAndBranch :=
  if distanceHint = 0 ∧ op = BinaryOperatorKind.NotEqual then
    match left with
    | Expression.ResolvedIdentifier definition =>
      if definition = a then
        if (compiler.builtins.selectInstruction
            (InstructionType.VoidIntrinsic cmp_branch_not_equal) 0
            (operandRoots compiler left right placeholder)).isSome then
          some (PlatformTestAndBranch.mk
            (InstructionType.VoidIntrinsic cmp_branch_not_equal) [left, right] [])
        else none
      else none
    | _ => none
  else none

/-- The function `getTestAndBranch` with the placeholder destination of the trial selection
as a parameter: the placeholder occurs in the second fusion of the equality case only. -/
def getTestAndBranchWith (placeholder : Int) (compiler : Compiler) (type : Definition)
    (op : BinaryOperatorKind) (left right : Expression) (distanceHint : Nat) :
    Option PlatformTestAndBranch :=
  match op with
  | BinaryOperatorKind.Equal | BinaryOperatorKind.NotEqual =>
    match decrementBranchFusion op left right with
    | some result => some result
    | none =>
      match compareBranchFusionWith placeholder compiler op left right distanceHint with
      | some result => some result
      | none => some (equalityComparePlan op left right)
  | _ => getTestAndBranch compiler type op left right distanceHint

/-- The order in which `reserveDefinitions` registers the signatures of one operation. -/
def registeredPatterns (type : InstructionType) : List (List InstructionOperandPattern) :=
  (instructions.filter (fun instruction => instruction.signature.type = type)).map
    (fun instruction => instruction.signature.operandPatterns)

end Spc700Platform

/-! ## Readings of a branch list -/

/-- A flag test holds under an assignment of the flags when its flag has the expected
polarity. -/
def PlatformBranch.holds (flags : Definition → Bool) (branch : PlatformBranch) : Bool :=
  flags branch.flagDefinition == branch.expectedPolarity

/-- Modelled from the spec: the reading of a branch list in the words of section 3
(Platform Branch) and section 4.5, whose consumer is not under `src/`: an entry holds when
its flag equals the expected polarity, and going left to right each entry is combined with
the tests before it by AND when its third field is true and by OR when it is false. -/
def combinedReading (flags : Definition → Bool) : List PlatformBranch → Bool
  | [] => true
  | first :: rest =>
    rest.foldl
      (fun result branch =>
        if branch.combineAsConjunction then result && branch.holds flags
        else result || branch.holds flags)
      (first.holds flags)

/-- Modelled from the spec: the same reading with the third field of an entry deciding how
it is combined with the tests after it. -/
def combinedReadingForward (flags : Definition → Bool) : List PlatformBranch → Bool
  | [] => true
  | [branch] => branch.holds flags
  | branch :: next :: rest =>
    if branch.combineAsConjunction then
      branch.holds flags && combinedReadingForward flags (next :: rest)
    else branch.holds flags || combinedReadingForward flags (next :: rest)

/-- The reading of a branch list that the comments of `getTestAndBranch` use
(`{ cmp(left, right); } && (zero || negative)` for the entries `(zero, true, true)`,
`(negative, true, true)`): a decision list.  The first entry whose flag has the expected
polarity decides, and its third field is the outcome of the comparison; when no entry
fires the comparison does not hold. -/
def decisionListReading (flags : Definition → Bool) : List PlatformBranch → Bool
  | [] => false
  | branch :: rest =>
    if branch.holds flags then branch.combineAsConjunction
    else decisionListReading flags rest

/-! ## Selection candidates and the flags of a compare -/

/-- The candidates of a selection: the registered instructions with the given operation
tag and distance hint, in registration order. -/
def Builtins.candidates (builtins : Builtins) (type : InstructionType) (distanceHint : Nat) :
    List Instruction :=
  builtins.instructions.filter fun instruction =>
    instruction.signature.type = type ∧ instruction.signature.distanceHint = distanceHint

/-- The match of one candidate against the operand roots, with the capture lists. -/
def Instruction.extract (operandRoots : List InstructionOperandRoot)
    (instruction : Instruction) : Option (Instruction × CaptureLists) :=
  (extractCaptureLists instruction.signature.operandPatterns operandRoots).map
    (fun captureLists => (instruction, captureLists))

/-- The flags after the SPC700 instruction `cmp` on the bytes `l` and `r`: zero is
`l = r`, carry is `l >= r`, negative is bit 7 of `(l - r) mod 256`; the other flags are
not changed by a compare and are taken as clear. -/
def cmpFlags (l r : Nat) (flag : Definition) : Bool :=
  if flag = Spc700Platform.zero then l = r
  else if flag = Spc700Platform.carry then l ≥ r
  else if flag = Spc700Platform.negative then
    (((l : Int) - (r : Int)) % 256).toNat / 128 % 2 = 1
  else false

/-- The value of a byte read as a signed 8-bit number. -/
def signedByte (l : Nat) : Int := if l ≥ 128 then (l : Int) - 256 else (l : Int)

/-- The width in bytes of a built-in register, the size of its integer type. -/
def registerSize (definition : Definition) : Option Nat :=
  match definition with
  | Definition.BuiltinRegister (Definition.BuiltinIntegerType size _ _) _ => some size
  | _ => none

/-- The truth of a comparison of two integers by a comparison operator of the source
language. -/
def BinaryOperatorKind.holds (op : BinaryOperatorKind) (l r : Int) : Bool :=
  match op with
  | BinaryOperatorKind.Equal => l = r
  | BinaryOperatorKind.NotEqual => l ≠ r
  | BinaryOperatorKind.LessThan => l < r
  | BinaryOperatorKind.GreaterThanOrEqual => l ≥ r
  | BinaryOperatorKind.LessThanOrEqual => l ≤ r
  | BinaryOperatorKind.GreaterThan => l > r
  | _ => false

/-- The opcodes of the instructions registered with a given signature, in registration
order. -/
def registeredOpcodes (signature : InstructionSignature) : List (List Nat) :=
  (Spc700Platform.registered signature).map fun instruction => instruction.options.opcode

/-- The signature that the arithmetic loop registers for an operator and an operand shape. -/
def arithmeticSignature (type : InstructionType)
    (sig : Spc700Platform.ArithmeticOperandSignature) : InstructionSignature :=
  InstructionSignature.mk type 0 [sig.left, sig.right]

/-- The signature of a conditional branch of the table: a `Goto` on the distance pattern,
the destination, the flag and the polarity. -/
def conditionalBranchSignature (distance flag : InstructionOperandPattern) (polarity : Bool) :
    InstructionSignature :=
  InstructionSignature.mk (InstructionType.Branch BranchKind.Goto) 0
    [distance, Spc700Platform.patternImmU16, flag, InstructionOperandPattern.Boolean polarity]

/-- The sixteen table-call patterns `patternTableCall0` to `patternTableCallF`, in the order
of their declarations. -/
def tableCallPatterns : List InstructionOperandPattern := [
  Spc700Platform.patternTableCall0, Spc700Platform.patternTableCall1,
  Spc700Platform.patternTableCall2, Spc700Platform.patternTableCall3,
  Spc700Platform.patternTableCall4, Spc700Platform.patternTableCall5,
  Spc700Platform.patternTableCall6, Spc700Platform.patternTableCall7,
  Spc700Platform.patternTableCall8, Spc700Platform.patternTableCall9,
  Spc700Platform.patternTableCallA, Spc700Platform.patternTableCallB,
  Spc700Platform.patternTableCallC, Spc700Platform.patternTableCallD,
  Spc700Platform.patternTableCallE, Spc700Platform.patternTableCallF]

/-- The signature of a call of the table: a `Call` on a distance and a destination
pattern. -/
def callSignature (destination : InstructionOperandPattern) : InstructionSignature :=
  InstructionSignature.mk (InstructionType.Branch BranchKind.Call) 0
    [Spc700Platform.patternAtLeast0, destination]

/-- The number of operands that the matcher retains for an operand matching a pattern. -/
def InstructionOperandPattern.captureCount : InstructionOperandPattern → Nat
  | .Capture _ => 1
  | .Register _ => 0
  | .Boolean _ => 0
  | .IntegerRange _ _ => 1
  | .IntegerAtLeast _ => 1
  | .Dereference _ inner _ => inner.captureCount
  | .Index _ base sub _ _ => base.captureCount + sub.captureCount
  | .BitIndex container sub => container.captureCount + sub.captureCount
  | .Unary _ inner => inner.captureCount

/-- The number of leading slots of `options.parameter` that the size and write functions of
each encoding read: the largest `k` with a read `options.parameter[k]`, plus one. -/
def parameterSlotsRead : List (InstructionEncoding × Nat) := [
  (encodingImplicit, 0),
  (encodingU8Operand, 1),
  (encodingU16Operand, 1),
  (encodingPCRelativeI8Operand, 1),
  (encodingU8OperandPCRelativeI8Operand, 2),
  (encodingU8OperandBitIndex, 3),
  (encodingU8OperandBitIndexBranch, 4),
  (encodingU13OperandBitIndex, 3),
  (encodingU8OperandU8Operand, 2),
  (encodingRepeatedImplicit, 1),
  (encodingRepeatedU8Operand, 2),
  (encodingRepeatedU16Operand, 2)]

/-- The test that slot 2 of a parameter list is a capture index of the operand that slot 1
names: `captureLists[options.parameter[1]][options.parameter[2]]` of the bit-index
encodings. -/
def bitSubscriptSlotFits (options : InstructionOptions) (signature : InstructionSignature) :
    Bool :=
  match options.parameter[1]?, options.parameter[2]? with
  | some position, some index =>
    match signature.operandPatterns[position]? with
    | some pattern => decide (index < pattern.captureCount)
    | none => false
  | _, _ => false

/-! ## An example compiler -/

/-- An example of the operand resolution, used to instantiate the theorems at concrete
inputs: an integer literal resolves to an integer, an identifier to its register, and the
indirection of an integer literal to a one-byte dereference of that address. -/
def exampleCreateOperandFromExpression (expression : Expression) (_quiet : Bool) :
    Option InstructionOperand :=
  match expression with
  | Expression.IntegerLiteral value => some (InstructionOperand.Integer value)
  | Expression.ResolvedIdentifier definition => some (InstructionOperand.Register definition)
  | Expression.UnaryOperator UnaryOperatorKind.Indirection (Expression.IntegerLiteral value) =>
    some (InstructionOperand.Dereference false (InstructionOperand.Integer value) 1)
  | _ => none

/-- An example compiler: the instruction table of the platform with the example operand
resolution. -/
def exampleCompiler : Compiler :=
  Compiler.mk Spc700Platform.builtins exampleCreateOperandFromExpression

/-! ## Theorems -/

open Spc700Platform

/-! ### Shared lemmas on machine integers and buffers -/

theorem and_0xFF (v : Nat) : v &&& 0xFF = v % 256 :=
  Nat.and_pow_two_sub_one_eq_mod v 8

theorem and_0xFFFF (v : Nat) : v &&& 0xFFFF = v % 65536 :=
  Nat.and_pow_two_sub_one_eq_mod v 16

theorem and_0x1FFF (v : Nat) : v &&& 0x1FFF = v % 8192 :=
  Nat.and_pow_two_sub_one_eq_mod v 13

theorem toI32_eq_self (v : Int) (hlo : -2147483648 ≤ v) (hhi : v < 2147483648) :
    toI32 v = v := by
  unfold toI32
  omega

theorem toU8_ofNat (n : Nat) : toU8 (Int.ofNat n) = n % 256 := by
  unfold toU8
  simp only [Int.ofNat_eq_coe]
  omega

theorem toU16_ofNat (n : Nat) : toU16 (Int.ofNat n) = n % 65536 := by
  unfold toU16
  simp only [Int.ofNat_eq_coe]
  omega

theorem toU8_lt (v : Int) : toU8 v < 256 := by
  unfold toU8
  omega

theorem toU16_lt (v : Int) : toU16 v < 65536 := by
  unfold toU16
  omega

theorem xor_0xFF_succ : ∀ k : Nat, k < 129 → 0 < k → ((k ^^^ 0xFF) + 1) % 256 = 256 - k := by
  decide

theorem pcRelativeByte_eq (offset : Int) (hlo : -128 ≤ offset) (hhi : offset ≤ 127) :
    pcRelativeByte offset = (offset % 256).toNat := by
  unfold pcRelativeByte
  split
  · rename_i hneg
    have hk : toU8 (-offset) = (-offset).toNat := by
      unfold toU8
      omega
    rw [hk, xor_0xFF_succ (-offset).toNat (by omega) (by omega)]
    omega
  · rfl

theorem writePCRelativeOffset_success_iff (report : Report) (buffer : List Nat) (offset : Int)
    (location : SourceLocation) :
    (writePCRelativeOffset report buffer offset location).success = true ↔
      -128 ≤ offset ∧ offset ≤ 127 := by
  unfold writePCRelativeOffset
  split
  · rename_i h
    simp only [ge_iff_le] at h
    simp [h]
  · rename_i h
    simp only [ge_iff_le] at h
    simp only [Bool.false_eq_true, false_iff]
    exact h

theorem writePCRelativeOffset_of_success (report : Report) (buffer : List Nat) (offset : Int)
    (location : SourceLocation)
    (h : (writePCRelativeOffset report buffer offset location).success = true) :
    writePCRelativeOffset report buffer offset location =
      WriteResult.mk true (buffer ++ [pcRelativeByte offset]) report := by
  have h1 := (writePCRelativeOffset_success_iff report buffer offset location).1 h
  unfold writePCRelativeOffset
  rw [if_pos ⟨h1.1, h1.2⟩]

theorem writePCRelativeOffset_of_failure (report : Report) (buffer : List Nat) (offset : Int)
    (location : SourceLocation)
    (h : (writePCRelativeOffset report buffer offset location).success = false) :
    writePCRelativeOffset report buffer offset location =
      WriteResult.mk false (buffer ++ [0])
        (report ++ [Diagnostic.mk pcRelativeRangeMessage location]) := by
  unfold writePCRelativeOffset at h ⊢
  split
  · rename_i hc
    rw [if_pos hc] at h
    cases h
  · rfl

/-- What every call of `writePCRelativeOffset` does: one byte is appended; the call fails
exactly when one diagnostic is reported, succeeds exactly when the report is unchanged, and
on failure the appended byte is the placeholder `0`. -/
theorem writePCRelativeOffset_spec (report : Report) (buffer : List Nat) (offset : Int)
    (location : SourceLocation) :
    (writePCRelativeOffset report buffer offset location).buffer.length = buffer.length + 1 ∧
    ((writePCRelativeOffset report buffer offset location).success = false ↔
      ∃ diagnostic,
        (writePCRelativeOffset report buffer offset location).report = report ++ [diagnostic]) ∧
    ((writePCRelativeOffset report buffer offset location).success = true ↔
      (writePCRelativeOffset report buffer offset location).report = report) ∧
    ((writePCRelativeOffset report buffer offset location).success = false →
      (writePCRelativeOffset report buffer offset location).buffer.getLast? = some 0) := by
  cases hs : (writePCRelativeOffset report buffer offset location).success with
  | true =>
    rw [writePCRelativeOffset_of_success report buffer offset location hs]
    simp
  | false =>
    rw [writePCRelativeOffset_of_failure report buffer offset location hs]
    simp

theorem orByteAt_length (buffer : List Nat) (i bits : Nat) (result : List Nat)
    (h : orByteAt buffer i bits = some result) : result.length = buffer.length := by
  unfold orByteAt at h
  split at h
  · rw [← Option.some.inj h, List.length_set]
  · cases h

theorem orByteAt_isSome (buffer : List Nat) (i bits : Nat) (h : i < buffer.length) :
    ∃ result, orByteAt buffer i bits = some result := by
  unfold orByteAt
  rw [List.getElem?_eq_getElem h]
  exact ⟨_, rfl⟩

/-! ### Properties of the encodings -/

/-- C1: the never-failing encodings (`encodingImplicit`, `encodingU8Operand`,
`encodingU16Operand`, `encodingU8OperandU8Operand`, and `encodingU8OperandBitIndex` with a
non-empty opcode), for every options record and all captured values that the write function
reads: the write function returns success, reports no diagnostic, and lengthens the buffer by
exactly the computed size, the opcode length plus 0, 1, 2, 2 and 1 respectively. -/
theorem never_failing_encodings_write_size (report : Report) (bank : Bank) (buffer : List Nat)
    (options : InstructionOptions) (captureLists : CaptureLists) (location : SourceLocation) :
    (encodingImplicit.calculateSize options captureLists = some (options.opcode.length + 0) ∧
      ∃ result, encodingImplicit.write report bank buffer options captureLists location
          = some result ∧
        result.success = true ∧ result.report = report ∧
        result.buffer.length = buffer.length + (options.opcode.length + 0)) ∧
    (∀ (p0 : Nat) (v0 : Int), options.parameter[0]? = some p0 →
      captureInteger captureLists p0 0 = some v0 →
      encodingU8Operand.calculateSize options captureLists = some (options.opcode.length + 1) ∧
      ∃ result, encodingU8Operand.write report bank buffer options captureLists location
          = some result ∧
        result.success = true ∧ result.report = report ∧
        result.buffer.length = buffer.length + (options.opcode.length + 1)) ∧
    (∀ (p0 : Nat) (v0 : Int), options.parameter[0]? = some p0 →
      captureInteger captureLists p0 0 = some v0 →
      encodingU16Operand.calculateSize options captureLists = some (options.opcode.length + 2) ∧
      ∃ result, encodingU16Operand.write report bank buffer options captureLists location
          = some result ∧
        result.success = true ∧ result.report = report ∧
        result.buffer.length = buffer.length + (options.opcode.length + 2)) ∧
    (∀ (p0 p1 : Nat) (v0 v1 : Int), options.parameter[0]? = some p0 →
      options.parameter[1]? = some p1 →
      captureInteger captureLists p0 0 = some v0 →
      captureInteger captureLists p1 0 = some v1 →
      encodingU8OperandU8Operand.calculateSize options captureLists
        = some (options.opcode.length + 2) ∧
      ∃ result, encodingU8OperandU8Operand.write report bank buffer options captureLists
          location = some result ∧
        result.success = true ∧ result.report = report ∧
        result.buffer.length = buffer.length + (options.opcode.length + 2)) ∧
    (∀ (p0 p1 p2 : Nat) (v0 v1 : Int), options.opcode ≠ [] →
      options.parameter[0]? = some p0 → options.parameter[1]? = some p1 →
      options.parameter[2]? = some p2 →
      captureInteger captureLists p0 0 = some v0 →
      captureInteger captureLists p1 p2 = some v1 →
      encodingU8OperandBitIndex.calculateSize options captureLists
        = some (options.opcode.length + 1) ∧
      ∃ result, encodingU8OperandBitIndex.write report bank buffer options captureLists
          location = some result ∧
        result.success = true ∧ result.report = report ∧
        result.buffer.length = buffer.length + (options.opcode.length + 1)) := by
  refine ⟨?_, ?_, ?_, ?_, ?_⟩
  · refine ⟨rfl, ⟨_, rfl, rfl, rfl, ?_⟩⟩
    simp
  · intro p0 v0 h0 hv0
    refine ⟨rfl, ?_⟩
    simp [encodingU8Operand, h0, hv0]
  · intro p0 v0 h0 hv0
    refine ⟨rfl, ?_⟩
    simp [encodingU16Operand, h0, hv0]
  · intro p0 p1 v0 v1 h0 h1 hv0 hv1
    refine ⟨rfl, ?_⟩
    simp [encodingU8OperandU8Operand, h0, h1, hv0, hv1]
  · intro p0 p1 p2 v0 v1 hop h0 h1 h2 hv0 hv1
    refine ⟨rfl, ?_⟩
    have hlen : (buffer ++ options.opcode).length - 1 < (buffer ++ options.opcode).length := by
      have : 0 < options.opcode.length := List.length_pos.2 hop
      simp only [List.length_append]
      omega
    obtain ⟨patched, hp⟩ := orByteAt_isSome (buffer ++ options.opcode)
      ((buffer ++ options.opcode).length - 1) (toU8 (Int.ofNat (toU8 v1 <<< 5))) hlen
    have hpl := orByteAt_length _ _ _ _ hp
    simp [encodingU8OperandBitIndex, h0, h1, h2, hv0, hv1] at hp ⊢
    rw [hp]
    simp at hpl ⊢
    omega

/-- C1 at concrete inputs: `a = 0x12` (opcode `0xE8`), `a = *(0x1234)` (opcode `0xE5`),
`*(0x20) = 0x12` (opcode `0x8F`) and `*(0x20) $ 3 = true` (opcode `0x02`) written after one
byte already in the buffer. -/
theorem never_failing_encodings_write_size_witness :
    (encodingU8Operand.calculateSize (InstructionOptions.mk [0xE8] [1] [])
        [[], [InstructionOperand.Integer 0x12]] = some (1 + 1) ∧
      ∃ result, encodingU8Operand.write [] (Bank.mk 0) [0xEA] (InstructionOptions.mk [0xE8] [1] [])
          [[], [InstructionOperand.Integer 0x12]] (SourceLocation.mk 1) = some result ∧
        result.success = true ∧ result.report = [] ∧
        result.buffer.length = 1 + (1 + 1)) ∧
    (encodingU8OperandBitIndex.calculateSize (InstructionOptions.mk [0x02] [0, 0, 1] [])
        [[InstructionOperand.Integer 0x20, InstructionOperand.Integer 3], []] = some (1 + 1) ∧
      ∃ result, encodingU8OperandBitIndex.write [] (Bank.mk 0) [0xEA]
          (InstructionOptions.mk [0x02] [0, 0, 1] [])
          [[InstructionOperand.Integer 0x20, InstructionOperand.Integer 3], []]
          (SourceLocation.mk 1) = some result ∧
        result.success = true ∧ result.report = [] ∧
        result.buffer.length = 1 + (1 + 1)) :=
  ⟨(never_failing_encodings_write_size [] (Bank.mk 0) [0xEA]
      (InstructionOptions.mk [0xE8] [1] []) [[], [InstructionOperand.Integer 0x12]]
      (SourceLocation.mk 1)).2.1 1 0x12 rfl rfl,
    (never_failing_encodings_write_size [] (Bank.mk 0) [0xEA]
      (InstructionOptions.mk [0x02] [0, 0, 1] [])
      [[InstructionOperand.Integer 0x20, InstructionOperand.Integer 3], []]
      (SourceLocation.mk 1)).2.2.2.2 0 0 1 0x20 3 (by decide) rfl rfl rfl rfl rfl⟩

/-- C2: the three PC-relative encodings (`encodingPCRelativeI8Operand`,
`encodingU8OperandPCRelativeI8Operand`, `encodingU8OperandBitIndexBranch`), for every
destination and bank address: the write function appends exactly the computed size, both
when it succeeds and when it fails; it returns failure if and only if it reports exactly
one diagnostic (and success if and only if it reports none), and on failure the last
appended byte is the placeholder `0`. -/
theorem pc_relative_encodings_write_size (report : Report) (bank : Bank) (buffer : List Nat)
    (options : InstructionOptions) (captureLists : CaptureLists) (location : SourceLocation) :
    (∀ (p0 : Nat) (dest : Int), options.parameter[0]? = some p0 →
      captureInteger captureLists p0 0 = some dest →
      encodingPCRelativeI8Operand.calculateSize options captureLists
        = some (options.opcode.length + 1) ∧
      ∃ result, encodingPCRelativeI8Operand.write report bank buffer options captureLists
          location = some result ∧
        result.buffer.length = buffer.length + (options.opcode.length + 1) ∧
        (result.success = false ↔ ∃ diagnostic, result.report = report ++ [diagnostic]) ∧
        (result.success = true ↔ result.report = report) ∧
        (result.success = false → result.buffer.getLast? = some 0)) ∧
    (∀ (p0 p1 : Nat) (v0 dest : Int), options.parameter[0]? = some p0 →
      options.parameter[1]? = some p1 →
      captureInteger captureLists p0 0 = some v0 →
      captureInteger captureLists p1 0 = some dest →
      encodingU8OperandPCRelativeI8Operand.calculateSize options captureLists
        = some (options.opcode.length + 2) ∧
      ∃ result, encodingU8OperandPCRelativeI8Operand.write report bank buffer options
          captureLists location = some result ∧
        result.buffer.length = buffer.length + (options.opcode.length + 2) ∧
        (result.success = false ↔ ∃ diagnostic, result.report = report ++ [diagnostic]) ∧
        (result.success = true ↔ result.report = report) ∧
        (result.success = false → result.buffer.getLast? = some 0)) ∧
    (∀ (p0 p1 p2 p3 : Nat) (v0 v1 dest : Int), buffer ++ options.opcode ≠ [] →
      options.parameter[0]? = some p0 → options.parameter[1]? = some p1 →
      options.parameter[2]? = some p2 → options.parameter[3]? = some p3 →
      captureInteger captureLists p0 0 = some v0 →
      captureInteger captureLists p1 p2 = some v1 →
      captureInteger captureLists p3 0 = some dest →
      encodingU8OperandBitIndexBranch.calculateSize options captureLists
        = some (options.opcode.length + 2) ∧
      ∃ result, encodingU8OperandBitIndexBranch.write report bank buffer options captureLists
          location = some result ∧
        result.buffer.length = buffer.length + (options.opcode.length + 2) ∧
        (result.success = false ↔ ∃ diagnostic, result.report = report ++ [diagnostic]) ∧
        (result.success = true ↔ result.report = report) ∧
        (result.success = false → result.buffer.getLast? = some 0)) := by
  refine ⟨?_, ?_, ?_⟩
  · intro p0 dest h0 hd
    refine ⟨rfl, writePCRelativeOffset report (buffer ++ options.opcode)
      (toI32 (toI32 (toI32 dest - toI32 (Int.ofNat (bank.absolutePosition &&& 0xFFFF))) - 2))
      location, ?_, ?_⟩
    · simp only [encodingPCRelativeI8Operand, h0, hd, Option.bind_eq_bind, Option.some_bind,
        Option.pure_def]
    · obtain ⟨h1, h2, h3, h4⟩ := writePCRelativeOffset_spec report (buffer ++ options.opcode)
        (toI32 (toI32 (toI32 dest - toI32 (Int.ofNat (bank.absolutePosition &&& 0xFFFF))) - 2))
        location
      refine ⟨?_, h2, h3, h4⟩
      rw [h1, List.length_append]
      omega
  · intro p0 p1 v0 dest h0 h1 hv0 hd
    refine ⟨rfl, writePCRelativeOffset report (buffer ++ options.opcode ++ [toU8 v0])
      (toI32 (toI32 (toI32 dest - toI32 (Int.ofNat bank.absolutePosition)) - 3)) location,
      ?_, ?_⟩
    · simp only [encodingU8OperandPCRelativeI8Operand, h0, h1, hv0, hd, Option.bind_eq_bind,
        Option.some_bind, Option.pure_def]
    · obtain ⟨h1, h2, h3, h4⟩ := writePCRelativeOffset_spec report
        (buffer ++ options.opcode ++ [toU8 v0])
        (toI32 (toI32 (toI32 dest - toI32 (Int.ofNat bank.absolutePosition)) - 3)) location
      refine ⟨?_, h2, h3, h4⟩
      rw [h1, List.length_append, List.length_append]
      simp only [List.length_singleton]
      omega
  · intro p0 p1 p2 p3 v0 v1 dest hne h0 h1 h2 h3 hv0 hv1 hd
    have hlen : 0 < (buffer ++ options.opcode).length := List.length_pos.2 hne
    obtain ⟨patched, hp⟩ := orByteAt_isSome (buffer ++ options.opcode) 0
      (toU8 (Int.ofNat (toU8 v1 <<< 4))) hlen
    have hpl := orByteAt_length _ _ _ _ hp
    refine ⟨rfl, writePCRelativeOffset report (patched ++ [toU8 v0])
      (toI32 (toI32 (toI32 dest - toI32 (Int.ofNat bank.absolutePosition)) - 3)) location,
      ?_, ?_⟩
    · simp only [encodingU8OperandBitIndexBranch, h0, h1, h2, h3, hv0, hv1, hd, hp,
        Option.bind_eq_bind, Option.some_bind, Option.pure_def]
    · obtain ⟨h1, h2, h3, h4⟩ := writePCRelativeOffset_spec report (patched ++ [toU8 v0])
        (toI32 (toI32 (toI32 dest - toI32 (Int.ofNat bank.absolutePosition)) - 3)) location
      refine ⟨?_, h2, h3, h4⟩
      rw [h1, List.length_append, hpl, List.length_append]
      simp only [List.length_singleton]
      omega

/-- C2 at concrete inputs: the branch `0x2F` to `0x0300` from the bank address `0x0200`
(out of range), and the bit branch `0x13` to `0x0210` with a parameter list of four slots. -/
theorem pc_relative_encodings_write_size_witness :
    (encodingPCRelativeI8Operand.calculateSize (InstructionOptions.mk [0x2F] [1] [])
        [[InstructionOperand.Integer 0], [InstructionOperand.Integer 0x300]] = some (1 + 1) ∧
      ∃ result, encodingPCRelativeI8Operand.write [] (Bank.mk 0x200) [0xEA]
          (InstructionOptions.mk [0x2F] [1] [])
          [[InstructionOperand.Integer 0], [InstructionOperand.Integer 0x300]]
          (SourceLocation.mk 1) = some result ∧
        result.buffer.length = 1 + (1 + 1) ∧
        (result.success = false ↔ ∃ diagnostic, result.report = [] ++ [diagnostic]) ∧
        (result.success = true ↔ result.report = []) ∧
        (result.success = false → result.buffer.getLast? = some 0)) ∧
    (encodingU8OperandBitIndexBranch.calculateSize (InstructionOptions.mk [0x13] [0, 0, 1, 2] [])
        [[InstructionOperand.Integer 0x20, InstructionOperand.Integer 3], [],
          [InstructionOperand.Integer 0x210]] = some (1 + 2) ∧
      ∃ result, encodingU8OperandBitIndexBranch.write [] (Bank.mk 0x200) []
          (InstructionOptions.mk [0x13] [0, 0, 1, 2] [])
          [[InstructionOperand.Integer 0x20, InstructionOperand.Integer 3], [],
            [InstructionOperand.Integer 0x210]]
          (SourceLocation.mk 1) = some result ∧
        result.buffer.length = 0 + (1 + 2) ∧
        (result.success = false ↔ ∃ diagnostic, result.report = [] ++ [diagnostic]) ∧
        (result.success = true ↔ result.report = []) ∧
        (result.success = false → result.buffer.getLast? = some 0)) :=
  ⟨(pc_relative_encodings_write_size [] (Bank.mk 0x200) [0xEA]
      (InstructionOptions.mk [0x2F] [1] [])
      [[InstructionOperand.Integer 0], [InstructionOperand.Integer 0x300]]
      (SourceLocation.mk 1)).1 1 0x300 rfl rfl,
    (pc_relative_encodings_write_size [] (Bank.mk 0x200) []
      (InstructionOptions.mk [0x13] [0, 0, 1, 2] [])
      [[InstructionOperand.Integer 0x20, InstructionOperand.Integer 3], [],
        [InstructionOperand.Integer 0x210]]
      (SourceLocation.mk 1)).2.2 0 0 1 2 0x20 3 0x210 (by decide) rfl rfl rfl rfl rfl rfl rfl⟩

/-- C3: `encodingPCRelativeI8Operand` with a bank address and a captured destination in
`0..0xFFFF`, where `offset = destination - bank address - 2`: the write function succeeds if
and only if `-128 <= offset <= 127`; on success the byte after the opcode is the 8-bit two's
complement of the offset, `offset mod 256`; on failure it is the placeholder `0` and the
range diagnostic is reported.  Offset 127 gives `0x7F`, offset -128 gives `0x80`, offsets
128 and -129 fail. -/
theorem encodingPCRelativeI8Operand_offset_range (report : Report) (bank : Bank)
    (buffer : List Nat) (options : InstructionOptions) (captureLists : CaptureLists)
    (location : SourceLocation) (p0 dest : Nat)
    (h0 : options.parameter[0]? = some p0)
    (hd : captureInteger captureLists p0 0 = some (Int.ofNat dest))
    (hbank : bank.absolutePosition ≤ 0xFFFF) (hdest : dest ≤ 0xFFFF) :
    ∃ result, encodingPCRelativeI8Operand.write report bank buffer options captureLists
        location = some result ∧
      (result.success = true ↔
        -128 ≤ (dest : Int) - bank.absolutePosition - 2 ∧
          (dest : Int) - bank.absolutePosition - 2 ≤ 127) ∧
      (result.success = true →
        result.buffer = buffer ++ options.opcode ++
          [(((dest : Int) - bank.absolutePosition - 2) % 256).toNat] ∧
        result.report = report) ∧
      (result.success = false →
        result.buffer = buffer ++ options.opcode ++ [0] ∧
        result.report = report ++ [Diagnostic.mk pcRelativeRangeMessage location]) ∧
      ((dest : Int) - bank.absolutePosition - 2 = 127 →
        result.success = true ∧ result.buffer = buffer ++ options.opcode ++ [0x7F]) ∧
      ((dest : Int) - bank.absolutePosition - 2 = -128 →
        result.success = true ∧ result.buffer = buffer ++ options.opcode ++ [0x80]) ∧
      ((dest : Int) - bank.absolutePosition - 2 = 128 →
        result.success = false ∧ result.buffer = buffer ++ options.opcode ++ [0] ∧
        result.report = report ++ [Diagnostic.mk pcRelativeRangeMessage location]) ∧
      ((dest : Int) - bank.absolutePosition - 2 = -129 →
        result.success = false ∧ result.buffer = buffer ++ options.opcode ++ [0] ∧
        result.report = report ++ [Diagnostic.mk pcRelativeRangeMessage location]) := by
  have hbase : toI32 (Int.ofNat (bank.absolutePosition &&& 0xFFFF)) = bank.absolutePosition := by
    rw [and_0xFFFF, Nat.mod_eq_of_lt (by omega)]
    exact toI32_eq_self _ (by simp only [Int.ofNat_eq_coe]; omega)
      (by simp only [Int.ofNat_eq_coe]; omega)
  have hdst : toI32 (Int.ofNat dest) = dest :=
    toI32_eq_self _ (by simp only [Int.ofNat_eq_coe]; omega)
      (by simp only [Int.ofNat_eq_coe]; omega)
  have hoff : toI32 (toI32 (toI32 (Int.ofNat dest) -
      toI32 (Int.ofNat (bank.absolutePosition &&& 0xFFFF))) - 2) =
      (dest : Int) - bank.absolutePosition - 2 := by
    rw [hbase, hdst, toI32_eq_self ((dest : Int) - bank.absolutePosition) (by omega) (by omega),
      toI32_eq_self _ (by omega) (by omega)]
  refine ⟨writePCRelativeOffset report (buffer ++ options.opcode)
    ((dest : Int) - bank.absolutePosition - 2) location, ?_, ?_⟩
  · simp only [encodingPCRelativeI8Operand, h0, hd, Option.bind_eq_bind, Option.some_bind,
      Option.pure_def, hoff]
  · have hiff := writePCRelativeOffset_success_iff report (buffer ++ options.opcode)
      ((dest : Int) - bank.absolutePosition - 2) location
    have hs := writePCRelativeOffset_of_success report (buffer ++ options.opcode)
      ((dest : Int) - bank.absolutePosition - 2) location
    have hf := writePCRelativeOffset_of_failure report (buffer ++ options.opcode)
      ((dest : Int) - bank.absolutePosition - 2) location
    refine ⟨hiff, ?_, ?_, ?_, ?_, ?_, ?_⟩
    · intro h
      have hr := hiff.1 h
      rw [hs h, pcRelativeByte_eq _ hr.1 hr.2]
      exact ⟨rfl, rfl⟩
    · intro h
      rw [hf h]
      exact ⟨rfl, rfl⟩
    · intro h
      have hsucc := hiff.2 (by omega)
      rw [hs hsucc, h]
      exact ⟨rfl, rfl⟩
    · intro h
      have hsucc := hiff.2 (by omega)
      rw [hs hsucc, h]
      exact ⟨rfl, rfl⟩
    · intro h
      have hfail : (writePCRelativeOffset report (buffer ++ options.opcode)
          ((dest : Int) - bank.absolutePosition - 2) location).success = false := by
        cases hc : (writePCRelativeOffset report (buffer ++ options.opcode)
          ((dest : Int) - bank.absolutePosition - 2) location).success with
        | false => rfl
        | true => have := hiff.1 hc; omega
      rw [hf hfail]
      exact ⟨rfl, rfl, rfl⟩
    · intro h
      have hfail : (writePCRelativeOffset report (buffer ++ options.opcode)
          ((dest : Int) - bank.absolutePosition - 2) location).success = false := by
        cases hc : (writePCRelativeOffset report (buffer ++ options.opcode)
          ((dest : Int) - bank.absolutePosition - 2) location).success with
        | false => rfl
        | true => have := hiff.1 hc; omega
      rw [hf hfail]
      exact ⟨rfl, rfl, rfl⟩

/-- C3 at a concrete input: the branch `0x2F` from the bank address `0x0200` to the
destination `0x0182`, whose offset is -128. -/
theorem encodingPCRelativeI8Operand_offset_range_witness :
    ∃ result, encodingPCRelativeI8Operand.write [] (Bank.mk 0x200) []
        (InstructionOptions.mk [0x2F] [1] [])
        [[InstructionOperand.Integer 0], [InstructionOperand.Integer (Int.ofNat 0x182)]]
        (SourceLocation.mk 1) = some result ∧
      (result.success = true ↔
        -128 ≤ ((0x182 : Nat) : Int) - (Bank.mk 0x200).absolutePosition - 2 ∧
          ((0x182 : Nat) : Int) - (Bank.mk 0x200).absolutePosition - 2 ≤ 127) ∧
      (result.success = true →
        result.buffer = [] ++ (InstructionOptions.mk [0x2F] [1] []).opcode ++
          [((((0x182 : Nat) : Int) - (Bank.mk 0x200).absolutePosition - 2) % 256).toNat] ∧
        result.report = []) ∧
      (result.success = false →
        result.buffer = [] ++ (InstructionOptions.mk [0x2F] [1] []).opcode ++ [0] ∧
        result.report = [] ++ [Diagnostic.mk pcRelativeRangeMessage (SourceLocation.mk 1)]) ∧
      (((0x182 : Nat) : Int) - (Bank.mk 0x200).absolutePosition - 2 = 127 →
        result.success = true ∧
        result.buffer = [] ++ (InstructionOptions.mk [0x2F] [1] []).opcode ++ [0x7F]) ∧
      (((0x182 : Nat) : Int) - (Bank.mk 0x200).absolutePosition - 2 = -128 →
        result.success = true ∧
        result.buffer = [] ++ (InstructionOptions.mk [0x2F] [1] []).opcode ++ [0x80]) ∧
      (((0x182 : Nat) : Int) - (Bank.mk 0x200).absolutePosition - 2 = 128 →
        result.success = false ∧
        result.buffer = [] ++ (InstructionOptions.mk [0x2F] [1] []).opcode ++ [0] ∧
        result.report = [] ++ [Diagnostic.mk pcRelativeRangeMessage (SourceLocation.mk 1)]) ∧
      (((0x182 : Nat) : Int) - (Bank.mk 0x200).absolutePosition - 2 = -129 →
        result.success = false ∧
        result.buffer = [] ++ (InstructionOptions.mk [0x2F] [1] []).opcode ++ [0] ∧
        result.report = [] ++ [Diagnostic.mk pcRelativeRangeMessage (SourceLocation.mk 1)]) :=
  encodingPCRelativeI8Operand_offset_range [] (Bank.mk 0x200) []
    (InstructionOptions.mk [0x2F] [1] [])
    [[InstructionOperand.Integer 0], [InstructionOperand.Integer (Int.ofNat 0x182)]]
    (SourceLocation.mk 1) 1 0x182 rfl rfl (by decide) (by decide)

/-- C4 (the code at the failing input): for the captured address `0x2000`, every bit
subscript, every opcode and every buffer, the write function of `encodingU13OperandBitIndex`
fails and reports one diagnostic, but appends the single byte `0` and no opcode, while the
size function promises the opcode length plus 2. -/
theorem encodingU13OperandBitIndex_failure_appends_one_byte (report : Report) (bank : Bank)
    (buffer opcode : List Nat) (location : SourceLocation) (n : Int) :
    encodingU13OperandBitIndex.write report bank buffer (InstructionOptions.mk opcode [1, 1, 1] [])
        [[], [InstructionOperand.Integer 0x2000, InstructionOperand.Integer n]] location =
      some (WriteResult.mk false (buffer ++ [0])
        (report ++ [Diagnostic.mk absoluteRangeMessage location])) ∧
    encodingU13OperandBitIndex.calculateSize (InstructionOptions.mk opcode [1, 1, 1] [])
        [[], [InstructionOperand.Integer 0x2000, InstructionOperand.Integer n]] =
      some (opcode.length + 2) ∧
    (buffer ++ [0]).length = buffer.length + 1 ∧
    (buffer ++ [0]).length ≠ buffer.length + (opcode.length + 2) := by
  refine ⟨?_, rfl, ?_, ?_⟩
  · simp [encodingU13OperandBitIndex, captureInteger, toU16, Report.error]
  · simp
  · simp

theorem packed_word_eq (address n : Nat) (ha : address < 0x2000) :
    (address &&& 0x1FFF) ||| (n <<< 13) = address + n * 8192 := by
  rw [and_0x1FFF, Nat.mod_eq_of_lt ha, Nat.shiftLeft_eq, Nat.lor_comm]
  have h := Nat.mul_add_lt_is_or (show address < 2 ^ 13 by omega) n
  rw [Nat.mul_comm] at h
  rw [← h]
  omega

/-- C5: `encodingU13OperandBitIndex` with a captured address in `0..0xFFFF` and a bit
subscript `n` in `0..7`: the write function succeeds if and only if the address is below
`0x2000`, whatever `n` is; on success it appends the opcode and then the 16-bit word
`w = (address & 0x1FFF) | (n << 13)` as two bytes, low byte first, from which
`address = w mod 0x2000` and `n = w div 0x2000` are recovered.  Address `0x1FFF` with bit 7
gives the bytes `0xFF, 0xFF` of the word `0xFFFF`; address `0x2000` fails. -/
theorem encodingU13OperandBitIndex_packing (report : Report) (bank : Bank)
    (buffer : List Nat) (options : InstructionOptions) (captureLists : CaptureLists)
    (location : SourceLocation) (p0 p1 p2 address n : Nat)
    (h0 : options.parameter[0]? = some p0) (h1 : options.parameter[1]? = some p1)
    (h2 : options.parameter[2]? = some p2)
    (ha : captureInteger captureLists p0 0 = some (Int.ofNat address))
    (hn : captureInteger captureLists p1 p2 = some (Int.ofNat n))
    (haddress : address ≤ 0xFFFF) (hbit : n ≤ 7) :
    ∃ result, encodingU13OperandBitIndex.write report bank buffer options captureLists
        location = some result ∧
      (result.success = true ↔ address < 0x2000) ∧
      (result.success = true →
        result.buffer = buffer ++ options.opcode ++
          [((address &&& 0x1FFF) ||| (n <<< 13)) % 256,
            ((address &&& 0x1FFF) ||| (n <<< 13)) / 256] ∧
        result.report = report ∧
        ((address &&& 0x1FFF) ||| (n <<< 13)) < 0x10000 ∧
        ((address &&& 0x1FFF) ||| (n <<< 13)) % 0x2000 = address ∧
        ((address &&& 0x1FFF) ||| (n <<< 13)) / 0x2000 = n) ∧
      (address = 0x1FFF → n = 7 →
        ((address &&& 0x1FFF) ||| (n <<< 13)) = 0xFFFF ∧
        result.buffer = buffer ++ options.opcode ++ [0xFF, 0xFF]) ∧
      (address = 0x2000 → result.success = false) := by
  have habs : toU16 (Int.ofNat address) = address := by
    rw [toU16_ofNat, Nat.mod_eq_of_lt (by omega)]
  have hnn : toU16 (Int.ofNat n) = n := by
    rw [toU16_ofNat, Nat.mod_eq_of_lt (by omega)]
  by_cases hlt : address < 0x2000
  · have hw := packed_word_eq address n hlt
    have hval : toU16 (Int.ofNat ((address &&& 0x1FFF) ||| (n <<< 13))) = address + n * 8192 := by
      rw [toU16_ofNat, hw, Nat.mod_eq_of_lt (by omega)]
    have hlow : ((address + n * 8192) &&& 0xFF) % 256 = (address + n * 8192) % 256 := by
      rw [and_0xFF, Nat.mod_mod]
    have hhigh : (((address + n * 8192) >>> 8) &&& 0xFF) % 256 = (address + n * 8192) / 256 := by
      rw [and_0xFF, Nat.mod_mod, Nat.shiftRight_eq_div_pow]
      omega
    refine ⟨WriteResult.mk true
      (buffer ++ options.opcode ++ [(address + n * 8192) % 256, (address + n * 8192) / 256])
      report, ?_, ?_, ?_, ?_, ?_⟩
    · simp only [encodingU13OperandBitIndex, h0, h1, h2, ha, hn, Option.bind_eq_bind,
        Option.some_bind, Option.pure_def, habs, hnn, if_pos hlt, hval, hlow, hhigh,
        List.append_assoc, List.singleton_append]
    · simp [hlt]
    · intro _
      rw [hw]
      refine ⟨rfl, rfl, by omega, by omega, by omega⟩
    · intro hA hN
      subst hA hN
      exact ⟨by decide, rfl⟩
    · intro hA
      omega
  · refine ⟨WriteResult.mk false (buffer ++ [0])
      (report ++ [Diagnostic.mk absoluteRangeMessage location]), ?_, ?_, ?_, ?_, ?_⟩
    · simp only [encodingU13OperandBitIndex, h0, h1, h2, ha, hn, Option.bind_eq_bind,
        Option.some_bind, Option.pure_def, habs, hnn, if_neg hlt, Report.error]
    · simp [hlt]
    · intro h
      cases h
    · intro hA
      omega
    · intro _
      rfl

/-- C5 at a concrete input: `carry &= *(0x1FFF) $ 7` (opcode `0x4A`). -/
theorem encodingU13OperandBitIndex_packing_witness :
    ∃ result, encodingU13OperandBitIndex.write [] (Bank.mk 0) []
        (InstructionOptions.mk [0x4A] [1, 1, 1] [])
        [[], [InstructionOperand.Integer (Int.ofNat 0x1FFF),
          InstructionOperand.Integer (Int.ofNat 7)]]
        (SourceLocation.mk 1) = some result ∧
      (result.success = true ↔ 0x1FFF < 0x2000) ∧
      (result.success = true →
        result.buffer = [] ++ (InstructionOptions.mk [0x4A] [1, 1, 1] []).opcode ++
          [((0x1FFF &&& 0x1FFF) ||| (7 <<< 13)) % 256,
            ((0x1FFF &&& 0x1FFF) ||| (7 <<< 13)) / 256] ∧
        result.report = [] ∧
        ((0x1FFF &&& 0x1FFF) ||| (7 <<< 13)) < 0x10000 ∧
        ((0x1FFF &&& 0x1FFF) ||| (7 <<< 13)) % 0x2000 = 0x1FFF ∧
        ((0x1FFF &&& 0x1FFF) ||| (7 <<< 13)) / 0x2000 = 7) ∧
      (0x1FFF = 0x1FFF → 7 = 7 →
        ((0x1FFF &&& 0x1FFF) ||| (7 <<< 13)) = 0xFFFF ∧
        result.buffer = [] ++ (InstructionOptions.mk [0x4A] [1, 1, 1] []).opcode ++
          [0xFF, 0xFF]) ∧
      (0x1FFF = 0x2000 → result.success = false) :=
  encodingU13OperandBitIndex_packing [] (Bank.mk 0) []
    (InstructionOptions.mk [0x4A] [1, 1, 1] [])
    [[], [InstructionOperand.Integer (Int.ofNat 0x1FFF),
      InstructionOperand.Integer (Int.ofNat 7)]]
    (SourceLocation.mk 1) 1 1 1 0x1FFF 7 rfl rfl rfl rfl rfl (by decide) (by decide)

/-! ### Shared lemmas on the lowering -/

theorem decrementBranchFusion_eq_some_iff (op : BinaryOperatorKind) (left right : Expression)
    (result : PlatformTestAndBranch) :
    decrementBranchFusion op left right = some result ↔
      ∃ operand, op = BinaryOperatorKind.NotEqual ∧
        left = Expression.UnaryOperator UnaryOperatorKind.PreDecrement operand ∧
        right = Expression.IntegerLiteral 0 ∧
        result = PlatformTestAndBranch.mk
          (InstructionType.VoidIntrinsic dec_branch_not_zero) [operand] [] := by
  unfold decrementBranchFusion
  constructor
  · intro h
    split at h
    · rename_i innerOp innerOperand
      split at h
      · rename_i hop
        split at h
        · rename_i value
          split at h
          · rename_i hc
            refine ⟨innerOperand, hc.1, ?_, ?_, ?_⟩
            · rw [hop]
            · rw [hc.2]
            · exact (Option.some.inj h).symm
          · exact absurd h (by simp)
        · exact absurd h (by simp)
      · exact absurd h (by simp)
    · exact absurd h (by simp)
  · rintro ⟨operand, hop, hl, hr, hres⟩
    subst hop hl hr hres
    simp

theorem decrementBranchFusion_eq_none_iff (op : BinaryOperatorKind) (left right : Expression) :
    decrementBranchFusion op left right = none ↔
      ¬ ∃ operand, op = BinaryOperatorKind.NotEqual ∧
        left = Expression.UnaryOperator UnaryOperatorKind.PreDecrement operand ∧
        right = Expression.IntegerLiteral 0 := by
  constructor
  · rintro h ⟨operand, hop, hl, hr⟩
    have := (decrementBranchFusion_eq_some_iff op left right _).2 ⟨operand, hop, hl, hr, rfl⟩
    rw [h] at this
    exact absurd this (by simp)
  · intro h
    cases hd : decrementBranchFusion op left right with
    | none => rfl
    | some result =>
      obtain ⟨operand, hop, hl, hr, _⟩ := (decrementBranchFusion_eq_some_iff op left right result).1 hd
      exact absurd ⟨operand, hop, hl, hr⟩ h

theorem compareBranchFusion_eq_some_iff (compiler : Compiler) (op : BinaryOperatorKind)
    (left right : Expression) (distanceHint : Nat) (result : PlatformTestAndBranch) :
    compareBranchFusion compiler op left right distanceHint = some result ↔
      (distanceHint = 0 ∧ op = BinaryOperatorKind.NotEqual ∧
        left = Expression.ResolvedIdentifier a ∧
        (compiler.builtins.selectInstruction
          (InstructionType.VoidIntrinsic cmp_branch_not_equal) 0
          (operandRoots compiler left right 0x1234)).isSome = true) ∧
      result = PlatformTestAndBranch.mk
        (InstructionType.VoidIntrinsic cmp_branch_not_equal) [left, right] [] := by
  unfold compareBranchFusion
  constructor
  · intro h
    split at h
    · rename_i hc
      split at h
      · rename_i definition
        split at h
        · rename_i hd
          subst hd
          split at h
          · rename_i hs
            exact ⟨⟨hc.1, hc.2, rfl, hs⟩, (Option.some.inj h).symm⟩
          · exact absurd h (by simp)
        · exact absurd h (by simp)
      · exact absurd h (by simp)
    · exact absurd h (by simp)
  · rintro ⟨⟨hd, hop, hl, hs⟩, hres⟩
    subst hd hop hl hres
    simp [hs]

theorem getTestAndBranch_equality (compiler : Compiler) (type : Definition)
    (op : BinaryOperatorKind) (left right : Expression) (distanceHint : Nat)
    (hop : op = BinaryOperatorKind.Equal ∨ op = BinaryOperatorKind.NotEqual) :
    getTestAndBranch compiler type op left right distanceHint =
      match decrementBranchFusion op left right with
      | some result => some result
      | none =>
        match compareBranchFusion compiler op left right distanceHint with
        | some result => some result
        | none => some (equalityComparePlan op left right) := by
  rcases hop with rfl | rfl <;> rfl

theorem getTestAndBranch_ordering_intrinsic (compiler : Compiler) (type : Definition)
    (op : BinaryOperatorKind) (left right : Expression) (distanceHint : Nat)
    (result : PlatformTestAndBranch)
    (hop : op ≠ BinaryOperatorKind.Equal ∧ op ≠ BinaryOperatorKind.NotEqual)
    (h : getTestAndBranch compiler type op left right distanceHint = some result) :
    result.intrinsicOrCompareOperation = InstructionType.VoidIntrinsic cmp := by
  obtain ⟨h1, h2⟩ := hop
  cases op <;> simp only [getTestAndBranch] at h <;>
    first
    | exact absurd rfl h1
    | exact absurd rfl h2
    | (split at h
       · split at h
         · split at h
           · rw [← Option.some.inj h]
           · cases h
         · rw [← Option.some.inj h]
       · cases h)
    | cases h

theorem cmp_ne_dec_branch_not_zero :
    InstructionType.VoidIntrinsic cmp ≠ InstructionType.VoidIntrinsic dec_branch_not_zero := by
  decide

theorem cmp_branch_not_equal_ne_dec_branch_not_zero :
    InstructionType.VoidIntrinsic cmp_branch_not_equal ≠
      InstructionType.VoidIntrinsic dec_branch_not_zero := by
  decide

theorem cmp_ne_cmp_branch_not_equal :
    InstructionType.VoidIntrinsic cmp ≠ InstructionType.VoidIntrinsic cmp_branch_not_equal := by
  decide

theorem getTestAndBranch_equality_not_decrement (compiler : Compiler) (type : Definition)
    (op : BinaryOperatorKind) (left right : Expression) (distanceHint : Nat)
    (hop : op = BinaryOperatorKind.Equal ∨ op = BinaryOperatorKind.NotEqual)
    (hdec : decrementBranchFusion op left right = none) :
    ∃ result, getTestAndBranch compiler type op left right distanceHint = some result ∧
      result.intrinsicOrCompareOperation ≠ InstructionType.VoidIntrinsic dec_branch_not_zero := by
  rw [getTestAndBranch_equality compiler type op left right distanceHint hop, hdec]
  cases hc : compareBranchFusion compiler op left right distanceHint with
  | none => exact ⟨_, rfl, cmp_ne_dec_branch_not_zero⟩
  | some result =>
    refine ⟨result, rfl, ?_⟩
    rw [((compareBranchFusion_eq_some_iff compiler op left right distanceHint result).1 hc).2]
    exact cmp_branch_not_equal_ne_dec_branch_not_zero

/-! ### Properties of the lowering of comparisons -/

/-- C6: `getTestAndBranch` returns the fused plan (the intrinsic `dec_branch_not_zero`, the
operand list `[operand]`, no flag test) if and only if the operator is `!=`, `left` is the
pre-decrement of `operand` and `right` is the integer literal zero, for every operand type
and every distance hint.  So `--counter != 0` lowers to the fused intrinsic without a flag
test, while `counter != 5`, `--counter != 5` and `--counter == 0` lower to another
intrinsic. -/
theorem getTestAndBranch_decrement_fusion_iff (compiler : Compiler) (type : Definition)
    (distanceHint : Nat) :
    (∀ (op : BinaryOperatorKind) (left right operand : Expression),
      getTestAndBranch compiler type op left right distanceHint =
          some (PlatformTestAndBranch.mk
            (InstructionType.VoidIntrinsic dec_branch_not_zero) [operand] []) ↔
        op = BinaryOperatorKind.NotEqual ∧
        left = Expression.UnaryOperator UnaryOperatorKind.PreDecrement operand ∧
        right = Expression.IntegerLiteral 0) ∧
    (∀ counter : Expression,
      getTestAndBranch compiler type BinaryOperatorKind.NotEqual
          (Expression.UnaryOperator UnaryOperatorKind.PreDecrement counter)
          (Expression.IntegerLiteral 0) distanceHint =
        some (PlatformTestAndBranch.mk
          (InstructionType.VoidIntrinsic dec_branch_not_zero) [counter] [])) ∧
    (∀ counter : Definition, ∃ result,
      getTestAndBranch compiler type BinaryOperatorKind.NotEqual
          (Expression.ResolvedIdentifier counter) (Expression.IntegerLiteral 5) distanceHint =
        some result ∧
      result.intrinsicOrCompareOperation ≠ InstructionType.VoidIntrinsic dec_branch_not_zero) ∧
    (∀ counter : Expression, ∃ result,
      getTestAndBranch compiler type BinaryOperatorKind.NotEqual
          (Expression.UnaryOperator UnaryOperatorKind.PreDecrement counter)
          (Expression.IntegerLiteral 5) distanceHint =
        some result ∧
      result.intrinsicOrCompareOperation ≠ InstructionType.VoidIntrinsic dec_branch_not_zero) ∧
    (∀ counter : Expression, ∃ result,
      getTestAndBranch compiler type BinaryOperatorKind.Equal
          (Expression.UnaryOperator UnaryOperatorKind.PreDecrement counter)
          (Expression.IntegerLiteral 0) distanceHint =
        some result ∧
      result.intrinsicOrCompareOperation ≠ InstructionType.VoidIntrinsic dec_branch_not_zero) := by
  have hfused : ∀ counter : Expression,
      getTestAndBranch compiler type BinaryOperatorKind.NotEqual
          (Expression.UnaryOperator UnaryOperatorKind.PreDecrement counter)
          (Expression.IntegerLiteral 0) distanceHint =
        some (PlatformTestAndBranch.mk
          (InstructionType.VoidIntrinsic dec_branch_not_zero) [counter] []) := by
    intro counter
    rw [getTestAndBranch_equality _ _ _ _ _ _ (Or.inr rfl)]
    simp [decrementBranchFusion]
  refine ⟨?_, hfused, ?_, ?_, ?_⟩
  · intro op left right operand
    constructor
    · intro h
      by_cases hop : op = BinaryOperatorKind.Equal ∨ op = BinaryOperatorKind.NotEqual
      · cases hd : decrementBranchFusion op left right with
        | none =>
          obtain ⟨result, hr, hne⟩ := getTestAndBranch_equality_not_decrement compiler type op
            left right distanceHint hop hd
          rw [h] at hr
          rw [← Option.some.inj hr] at hne
          exact absurd rfl hne
        | some result =>
          rw [getTestAndBranch_equality _ _ _ _ _ _ hop, hd] at h
          obtain ⟨operand1, h1, h2, h3, h4⟩ :=
            (decrementBranchFusion_eq_some_iff op left right result).1 hd
          rw [h4] at h
          have h5 := Option.some.inj h
          simp only [PlatformTestAndBranch.mk.injEq, List.cons.injEq, and_true, true_and] at h5
          rw [← h5]
          exact ⟨h1, h2, h3⟩
      · have h6 := getTestAndBranch_ordering_intrinsic compiler type op left right distanceHint
          _ (not_or.1 hop) h
        exact absurd h6.symm cmp_ne_dec_branch_not_zero
    · rintro ⟨rfl, rfl, rfl⟩
      exact hfused operand
  · intro counter
    exact getTestAndBranch_equality_not_decrement _ _ _ _ _ _ (Or.inr rfl)
      (by simp [decrementBranchFusion])
  · intro counter
    exact getTestAndBranch_equality_not_decrement _ _ _ _ _ _ (Or.inr rfl)
      (by simp [decrementBranchFusion])
  · intro counter
    exact getTestAndBranch_equality_not_decrement _ _ _ _ _ _ (Or.inl rfl)
      (by simp [decrementBranchFusion])

/-- C7 (the code at the failing input): for `--a != 0` on the accumulator `a`,
`getTestAndBranch` returns the fused plan `dec_branch_not_zero` over `a`, although the only
registered `dec_branch_not_zero` instructions take the register `y` or a direct-page byte,
and neither pattern matches the register `a`. -/
theorem getTestAndBranch_decrement_fusion_unregistered_operand :
    (∀ (compiler : Compiler) (type : Definition) (distanceHint : Nat),
      getTestAndBranch compiler type BinaryOperatorKind.NotEqual
          (Expression.UnaryOperator UnaryOperatorKind.PreDecrement
            (Expression.ResolvedIdentifier a))
          (Expression.IntegerLiteral 0) distanceHint =
        some (PlatformTestAndBranch.mk (InstructionType.VoidIntrinsic dec_branch_not_zero)
          [Expression.ResolvedIdentifier a] [])) ∧
    (instructions.filter (fun instruction =>
        instruction.signature.type = InstructionType.VoidIntrinsic dec_branch_not_zero)).map
      (fun instruction => instruction.signature.operandPatterns) =
      [[patternY, patternImmU16], [patternDirectU8, patternImmU16]] ∧
    patternY.extract (InstructionOperand.Register a) = none ∧
    patternDirectU8.extract (InstructionOperand.Register a) = none ∧
    (builtins.selectInstruction (InstructionType.VoidIntrinsic dec_branch_not_zero) 0
      [InstructionOperandRoot.mk (some (Expression.ResolvedIdentifier a))
          (some (InstructionOperand.Register a)),
        InstructionOperandRoot.mk none (some (InstructionOperand.Integer 0x1234))]).isSome
      = false := by
  refine ⟨?_, ?_, ?_, ?_, ?_⟩
  · intro compiler type distanceHint
    rw [getTestAndBranch_equality _ _ _ _ _ _ (Or.inr rfl)]
    simp [decrementBranchFusion]
  · set_option maxRecDepth 100000 in decide
  · decide
  · decide
  · set_option maxRecDepth 100000 in decide

/-- C8: for `==` and `!=` to which the decrement fusion does not apply, `getTestAndBranch`
returns the fused plan (the intrinsic `cmp_branch_not_equal`, the operands `[left, right]`,
no flag test) if and only if the distance hint is 0, the operator is `!=`, `left` is the
resolved identifier of the accumulator `a`, and the trial selection of
`cmp_branch_not_equal` over (register `a`, operand of `right`, placeholder integer)
succeeds; in every other case it returns the general compare plan. -/
theorem getTestAndBranch_compare_fusion_iff (compiler : Compiler) (type : Definition)
    (op : BinaryOperatorKind) (left right : Expression) (distanceHint : Nat)
    (hop : op = BinaryOperatorKind.Equal ∨ op = BinaryOperatorKind.NotEqual)
    (hdec : ¬ ∃ operand, op = BinaryOperatorKind.NotEqual ∧
      left = Expression.UnaryOperator UnaryOperatorKind.PreDecrement operand ∧
      right = Expression.IntegerLiteral 0) :
    (getTestAndBranch compiler type op left right distanceHint =
        some (PlatformTestAndBranch.mk
          (InstructionType.VoidIntrinsic cmp_branch_not_equal) [left, right] []) ↔
      (distanceHint = 0 ∧ op = BinaryOperatorKind.NotEqual ∧
        left = Expression.ResolvedIdentifier a ∧
        (compiler.builtins.selectInstruction
          (InstructionType.VoidIntrinsic cmp_branch_not_equal) 0
          [InstructionOperandRoot.mk (some left) (some (InstructionOperand.Register a)),
            InstructionOperandRoot.mk (some right)
              (compiler.createOperandFromExpression right true),
            InstructionOperandRoot.mk none (some (InstructionOperand.Integer 0x1234))]).isSome
          = true)) ∧
    (¬ (distanceHint = 0 ∧ op = BinaryOperatorKind.NotEqual ∧
        left = Expression.ResolvedIdentifier a ∧
        (compiler.builtins.selectInstruction
          (InstructionType.VoidIntrinsic cmp_branch_not_equal) 0
          [InstructionOperandRoot.mk (some left) (some (InstructionOperand.Register a)),
            InstructionOperandRoot.mk (some right)
              (compiler.createOperandFromExpression right true),
            InstructionOperandRoot.mk none (some (InstructionOperand.Integer 0x1234))]).isSome
          = true) →
      getTestAndBranch compiler type op left right distanceHint =
        some (PlatformTestAndBranch.mk (InstructionType.VoidIntrinsic cmp) [left, right]
          [PlatformBranch.mk zero (op = BinaryOperatorKind.Equal) true])) := by
  have hd := (decrementBranchFusion_eq_none_iff op left right).2 hdec
  rw [getTestAndBranch_equality compiler type op left right distanceHint hop, hd]
  cases hc : compareBranchFusion compiler op left right distanceHint with
  | none =>
    have hn : ¬ (distanceHint = 0 ∧ op = BinaryOperatorKind.NotEqual ∧
        left = Expression.ResolvedIdentifier a ∧
        (compiler.builtins.selectInstruction
          (InstructionType.VoidIntrinsic cmp_branch_not_equal) 0
          (operandRoots compiler left right 0x1234)).isSome = true) := by
      intro hcond
      have := (compareBranchFusion_eq_some_iff compiler op left right distanceHint _).2
        ⟨hcond, rfl⟩
      rw [hc] at this
      cases this
    constructor
    · constructor
      · intro h
        have h1 := congrArg PlatformTestAndBranch.intrinsicOrCompareOperation
          (Option.some.inj h)
        exact absurd h1 cmp_ne_cmp_branch_not_equal
      · intro hcond
        exact absurd hcond hn
    · intro _
      rfl
  | some result =>
    obtain ⟨hcond, hres⟩ :=
      (compareBranchFusion_eq_some_iff compiler op left right distanceHint result).1 hc
    subst hres
    constructor
    · constructor
      · intro _
        exact hcond
      · intro _
        rfl
    · intro hn
      exact absurd hcond hn

/-- C8 at a concrete input: `a != *(0x10)` with distance hint 0 on the registered table
lowers to `cmp_branch_not_equal`. -/
theorem getTestAndBranch_compare_fusion_iff_witness :
    getTestAndBranch exampleCompiler u8Type BinaryOperatorKind.NotEqual
        (Expression.ResolvedIdentifier a)
        (Expression.UnaryOperator UnaryOperatorKind.Indirection (Expression.IntegerLiteral 0x10))
        0 =
      some (PlatformTestAndBranch.mk (InstructionType.VoidIntrinsic cmp_branch_not_equal)
        [Expression.ResolvedIdentifier a,
          Expression.UnaryOperator UnaryOperatorKind.Indirection
            (Expression.IntegerLiteral 0x10)] []) :=
  (getTestAndBranch_compare_fusion_iff exampleCompiler u8Type BinaryOperatorKind.NotEqual
    (Expression.ResolvedIdentifier a)
    (Expression.UnaryOperator UnaryOperatorKind.Indirection (Expression.IntegerLiteral 0x10))
    0 (Or.inr rfl) (by simp)).1.2
    ⟨rfl, rfl, rfl, by set_option maxRecDepth 100000 in decide⟩

/-- C9: for `==` and `!=` when neither fusion applies, `getTestAndBranch` returns (never
none) the intrinsic `cmp` over exactly `[left, right]` with exactly one flag test, on the
zero flag, expecting the flag set for `==` and clear for `!=`, for every operand type. -/
theorem getTestAndBranch_equality_general (compiler : Compiler) (type : Definition)
    (op : BinaryOperatorKind) (left right : Expression) (distanceHint : Nat)
    (hop : op = BinaryOperatorKind.Equal ∨ op = BinaryOperatorKind.NotEqual)
    (hdec : ¬ ∃ operand, op = BinaryOperatorKind.NotEqual ∧
      left = Expression.UnaryOperator UnaryOperatorKind.PreDecrement operand ∧
      right = Expression.IntegerLiteral 0)
    (hcmp : ¬ (distanceHint = 0 ∧ op = BinaryOperatorKind.NotEqual ∧
        left = Expression.ResolvedIdentifier a ∧
        (compiler.builtins.selectInstruction
          (InstructionType.VoidIntrinsic cmp_branch_not_equal) 0
          [InstructionOperandRoot.mk (some left) (some (InstructionOperand.Register a)),
            InstructionOperandRoot.mk (some right)
              (compiler.createOperandFromExpression right true),
            InstructionOperandRoot.mk none (some (InstructionOperand.Integer 0x1234))]).isSome
          = true)) :
    ∃ polarity : Bool,
      getTestAndBranch compiler type op left right distanceHint =
        some (PlatformTestAndBranch.mk (InstructionType.VoidIntrinsic cmp) [left, right]
          [PlatformBranch.mk zero polarity true]) ∧
      (op = BinaryOperatorKind.Equal → polarity = true) ∧
      (op = BinaryOperatorKind.NotEqual → polarity = false) := by
  have hd := (decrementBranchFusion_eq_none_iff op left right).2 hdec
  have hc : compareBranchFusion compiler op left right distanceHint = none := by
    cases hc : compareBranchFusion compiler op left right distanceHint with
    | none => rfl
    | some result =>
      exact absurd
        ((compareBranchFusion_eq_some_iff compiler op left right distanceHint result).1 hc).1
        hcmp
  refine ⟨decide (op = BinaryOperatorKind.Equal), ?_, ?_, ?_⟩
  · rw [getTestAndBranch_equality compiler type op left right distanceHint hop, hd, hc]
    rfl
  · intro h
    simp [h]
  · intro h
    simp [h]

/-- C9 at a concrete input: `x == 5` on a user-defined type lowers to `cmp` and a test of
the zero flag expecting it set. -/
theorem getTestAndBranch_equality_general_witness :
    ∃ polarity : Bool,
      getTestAndBranch exampleCompiler (Definition.Other 7) BinaryOperatorKind.Equal
          (Expression.ResolvedIdentifier x) (Expression.IntegerLiteral 5) 0 =
        some (PlatformTestAndBranch.mk (InstructionType.VoidIntrinsic cmp)
          [Expression.ResolvedIdentifier x, Expression.IntegerLiteral 5]
          [PlatformBranch.mk zero polarity true]) ∧
      (BinaryOperatorKind.Equal = BinaryOperatorKind.Equal → polarity = true) ∧
      (BinaryOperatorKind.Equal = BinaryOperatorKind.NotEqual → polarity = false) :=
  getTestAndBranch_equality_general exampleCompiler (Definition.Other 7)
    BinaryOperatorKind.Equal (Expression.ResolvedIdentifier x) (Expression.IntegerLiteral 5) 0
    (Or.inl rfl) (by simp) (by simp)

/-- C10: for `<` and `>=` on an integer type whose minimum is negative, with `right` the
integer literal zero, `getTestAndBranch` returns `cmp` over `[left, right]` with a single
flag test on the negative flag, expecting the flag set for `<` and clear for `>=`. -/
theorem getTestAndBranch_signed_zero_ordering (compiler : Compiler) (size : Nat)
    (min max : Int) (op : BinaryOperatorKind) (left : Expression) (distanceHint : Nat)
    (hop : op = BinaryOperatorKind.LessThan ∨ op = BinaryOperatorKind.GreaterThanOrEqual)
    (hmin : min < 0) :
    ∃ polarity : Bool,
      getTestAndBranch compiler (Definition.BuiltinIntegerType size min max) op left
          (Expression.IntegerLiteral 0) distanceHint =
        some (PlatformTestAndBranch.mk (InstructionType.VoidIntrinsic cmp)
          [left, Expression.IntegerLiteral 0] [PlatformBranch.mk negative polarity true]) ∧
      (op = BinaryOperatorKind.LessThan → polarity = true) ∧
      (op = BinaryOperatorKind.GreaterThanOrEqual → polarity = false) := by
  rcases hop with rfl | rfl
  · exact ⟨true, by simp [getTestAndBranch, hmin, isZeroLiteral], fun _ => rfl,
      fun h => absurd h (by decide)⟩
  · exact ⟨false, by simp [getTestAndBranch, hmin, isZeroLiteral],
      fun h => absurd h (by decide), fun _ => rfl⟩

/-- C10 at a concrete input: `x < 0` on a signed 8-bit type lowers to `cmp` and a test of
the negative flag expecting it set. -/
theorem getTestAndBranch_signed_zero_ordering_witness :
    ∃ polarity : Bool,
      getTestAndBranch exampleCompiler (Definition.BuiltinIntegerType 1 (-128) 127)
          BinaryOperatorKind.LessThan (Expression.ResolvedIdentifier x)
          (Expression.IntegerLiteral 0) 0 =
        some (PlatformTestAndBranch.mk (InstructionType.VoidIntrinsic cmp)
          [Expression.ResolvedIdentifier x, Expression.IntegerLiteral 0]
          [PlatformBranch.mk negative polarity true]) ∧
      (BinaryOperatorKind.LessThan = BinaryOperatorKind.LessThan → polarity = true) ∧
      (BinaryOperatorKind.LessThan = BinaryOperatorKind.GreaterThanOrEqual →
        polarity = false) :=
  getTestAndBranch_signed_zero_ordering exampleCompiler 1 (-128) 127
    BinaryOperatorKind.LessThan (Expression.ResolvedIdentifier x) 0 (Or.inl rfl) (by decide)

/-! ### Properties of the ordering comparisons -/

theorem isZeroLiteral_iff (right : Expression) :
    isZeroLiteral right = true ↔ right = Expression.IntegerLiteral 0 := by
  cases right <;> simp [isZeroLiteral]

/-- C11: for `<` and `>=` on an integer type whose minimum is not negative, for every right
operand, `getTestAndBranch` returns `cmp` over `[left, right]` with a single flag test on
the carry flag, expecting carry set for `>=` and carry clear for `<`; the polarity for
`x < y` is the negation of the polarity for `x >= y`. -/
theorem getTestAndBranch_unsigned_ordering (compiler : Compiler) (size : Nat) (min max : Int)
    (left right : Expression) (distanceHint : Nat) (hmin : ¬ min < 0) :
    ∃ polarityLess polarityGreaterEqual : Bool,
      getTestAndBranch compiler (Definition.BuiltinIntegerType size min max)
          BinaryOperatorKind.LessThan left right distanceHint =
        some (PlatformTestAndBranch.mk (InstructionType.VoidIntrinsic cmp) [left, right]
          [PlatformBranch.mk carry polarityLess true]) ∧
      getTestAndBranch compiler (Definition.BuiltinIntegerType size min max)
          BinaryOperatorKind.GreaterThanOrEqual left right distanceHint =
        some (PlatformTestAndBranch.mk (InstructionType.VoidIntrinsic cmp) [left, right]
          [PlatformBranch.mk carry polarityGreaterEqual true]) ∧
      polarityGreaterEqual = true ∧ polarityLess = false ∧
      polarityLess = !polarityGreaterEqual := by
  refine ⟨false, true, ?_, ?_, rfl, rfl, rfl⟩
  · simp [getTestAndBranch, hmin]
  · simp [getTestAndBranch, hmin]

/-- C11 at a concrete input: `x < *(0x10)` and `x >= *(0x10)` on the unsigned 8-bit type. -/
theorem getTestAndBranch_unsigned_ordering_witness :
    ∃ polarityLess polarityGreaterEqual : Bool,
      getTestAndBranch exampleCompiler (Definition.BuiltinIntegerType 1 0 255)
          BinaryOperatorKind.LessThan (Expression.ResolvedIdentifier x)
          (Expression.UnaryOperator UnaryOperatorKind.Indirection
            (Expression.IntegerLiteral 0x10)) 0 =
        some (PlatformTestAndBranch.mk (InstructionType.VoidIntrinsic cmp)
          [Expression.ResolvedIdentifier x,
            Expression.UnaryOperator UnaryOperatorKind.Indirection
              (Expression.IntegerLiteral 0x10)]
          [PlatformBranch.mk carry polarityLess true]) ∧
      getTestAndBranch exampleCompiler (Definition.BuiltinIntegerType 1 0 255)
          BinaryOperatorKind.GreaterThanOrEqual (Expression.ResolvedIdentifier x)
          (Expression.UnaryOperator UnaryOperatorKind.Indirection
            (Expression.IntegerLiteral 0x10)) 0 =
        some (PlatformTestAndBranch.mk (InstructionType.VoidIntrinsic cmp)
          [Expression.ResolvedIdentifier x,
            Expression.UnaryOperator UnaryOperatorKind.Indirection
              (Expression.IntegerLiteral 0x10)]
          [PlatformBranch.mk carry polarityGreaterEqual true]) ∧
      polarityGreaterEqual = true ∧ polarityLess = false ∧
      polarityLess = !polarityGreaterEqual :=
  getTestAndBranch_unsigned_ordering exampleCompiler 1 0 255 (Expression.ResolvedIdentifier x)
    (Expression.UnaryOperator UnaryOperatorKind.Indirection (Expression.IntegerLiteral 0x10))
    0 (by decide)

/-- C12: for `<=`, `getTestAndBranch` returns `cmp` over `[left, right]` with exactly two
flag tests in this order: for a signed type with `right` the literal 0, `(zero, true)` then
`(negative, true)`; for an unsigned type, `(zero, true)` then `(carry, false)`.  The third
field of each of the four entries is true. -/
theorem getTestAndBranch_less_or_equal (compiler : Compiler) (size : Nat) (min max : Int)
    (left right : Expression) (distanceHint : Nat) :
    (min < 0 →
      getTestAndBranch compiler (Definition.BuiltinIntegerType size min max)
          BinaryOperatorKind.LessThanOrEqual left (Expression.IntegerLiteral 0) distanceHint =
        some (PlatformTestAndBranch.mk (InstructionType.VoidIntrinsic cmp)
          [left, Expression.IntegerLiteral 0]
          [PlatformBranch.mk zero true true, PlatformBranch.mk negative true true])) ∧
    (¬ min < 0 →
      getTestAndBranch compiler (Definition.BuiltinIntegerType size min max)
          BinaryOperatorKind.LessThanOrEqual left right distanceHint =
        some (PlatformTestAndBranch.mk (InstructionType.VoidIntrinsic cmp) [left, right]
          [PlatformBranch.mk zero true true, PlatformBranch.mk carry false true])) := by
  constructor
  · intro hmin
    simp [getTestAndBranch, hmin, isZeroLiteral]
  · intro hmin
    simp [getTestAndBranch, hmin]

/-- C12 at concrete inputs: `x <= 0` on the signed 8-bit type and `x <= 5` on the unsigned
8-bit type. -/
theorem getTestAndBranch_less_or_equal_witness :
    getTestAndBranch exampleCompiler (Definition.BuiltinIntegerType 1 (-128) 127)
        BinaryOperatorKind.LessThanOrEqual (Expression.ResolvedIdentifier x)
        (Expression.IntegerLiteral 0) 0 =
      some (PlatformTestAndBranch.mk (InstructionType.VoidIntrinsic cmp)
        [Expression.ResolvedIdentifier x, Expression.IntegerLiteral 0]
        [PlatformBranch.mk zero true true, PlatformBranch.mk negative true true]) ∧
    getTestAndBranch exampleCompiler (Definition.BuiltinIntegerType 1 0 255)
        BinaryOperatorKind.LessThanOrEqual (Expression.ResolvedIdentifier x)
        (Expression.IntegerLiteral 5) 0 =
      some (PlatformTestAndBranch.mk (InstructionType.VoidIntrinsic cmp)
        [Expression.ResolvedIdentifier x, Expression.IntegerLiteral 5]
        [PlatformBranch.mk zero true true, PlatformBranch.mk carry false true]) :=
  ⟨(getTestAndBranch_less_or_equal exampleCompiler 1 (-128) 127
      (Expression.ResolvedIdentifier x) (Expression.IntegerLiteral 0) 0).1 (by decide),
    (getTestAndBranch_less_or_equal exampleCompiler 1 0 255
      (Expression.ResolvedIdentifier x) (Expression.IntegerLiteral 5) 0).2 (by decide)⟩

/-- C13: for `>`, `getTestAndBranch` returns `cmp` over `[left, right]` with exactly two
flag tests in this order: for a signed type with `right` the literal 0, `(zero, true)` with
third field false, then `(negative, false)` with third field true; for an unsigned type,
`(zero, true)` with third field false, then `(carry, true)` with third field true. -/
theorem getTestAndBranch_greater (compiler : Compiler) (size : Nat) (min max : Int)
    (left right : Expression) (distanceHint : Nat) :
    (min < 0 →
      getTestAndBranch compiler (Definition.BuiltinIntegerType size min max)
          BinaryOperatorKind.GreaterThan left (Expression.IntegerLiteral 0) distanceHint =
        some (PlatformTestAndBranch.mk (InstructionType.VoidIntrinsic cmp)
          [left, Expression.IntegerLiteral 0]
          [PlatformBranch.mk zero true false, PlatformBranch.mk negative false true])) ∧
    (¬ min < 0 →
      getTestAndBranch compiler (Definition.BuiltinIntegerType size min max)
          BinaryOperatorKind.GreaterThan left right distanceHint =
        some (PlatformTestAndBranch.mk (InstructionType.VoidIntrinsic cmp) [left, right]
          [PlatformBranch.mk zero true false, PlatformBranch.mk carry true true])) := by
  constructor
  · intro hmin
    simp [getTestAndBranch, hmin, isZeroLiteral]
  · intro hmin
    simp [getTestAndBranch, hmin]

/-- C13 at concrete inputs: `x > 0` on the signed 8-bit type and `x > 5` on the unsigned
8-bit type. -/
theorem getTestAndBranch_greater_witness :
    getTestAndBranch exampleCompiler (Definition.BuiltinIntegerType 1 (-128) 127)
        BinaryOperatorKind.GreaterThan (Expression.ResolvedIdentifier x)
        (Expression.IntegerLiteral 0) 0 =
      some (PlatformTestAndBranch.mk (InstructionType.VoidIntrinsic cmp)
        [Expression.ResolvedIdentifier x, Expression.IntegerLiteral 0]
        [PlatformBranch.mk zero true false, PlatformBranch.mk negative false true]) ∧
    getTestAndBranch exampleCompiler (Definition.BuiltinIntegerType 1 0 255)
        BinaryOperatorKind.GreaterThan (Expression.ResolvedIdentifier x)
        (Expression.IntegerLiteral 5) 0 =
      some (PlatformTestAndBranch.mk (InstructionType.VoidIntrinsic cmp)
        [Expression.ResolvedIdentifier x, Expression.IntegerLiteral 5]
        [PlatformBranch.mk zero true false, PlatformBranch.mk carry true true]) :=
  ⟨(getTestAndBranch_greater exampleCompiler 1 (-128) 127
      (Expression.ResolvedIdentifier x) (Expression.IntegerLiteral 0) 0).1 (by decide),
    (getTestAndBranch_greater exampleCompiler 1 0 255
      (Expression.ResolvedIdentifier x) (Expression.IntegerLiteral 5) 0).2 (by decide)⟩

theorem getTestAndBranch_equality_ne_none (compiler : Compiler) (type : Definition)
    (op : BinaryOperatorKind) (left right : Expression) (distanceHint : Nat)
    (hop : op = BinaryOperatorKind.Equal ∨ op = BinaryOperatorKind.NotEqual) :
    getTestAndBranch compiler type op left right distanceHint ≠ none := by
  rw [getTestAndBranch_equality compiler type op left right distanceHint hop]
  cases decrementBranchFusion op left right with
  | some result => simp
  | none =>
    cases compareBranchFusion compiler op left right distanceHint with
    | some result => simp
    | none => simp

theorem getTestAndBranch_ordering_eq_none_iff (compiler : Compiler) (type : Definition)
    (op : BinaryOperatorKind) (left right : Expression) (distanceHint : Nat)
    (hop : op = BinaryOperatorKind.LessThan ∨ op = BinaryOperatorKind.GreaterThanOrEqual ∨
      op = BinaryOperatorKind.LessThanOrEqual ∨ op = BinaryOperatorKind.GreaterThan) :
    getTestAndBranch compiler type op left right distanceHint = none ↔
      (∀ size min max, type ≠ Definition.BuiltinIntegerType size min max) ∨
      (∃ size min max, type = Definition.BuiltinIntegerType size min max ∧ min < 0 ∧
        right ≠ Expression.IntegerLiteral 0) := by
  rcases hop with rfl | rfl | rfl | rfl <;>
    cases type <;>
    simp only [getTestAndBranch, reduceCtorEq, ne_eq, not_false_eq_true, implies_true,
      false_and, exists_false, or_false, true_or, Definition.BuiltinIntegerType.injEq,
      not_and, not_forall, Decidable.not_not] <;>
    (rename_i size min max
     by_cases hmin : min < 0
     · by_cases hz : right = Expression.IntegerLiteral 0
       · simp [hmin, hz, isZeroLiteral]
       · have hz1 : isZeroLiteral right = false := by
           cases hc : isZeroLiteral right with
           | false => rfl
           | true => exact absurd ((isZeroLiteral_iff right).1 hc) hz
         simp only [hmin, hz1, if_true, Bool.false_eq_true, if_false, true_iff]
         exact Or.inr ⟨size, min, max, ⟨rfl, rfl, rfl⟩, hmin, hz⟩
     · simp only [hmin, if_false, reduceCtorEq, false_iff, not_or, not_exists, not_and]
       refine ⟨fun h => absurd (h size min max rfl rfl) (by simp), ?_⟩
       intro size1 min1 max1 h1 h2
       rw [← h1.2.1] at h2
       exact absurd h2 hmin)

/-- C15: `getTestAndBranch` returns none exactly in these cases: the operator is not one of
`==`, `!=`, `<`, `>=`, `<=`, `>`; or the operator is one of `<`, `>=`, `<=`, `>` and either
the operand type is not a built-in integer type, or the type is signed (negative minimum)
and `right` is not the integer literal zero.  So a signed ordering comparison against a
non-zero right operand has no lowering, and `==` and `!=` never return none. -/
theorem getTestAndBranch_eq_none_iff (compiler : Compiler) (type : Definition)
    (op : BinaryOperatorKind) (left right : Expression) (distanceHint : Nat) :
    (getTestAndBranch compiler type op left right distanceHint = none ↔
      (op ≠ BinaryOperatorKind.Equal ∧ op ≠ BinaryOperatorKind.NotEqual ∧
        op ≠ BinaryOperatorKind.LessThan ∧ op ≠ BinaryOperatorKind.GreaterThanOrEqual ∧
        op ≠ BinaryOperatorKind.LessThanOrEqual ∧ op ≠ BinaryOperatorKind.GreaterThan) ∨
      ((op = BinaryOperatorKind.LessThan ∨ op = BinaryOperatorKind.GreaterThanOrEqual ∨
          op = BinaryOperatorKind.LessThanOrEqual ∨ op = BinaryOperatorKind.GreaterThan) ∧
        ((∀ size min max, type ≠ Definition.BuiltinIntegerType size min max) ∨
          (∃ size min max, type = Definition.BuiltinIntegerType size min max ∧ min < 0 ∧
            right ≠ Expression.IntegerLiteral 0)))) ∧
    ((op = BinaryOperatorKind.LessThan ∨ op = BinaryOperatorKind.GreaterThanOrEqual ∨
        op = BinaryOperatorKind.LessThanOrEqual ∨ op = BinaryOperatorKind.GreaterThan) →
      ∀ (size : Nat) (min max : Int), min < 0 → right ≠ Expression.IntegerLiteral 0 →
        getTestAndBranch compiler (Definition.BuiltinIntegerType size min max) op left right
          distanceHint = none) ∧
    ((op = BinaryOperatorKind.Equal ∨ op = BinaryOperatorKind.NotEqual) →
      getTestAndBranch compiler type op left right distanceHint ≠ none) := by
  refine ⟨?_, ?_, ?_⟩
  · by_cases hEq : op = BinaryOperatorKind.Equal ∨ op = BinaryOperatorKind.NotEqual
    · have hne := getTestAndBranch_equality_ne_none compiler type op left right distanceHint hEq
      constructor
      · intro h
        exact absurd h hne
      · rintro (h | h)
        · rcases hEq with h1 | h1
          · exact absurd h1 h.1
          · exact absurd h1 h.2.1
        · rcases hEq with rfl | rfl <;> simp at h
    · by_cases hOrd : op = BinaryOperatorKind.LessThan ∨
          op = BinaryOperatorKind.GreaterThanOrEqual ∨
          op = BinaryOperatorKind.LessThanOrEqual ∨ op = BinaryOperatorKind.GreaterThan
      · rw [getTestAndBranch_ordering_eq_none_iff compiler type op left right distanceHint hOrd]
        constructor
        · intro h
          exact Or.inr ⟨hOrd, h⟩
        · rintro (h | h)
          · rcases hOrd with h1 | h1 | h1 | h1
            · exact absurd h1 h.2.2.1
            · exact absurd h1 h.2.2.2.1
            · exact absurd h1 h.2.2.2.2.1
            · exact absurd h1 h.2.2.2.2.2
          · exact h.2
      · have hnone : getTestAndBranch compiler type op left right distanceHint = none := by
          cases op <;> first
            | rfl
            | (exfalso; simp at hEq; done)
            | (exfalso; simp at hOrd)
        simp only [hnone, true_iff]
        left
        simp only [not_or] at hEq hOrd
        exact ⟨hEq.1, hEq.2, hOrd.1, hOrd.2.1, hOrd.2.2.1, hOrd.2.2.2⟩
  · intro hOrd size min max hmin hz
    exact (getTestAndBranch_ordering_eq_none_iff compiler _ op left right distanceHint hOrd).2
      (Or.inr ⟨size, min, max, rfl, hmin, hz⟩)
  · intro hEq
    exact getTestAndBranch_equality_ne_none compiler type op left right distanceHint hEq

/-- C15 at a concrete input: `x > 5` on the signed 8-bit type has no lowering. -/
theorem getTestAndBranch_eq_none_iff_witness :
    getTestAndBranch exampleCompiler (Definition.BuiltinIntegerType 1 (-128) 127)
      BinaryOperatorKind.GreaterThan (Expression.ResolvedIdentifier x)
      (Expression.IntegerLiteral 5) 0 = none :=
  (getTestAndBranch_eq_none_iff exampleCompiler (Definition.BuiltinIntegerType 1 (-128) 127)
    BinaryOperatorKind.GreaterThan (Expression.ResolvedIdentifier x)
    (Expression.IntegerLiteral 5) 0).2.1 (Or.inr (Or.inr (Or.inr rfl))) 1 (-128) 127
    (by decide) (by decide)

/-- C14 (counterexample): with the zero flag set and every other flag clear, `zero OR sign`
is true, but the plan that `getTestAndBranch` returns for `x <= 0` on the signed 8-bit type,
`[(zero, true, true), (negative, true, true)]`, read with the third field as "combine by
AND", is `zero AND sign`, which is false, whichever neighbour the third field refers to;
likewise the plan for `x > 0`, `[(zero, true, false), (negative, false, true)]`, reads as
true there while `!zero AND !sign` is false. -/
theorem combinedReading_of_ordering_plans_counterexample :
    (∃ result,
      getTestAndBranch exampleCompiler (Definition.BuiltinIntegerType 1 (-128) 127)
          BinaryOperatorKind.LessThanOrEqual (Expression.ResolvedIdentifier x)
          (Expression.IntegerLiteral 0) 0 = some result ∧
        combinedReading (fun flag => decide (flag = zero)) result.branchTests = false ∧
        combinedReadingForward (fun flag => decide (flag = zero)) result.branchTests = false ∧
        ((fun flag => decide (flag = zero)) zero ||
          (fun flag => decide (flag = zero)) negative) = true) ∧
    (∃ result,
      getTestAndBranch exampleCompiler (Definition.BuiltinIntegerType 1 (-128) 127)
          BinaryOperatorKind.GreaterThan (Expression.ResolvedIdentifier x)
          (Expression.IntegerLiteral 0) 0 = some result ∧
        combinedReading (fun flag => decide (flag = zero)) result.branchTests = true ∧
        combinedReadingForward (fun flag => decide (flag = zero)) result.branchTests = true ∧
        (!(fun flag => decide (flag = zero)) zero &&
          !(fun flag => decide (flag = zero)) negative) = false) := by
  refine ⟨⟨PlatformTestAndBranch.mk (InstructionType.VoidIntrinsic cmp)
        [Expression.ResolvedIdentifier x, Expression.IntegerLiteral 0]
        [PlatformBranch.mk zero true true, PlatformBranch.mk negative true true],
      ?_, ?_, ?_, ?_⟩,
    ⟨PlatformTestAndBranch.mk (InstructionType.VoidIntrinsic cmp)
        [Expression.ResolvedIdentifier x, Expression.IntegerLiteral 0]
        [PlatformBranch.mk zero true false, PlatformBranch.mk negative false true],
      ?_, ?_, ?_, ?_⟩⟩ <;> decide

/-- C14 (amended): reading each returned branch-list entry as `(flag, expectedPolarity,
outcome)`, a decision list in which the first entry whose flag equals its expected polarity
decides and its third field is the outcome (no entry firing means the comparison does not
hold), the `<=` plans denote `zero OR sign` (signed, right = 0) and `zero OR !carry`
(unsigned), and the `>` plans denote `!zero AND !sign` (signed, right = 0) and
`!zero AND carry` (unsigned), for every assignment of the flags. -/
theorem decisionListReading_of_ordering_plans (compiler : Compiler) (size : Nat)
    (min max : Int) (left right : Expression) (distanceHint : Nat)
    (flags : Definition → Bool) :
    (min < 0 → ∃ result,
      getTestAndBranch compiler (Definition.BuiltinIntegerType size min max)
          BinaryOperatorKind.LessThanOrEqual left (Expression.IntegerLiteral 0) distanceHint =
        some result ∧
      decisionListReading flags result.branchTests = (flags zero || flags negative)) ∧
    (¬ min < 0 → ∃ result,
      getTestAndBranch compiler (Definition.BuiltinIntegerType size min max)
          BinaryOperatorKind.LessThanOrEqual left right distanceHint = some result ∧
      decisionListReading flags result.branchTests = (flags zero || !flags carry)) ∧
    (min < 0 → ∃ result,
      getTestAndBranch compiler (Definition.BuiltinIntegerType size min max)
          BinaryOperatorKind.GreaterThan left (Expression.IntegerLiteral 0) distanceHint =
        some result ∧
      decisionListReading flags result.branchTests = (!flags zero && !flags negative)) ∧
    (¬ min < 0 → ∃ result,
      getTestAndBranch compiler (Definition.BuiltinIntegerType size min max)
          BinaryOperatorKind.GreaterThan left right distanceHint = some result ∧
      decisionListReading flags result.branchTests = (!flags zero && flags carry)) := by
  refine ⟨?_, ?_, ?_, ?_⟩
  · intro hmin
    refine ⟨PlatformTestAndBranch.mk (InstructionType.VoidIntrinsic cmp)
        [left, Expression.IntegerLiteral 0] [PlatformBranch.mk zero true true, PlatformBranch.mk negative true true],
      by simp [getTestAndBranch, hmin, isZeroLiteral], ?_⟩
    cases hz : flags zero <;> cases hn : flags negative <;>
      simp [decisionListReading, PlatformBranch.holds, hz, hn]
  · intro hmin
    refine ⟨PlatformTestAndBranch.mk (InstructionType.VoidIntrinsic cmp)
        [left, right] [PlatformBranch.mk zero true true, PlatformBranch.mk carry false true],
      by simp [getTestAndBranch, hmin], ?_⟩
    cases hz : flags zero <;> cases hc : flags carry <;>
      simp [decisionListReading, PlatformBranch.holds, hz, hc]
  · intro hmin
    refine ⟨PlatformTestAndBranch.mk (InstructionType.VoidIntrinsic cmp)
        [left, Expression.IntegerLiteral 0] [PlatformBranch.mk zero true false, PlatformBranch.mk negative false true],
      by simp [getTestAndBranch, hmin, isZeroLiteral], ?_⟩
    cases hz : flags zero <;> cases hn : flags negative <;>
      simp [decisionListReading, PlatformBranch.holds, hz, hn]
  · intro hmin
    refine ⟨PlatformTestAndBranch.mk (InstructionType.VoidIntrinsic cmp)
        [left, right] [PlatformBranch.mk zero true false, PlatformBranch.mk carry true true],
      by simp [getTestAndBranch, hmin], ?_⟩
    cases hz : flags zero <;> cases hc : flags carry <;>
      simp [decisionListReading, PlatformBranch.holds, hz, hc]

/-- C14 (amended) at a concrete input: `x <= 0` on the signed 8-bit type with only the zero
flag set. -/
theorem decisionListReading_of_ordering_plans_witness :
    ∃ result,
      getTestAndBranch exampleCompiler (Definition.BuiltinIntegerType 1 (-128) 127)
          BinaryOperatorKind.LessThanOrEqual (Expression.ResolvedIdentifier x)
          (Expression.IntegerLiteral 0) 0 = some result ∧
      decisionListReading (fun flag => decide (flag = zero)) result.branchTests =
        ((fun flag => decide (flag = zero)) zero ||
          (fun flag => decide (flag = zero)) negative) :=
  (decisionListReading_of_ordering_plans exampleCompiler 1 (-128) 127
    (Expression.ResolvedIdentifier x) (Expression.IntegerLiteral 5) 0
    (fun flag => decide (flag = zero))).1 (by decide)

/-- C16 (counterexample): on the signed 8-bit type, `x < 5` and `x >= 5`, whose right
operand is not the literal 0, are not lowered to a carry test: `getTestAndBranch` returns
none for both. -/
theorem getTestAndBranch_signed_nonzero_ordering_counterexample :
    (-128 : Int) < 0 ∧ Expression.IntegerLiteral 5 ≠ Expression.IntegerLiteral 0 ∧
    getTestAndBranch exampleCompiler (Definition.BuiltinIntegerType 1 (-128) 127)
      BinaryOperatorKind.LessThan (Expression.ResolvedIdentifier x)
      (Expression.IntegerLiteral 5) 0 = none ∧
    getTestAndBranch exampleCompiler (Definition.BuiltinIntegerType 1 (-128) 127)
      BinaryOperatorKind.GreaterThanOrEqual (Expression.ResolvedIdentifier x)
      (Expression.IntegerLiteral 5) 0 = none ∧
    ¬ ∃ polarity, getTestAndBranch exampleCompiler (Definition.BuiltinIntegerType 1 (-128) 127)
        BinaryOperatorKind.LessThan (Expression.ResolvedIdentifier x)
        (Expression.IntegerLiteral 5) 0 =
      some (PlatformTestAndBranch.mk (InstructionType.VoidIntrinsic cmp)
        [Expression.ResolvedIdentifier x, Expression.IntegerLiteral 5]
        [PlatformBranch.mk carry polarity true]) := by
  refine ⟨by decide, by decide, by decide, by decide, ?_⟩
  rintro ⟨polarity, h⟩
  have hnone : getTestAndBranch exampleCompiler (Definition.BuiltinIntegerType 1 (-128) 127)
      BinaryOperatorKind.LessThan (Expression.ResolvedIdentifier x)
      (Expression.IntegerLiteral 5) 0 = none := by decide
  rw [hnone] at h
  cases h

/-- C16 (amended): for `<` and `>=`, when the operand type is unsigned, `getTestAndBranch`
uses the carry flag alone: it returns `cmp` over `[left, right]` with a single carry test
(`>=` expects carry set, `<` expects carry clear); when the type is signed and the right
operand is not the literal 0, it returns none. -/
theorem getTestAndBranch_carry_alone (compiler : Compiler) (size : Nat) (min max : Int)
    (op : BinaryOperatorKind) (left right : Expression) (distanceHint : Nat)
    (hop : op = BinaryOperatorKind.LessThan ∨ op = BinaryOperatorKind.GreaterThanOrEqual) :
    (¬ min < 0 →
      getTestAndBranch compiler (Definition.BuiltinIntegerType size min max) op left right
          distanceHint =
        some (PlatformTestAndBranch.mk (InstructionType.VoidIntrinsic cmp) [left, right]
          [PlatformBranch.mk carry (op = BinaryOperatorKind.GreaterThanOrEqual) true])) ∧
    (min < 0 → right ≠ Expression.IntegerLiteral 0 →
      getTestAndBranch compiler (Definition.BuiltinIntegerType size min max) op left right
          distanceHint = none) := by
  constructor
  · intro hmin
    rcases hop with rfl | rfl <;> simp [getTestAndBranch, hmin]
  · intro hmin hz
    have hz1 : isZeroLiteral right = false := by
      cases hc : isZeroLiteral right with
      | false => rfl
      | true => exact absurd ((isZeroLiteral_iff right).1 hc) hz
    rcases hop with rfl | rfl <;> simp [getTestAndBranch, hmin, hz1]

/-- C16 (amended) at concrete inputs: `x >= 5` on the unsigned and on the signed 8-bit
type. -/
theorem getTestAndBranch_carry_alone_witness :
    getTestAndBranch exampleCompiler (Definition.BuiltinIntegerType 1 0 255)
        BinaryOperatorKind.GreaterThanOrEqual (Expression.ResolvedIdentifier x)
        (Expression.IntegerLiteral 5) 0 =
      some (PlatformTestAndBranch.mk (InstructionType.VoidIntrinsic cmp)
        [Expression.ResolvedIdentifier x, Expression.IntegerLiteral 5]
        [PlatformBranch.mk carry
          (BinaryOperatorKind.GreaterThanOrEqual = BinaryOperatorKind.GreaterThanOrEqual)
          true]) ∧
    getTestAndBranch exampleCompiler (Definition.BuiltinIntegerType 1 (-128) 127)
      BinaryOperatorKind.GreaterThanOrEqual (Expression.ResolvedIdentifier x)
      (Expression.IntegerLiteral 5) 0 = none :=
  ⟨(getTestAndBranch_carry_alone exampleCompiler 1 0 255 BinaryOperatorKind.GreaterThanOrEqual
      (Expression.ResolvedIdentifier x) (Expression.IntegerLiteral 5) 0 (Or.inr rfl)).1
      (by decide),
    (getTestAndBranch_carry_alone exampleCompiler 1 (-128) 127
      BinaryOperatorKind.GreaterThanOrEqual (Expression.ResolvedIdentifier x)
      (Expression.IntegerLiteral 5) 0 (Or.inr rfl)).2 (by decide) (by decide)⟩

/-! ### Properties of the operand bytes -/

/-- C17: `encodingU16Operand` appends the opcode bytes verbatim and then the two bytes of the
captured value, least significant first: for every captured value `v` in `0..0xFFFF` the two
operand bytes are `v mod 256` and `v div 256`, and `v mod 256 + 256 * (v div 256) = v`;
`encodingU8Operand` appends the opcode and then the single byte `v mod 256`, which equals
`v` for every `v` in `0..0xFF`. -/
theorem fixed_width_operand_bytes (report : Report) (bank : Bank) (buffer : List Nat)
    (options : InstructionOptions) (captureLists : CaptureLists) (location : SourceLocation)
    (p0 : Nat) (h0 : options.parameter[0]? = some p0) :
    (∀ v : Nat, v ≤ 0xFFFF → captureInteger captureLists p0 0 = some (Int.ofNat v) →
      encodingU16Operand.write report bank buffer options captureLists location =
        some (WriteResult.mk true (buffer ++ options.opcode ++ [v % 256, v / 256]) report) ∧
      v % 256 + 256 * (v / 256) = v ∧ v % 256 < 256 ∧ v / 256 < 256) ∧
    (∀ v : Int, captureInteger captureLists p0 0 = some v →
      encodingU8Operand.write report bank buffer options captureLists location =
        some (WriteResult.mk true (buffer ++ options.opcode ++ [(v % 256).toNat]) report) ∧
      (0 ≤ v → v ≤ 0xFF → ((v % 256).toNat : Int) = v)) := by
  constructor
  · intro v hv hc
    have hval : toU16 (Int.ofNat v) = v := by
      rw [toU16_ofNat, Nat.mod_eq_of_lt (by omega)]
    have hlow : (v &&& 0xFF) % 256 = v % 256 := by
      rw [and_0xFF, Nat.mod_mod]
    have hhigh : ((v >>> 8) &&& 0xFF) % 256 = v / 256 := by
      rw [and_0xFF, Nat.mod_mod, Nat.shiftRight_eq_div_pow]
      omega
    refine ⟨?_, by omega, by omega, by omega⟩
    simp only [encodingU16Operand, h0, hc, Option.bind_eq_bind, Option.some_bind,
      Option.pure_def, hval, hlow, hhigh, List.append_assoc, List.singleton_append]
  · intro v hc
    refine ⟨?_, ?_⟩
    · simp only [encodingU8Operand, h0, hc, Option.bind_eq_bind, Option.some_bind,
        Option.pure_def, toU8]
    · intro hlo hhi
      omega

/-- C17 at a concrete input: `a = *(0x1234)` (opcode `0xE5`) and `a = 0x12` (opcode
`0xE8`). -/
theorem fixed_width_operand_bytes_witness :
    (encodingU16Operand.write [] (Bank.mk 0) [] (InstructionOptions.mk [0xE5] [1] [])
        [[], [InstructionOperand.Integer (Int.ofNat 0x1234)]] (SourceLocation.mk 1) =
        some (WriteResult.mk true
          ([] ++ (InstructionOptions.mk [0xE5] [1] []).opcode ++ [0x1234 % 256, 0x1234 / 256])
          []) ∧
      0x1234 % 256 + 256 * (0x1234 / 256) = 0x1234 ∧ 0x1234 % 256 < 256 ∧
      0x1234 / 256 < 256) ∧
    (encodingU8Operand.write [] (Bank.mk 0) [] (InstructionOptions.mk [0xE5] [1] [])
        [[], [InstructionOperand.Integer (Int.ofNat 0x1234)]] (SourceLocation.mk 1) =
        some (WriteResult.mk true
          ([] ++ (InstructionOptions.mk [0xE5] [1] []).opcode ++
            [((Int.ofNat 0x1234) % 256).toNat]) []) ∧
      (0 ≤ Int.ofNat 0x1234 → Int.ofNat 0x1234 ≤ 0xFF →
        (((Int.ofNat 0x1234) % 256).toNat : Int) = Int.ofNat 0x1234)) :=
  ⟨(fixed_width_operand_bytes [] (Bank.mk 0) [] (InstructionOptions.mk [0xE5] [1] [])
      [[], [InstructionOperand.Integer (Int.ofNat 0x1234)]] (SourceLocation.mk 1) 1 rfl).1
      0x1234 (by decide) rfl,
    (fixed_width_operand_bytes [] (Bank.mk 0) [] (InstructionOptions.mk [0xE5] [1] [])
      [[], [InstructionOperand.Integer (Int.ofNat 0x1234)]] (SourceLocation.mk 1) 1 rfl).2
      (Int.ofNat 0x1234) rfl⟩

/-- C18: `encodingU8OperandU8Operand` appends the opcode, then the low byte of the first
capture of operand position `parameter[0]`, then the low byte of the first capture of
operand position `parameter[1]`: the parameter map fixes the byte order.  The instructions
`*(dst) = imm` and `*(dst) = *(src)` are registered with this encoding, the opcodes `0x8F`
and `0xFA` and the parameter map `{1, 0}`, so that with the source byte captured at operand
position 1 and the destination address at operand position 0 the bytes are
`[opcode, source byte, destination address byte]`. -/
theorem encodingU8OperandU8Operand_byte_order (report : Report) (bank : Bank)
    (buffer : List Nat) (location : SourceLocation) :
    (∀ (options : InstructionOptions) (captureLists : CaptureLists) (p0 p1 : Nat)
        (v0 v1 : Int),
      options.parameter[0]? = some p0 → options.parameter[1]? = some p1 →
      captureInteger captureLists p0 0 = some v0 →
      captureInteger captureLists p1 0 = some v1 →
      encodingU8OperandU8Operand.write report bank buffer options captureLists location =
        some (WriteResult.mk true
          (buffer ++ options.opcode ++ [(v0 % 256).toNat, (v1 % 256).toNat]) report)) ∧
    registered (InstructionSignature.mk
        (InstructionType.BinaryOperator BinaryOperatorKind.Assignment) 0
        [patternDirectU8, patternImmU8]) =
      [Instruction.mk (InstructionSignature.mk
          (InstructionType.BinaryOperator BinaryOperatorKind.Assignment) 0
          [patternDirectU8, patternImmU8])
        encodingU8OperandU8Operand (InstructionOptions.mk [0x8F] [1, 0] [])] ∧
    registered (InstructionSignature.mk
        (InstructionType.BinaryOperator BinaryOperatorKind.Assignment) 0
        [patternDirectU8, patternDirectU8]) =
      [Instruction.mk (InstructionSignature.mk
          (InstructionType.BinaryOperator BinaryOperatorKind.Assignment) 0
          [patternDirectU8, patternDirectU8])
        encodingU8OperandU8Operand (InstructionOptions.mk [0xFA] [1, 0] [])] ∧
    (∀ (opcode dst src : Nat) (captureLists : CaptureLists), dst ≤ 0xFF → src ≤ 0xFF →
      captureInteger captureLists 0 0 = some (Int.ofNat dst) →
      captureInteger captureLists 1 0 = some (Int.ofNat src) →
      encodingU8OperandU8Operand.write report bank buffer
          (InstructionOptions.mk [opcode] [1, 0] []) captureLists location =
        some (WriteResult.mk true (buffer ++ [opcode, src, dst]) report)) := by
  refine ⟨?_, ?_, ?_, ?_⟩
  · intro options captureLists p0 p1 v0 v1 h0 h1 hv0 hv1
    simp only [encodingU8OperandU8Operand, h0, h1, hv0, hv1, Option.bind_eq_bind,
      Option.some_bind, Option.pure_def, toU8, List.append_assoc, List.singleton_append]
  · set_option maxRecDepth 100000 in rfl
  · set_option maxRecDepth 100000 in rfl
  · intro opcode dst src captureLists hdst hsrc hd hs
    have h1 : toU8 (Int.ofNat src) = src := by
      rw [toU8_ofNat, Nat.mod_eq_of_lt (by omega)]
    have h2 : toU8 (Int.ofNat dst) = dst := by
      rw [toU8_ofNat, Nat.mod_eq_of_lt (by omega)]
    simp [encodingU8OperandU8Operand, hd, hs]
    exact ⟨h1, h2⟩

/-- C18 at a concrete input: `*(0x20) = 0x12` gives the bytes `0x8F, 0x12, 0x20`. -/
theorem encodingU8OperandU8Operand_byte_order_witness :
    encodingU8OperandU8Operand.write [] (Bank.mk 0) []
        (InstructionOptions.mk [0x8F] [1, 0] [])
        [[InstructionOperand.Integer (Int.ofNat 0x20)],
          [InstructionOperand.Integer (Int.ofNat 0x12)]] (SourceLocation.mk 1) =
      some (WriteResult.mk true ([] ++ [0x8F, 0x12, 0x20]) []) :=
  (encodingU8OperandU8Operand_byte_order [] (Bank.mk 0) [] (SourceLocation.mk 1)).2.2.2
    0x8F 0x20 0x12
    [[InstructionOperand.Integer (Int.ofNat 0x20)],
      [InstructionOperand.Integer (Int.ofNat 0x12)]]
    (by decide) (by decide) rfl rfl

theorem orByteAt_last (buffer : List Nat) (byte bits : Nat) :
    orByteAt (buffer ++ [byte]) ((buffer ++ [byte]).length - 1) bits =
      some (buffer ++ [(byte ||| bits) % 256]) := by
  have hlen : (buffer ++ [byte]).length - 1 = buffer.length := by simp
  rw [hlen]
  unfold orByteAt
  simp

theorem bit_subscript_opcode_byte : ∀ n : Nat, n < 8 →
    toU8 (Int.ofNat n) = n ∧
    (0x02 ||| toU8 (Int.ofNat (n <<< 5))) % 256 = 0x02 ||| (n <<< 5) ∧
    (0x12 ||| toU8 (Int.ofNat (n <<< 5))) % 256 = 0x12 ||| (n <<< 5) ∧
    (0x02 ||| (n <<< 5)) % 32 = 0x02 ∧ (0x02 ||| (n <<< 5)) / 32 = n ∧
    (0x12 ||| (n <<< 5)) % 32 = 0x12 ∧ (0x12 ||| (n <<< 5)) / 32 = n := by
  decide

theorem bit_subscript_opcode_byte_injective : ∀ n1 : Nat, n1 < 8 → ∀ n2 : Nat, n2 < 8 →
    ∀ base1 ∈ [0x02, 0x12], ∀ base2 ∈ [0x02, 0x12],
      base1 ||| (n1 <<< 5) = base2 ||| (n2 <<< 5) → base1 = base2 ∧ n1 = n2 := by
  decide

theorem encodingU8OperandBitIndex_write_single_opcode (report : Report) (bank : Bank)
    (buffer : List Nat) (location : SourceLocation) (opcode dp n : Nat) :
    encodingU8OperandBitIndex.write report bank buffer
        (InstructionOptions.mk [opcode] [0, 0, 1] [])
        [[InstructionOperand.Integer (Int.ofNat dp), InstructionOperand.Integer (Int.ofNat n)],
          []] location =
      some (WriteResult.mk true
        (buffer ++ [(opcode ||| toU8 (Int.ofNat (toU8 (Int.ofNat n) <<< 5))) % 256] ++
          [toU8 (Int.ofNat dp)]) report) := by
  have h : encodingU8OperandBitIndex.write report bank buffer
      (InstructionOptions.mk [opcode] [0, 0, 1] [])
      [[InstructionOperand.Integer (Int.ofNat dp), InstructionOperand.Integer (Int.ofNat n)],
        []] location =
      (orByteAt (buffer ++ [opcode]) ((buffer ++ [opcode]).length - 1)
        (toU8 (Int.ofNat (toU8 (Int.ofNat n) <<< 5)))).bind
        (fun patched => some (WriteResult.mk true (patched ++ [toU8 (Int.ofNat dp)]) report)) :=
    rfl
  rw [h, orByteAt_last]
  rfl

/-- C19: the direct-page single-bit assignments `*(dp) $ n = true` and `*(dp) $ n = false`
are registered with `encodingU8OperandBitIndex`, the opcodes `0x02` and `0x12` and the
parameter map `{0, 0, 1}`; for `dp` in `0..0xFF` and `n` in `0..7` the operand yields the
captures `[dp, n]`, and the write function appends exactly the two bytes
`[0x02 | (n << 5), dp]` resp. `[0x12 | (n << 5), dp]`: the subscript is OR'ed into bits 5..7
of the opcode byte, the low five bits of the opcode are unchanged, no subscript byte is
emitted, and distinct pairs (value, n) give distinct opcode bytes. -/
theorem direct_page_bit_assignment_bytes (report : Report) (bank : Bank) (buffer : List Nat)
    (location : SourceLocation) (dp n : Nat) (hdp : dp ≤ 0xFF) (hn : n ≤ 7) :
    registered (InstructionSignature.mk
        (InstructionType.BinaryOperator BinaryOperatorKind.Assignment) 0
        [patternDirectU8BitIndex, patternTrue]) =
      [Instruction.mk (InstructionSignature.mk
          (InstructionType.BinaryOperator BinaryOperatorKind.Assignment) 0
          [patternDirectU8BitIndex, patternTrue])
        encodingU8OperandBitIndex (InstructionOptions.mk [0x02] [0, 0, 1] [])] ∧
    registered (InstructionSignature.mk
        (InstructionType.BinaryOperator BinaryOperatorKind.Assignment) 0
        [patternDirectU8BitIndex, patternFalse]) =
      [Instruction.mk (InstructionSignature.mk
          (InstructionType.BinaryOperator BinaryOperatorKind.Assignment) 0
          [patternDirectU8BitIndex, patternFalse])
        encodingU8OperandBitIndex (InstructionOptions.mk [0x12] [0, 0, 1] [])] ∧
    (∀ value : Bool,
      extractCaptureLists [patternDirectU8BitIndex, InstructionOperandPattern.Boolean value]
          [InstructionOperandRoot.mk none (some (InstructionOperand.BitIndex
              (InstructionOperand.Dereference false
                (InstructionOperand.Integer (Int.ofNat dp)) 1)
              (InstructionOperand.Integer (Int.ofNat n)))),
            InstructionOperandRoot.mk none (some (InstructionOperand.Boolean value))] =
        some [[InstructionOperand.Integer (Int.ofNat dp),
          InstructionOperand.Integer (Int.ofNat n)], []]) ∧
    encodingU8OperandBitIndex.write report bank buffer
        (InstructionOptions.mk [0x02] [0, 0, 1] [])
        [[InstructionOperand.Integer (Int.ofNat dp), InstructionOperand.Integer (Int.ofNat n)],
          []] location =
      some (WriteResult.mk true (buffer ++ [0x02 ||| (n <<< 5), dp]) report) ∧
    encodingU8OperandBitIndex.write report bank buffer
        (InstructionOptions.mk [0x12] [0, 0, 1] [])
        [[InstructionOperand.Integer (Int.ofNat dp), InstructionOperand.Integer (Int.ofNat n)],
          []] location =
      some (WriteResult.mk true (buffer ++ [0x12 ||| (n <<< 5), dp]) report) ∧
    (0x02 ||| (n <<< 5)) % 32 = 0x02 ∧ (0x02 ||| (n <<< 5)) / 32 = n ∧
    (0x12 ||| (n <<< 5)) % 32 = 0x12 ∧ (0x12 ||| (n <<< 5)) / 32 = n ∧
    (∀ base1 base2 n1 n2 : Nat, base1 ∈ [0x02, 0x12] → base2 ∈ [0x02, 0x12] →
      n1 ≤ 7 → n2 ≤ 7 → base1 ||| (n1 <<< 5) = base2 ||| (n2 <<< 5) →
      base1 = base2 ∧ n1 = n2) := by
  obtain ⟨hb0, hb1, hb2, hb3, hb4, hb5, hb6⟩ := bit_subscript_opcode_byte n (by omega)
  have hzp : toU8 (Int.ofNat dp) = dp := by
    rw [toU8_ofNat, Nat.mod_eq_of_lt (by omega)]
  refine ⟨?_, ?_, ?_, ?_, ?_, hb3, hb4, hb5, hb6, ?_⟩
  · set_option maxRecDepth 100000 in rfl
  · set_option maxRecDepth 100000 in rfl
  · intro value
    have h1 : (0 : Int) ≤ Int.ofNat dp ∧ Int.ofNat dp ≤ 255 := by
      simp only [Int.ofNat_eq_coe]
      omega
    have h2 : (0 : Int) ≤ Int.ofNat n ∧ Int.ofNat n ≤ 7 := by
      simp only [Int.ofNat_eq_coe]
      omega
    simp only [extractCaptureLists, patternDirectU8BitIndex, patternImmU8,
      patternImmBitSubscript, InstructionOperandPattern.extract, h1, h2, and_self, if_true,
      Option.map_some', List.append_nil, List.singleton_append]
  · rw [encodingU8OperandBitIndex_write_single_opcode, hb0, hb1, hzp, List.append_assoc]
    rfl
  · rw [encodingU8OperandBitIndex_write_single_opcode, hb0, hb2, hzp, List.append_assoc]
    rfl
  · intro base1 base2 n1 n2 h1 h2 hn1 hn2 heq
    exact bit_subscript_opcode_byte_injective n1 (by omega) n2 (by omega) base1 h1 base2 h2 heq

/-- C19 at a concrete input: `*(0x20) $ 3 = true` gives the bytes `0x62, 0x20`. -/
theorem direct_page_bit_assignment_bytes_witness :
    encodingU8OperandBitIndex.write [] (Bank.mk 0) []
        (InstructionOptions.mk [0x02] [0, 0, 1] [])
        [[InstructionOperand.Integer (Int.ofNat 0x20), InstructionOperand.Integer (Int.ofNat 3)],
          []] (SourceLocation.mk 1) =
      some (WriteResult.mk true ([] ++ [0x02 ||| (3 <<< 5), 0x20]) []) :=
  (direct_page_bit_assignment_bytes [] (Bank.mk 0) [] (SourceLocation.mk 1) 0x20 3
    (by decide) (by decide)).2.2.2.1

/-! ### Properties of the repeated encodings -/

theorem appendRepeated_eq (buffer chunk : List Nat) (count : Nat) :
    appendRepeated buffer chunk count = buffer ++ (List.replicate count chunk).flatten := by
  induction count generalizing buffer with
  | zero => simp [appendRepeated]
  | succ count ih =>
    rw [appendRepeated, ih, List.replicate_succ, List.flatten_cons, List.append_assoc]

theorem flatten_replicate_length (chunk : List Nat) (count : Nat) :
    (List.replicate count chunk).flatten.length = count * chunk.length := by
  induction count with
  | zero => simp
  | succ count ih =>
    rw [List.replicate_succ, List.flatten_cons, List.length_append, ih, Nat.succ_mul]
    omega

theorem repeated_size_eq (count length extra : Nat) (hcount : count ≤ 255)
    (hlength : length < 4294967296) (hextra : extra ≤ 2) :
    (toSize (Int.ofNat count) * (length + extra)) % 18446744073709551616 =
      count * (length + extra) := by
  have h1 : toSize (Int.ofNat count) = count := by
    unfold toSize
    simp only [Int.ofNat_eq_coe]
    omega
  have h2 : count * (length + extra) ≤ 255 * (length + extra) :=
    Nat.mul_le_mul_right _ hcount
  rw [h1, Nat.mod_eq_of_lt (by omega)]

/-- C20: the repeated-opcode encodings, for every repeat count `c` with `0 <= c <= 255` (the
range of the registered shift signatures): `encodingRepeatedImplicit` has size
`c * |opcode|` and emits the opcode exactly `c` times; `encodingRepeatedU8Operand` has size
`c * (|opcode| + 1)` and emits (opcode, operand byte) exactly `c` times;
`encodingRepeatedU16Operand` has size `c * (|opcode| + 2)` and emits (opcode, low byte, high
byte) exactly `c` times.  The emitted length equals the size, and `c = 0` emits nothing.
Every registered shift instruction takes its count from the range `0..0xFF`. -/
theorem repeated_encodings_write_size (report : Report) (bank : Bank) (buffer : List Nat)
    (options : InstructionOptions) (captureLists : CaptureLists) (location : SourceLocation)
    (c : Nat) (hc : c ≤ 255) (hopcode : options.opcode.length < 4294967296) :
    (∀ p0 : Nat, options.parameter[0]? = some p0 →
      captureInteger captureLists p0 0 = some (Int.ofNat c) →
      encodingRepeatedImplicit.calculateSize options captureLists
        = some (c * options.opcode.length) ∧
      encodingRepeatedImplicit.write report bank buffer options captureLists location =
        some (WriteResult.mk true
          (buffer ++ (List.replicate c options.opcode).flatten) report) ∧
      (buffer ++ (List.replicate c options.opcode).flatten).length =
        buffer.length + c * options.opcode.length ∧
      (c = 0 → buffer ++ (List.replicate c options.opcode).flatten = buffer)) ∧
    (∀ (p0 p1 : Nat) (v : Int), options.parameter[0]? = some p0 →
      options.parameter[1]? = some p1 →
      captureInteger captureLists p0 0 = some v →
      captureInteger captureLists p1 0 = some (Int.ofNat c) →
      encodingRepeatedU8Operand.calculateSize options captureLists
        = some (c * (options.opcode.length + 1)) ∧
      encodingRepeatedU8Operand.write report bank buffer options captureLists location =
        some (WriteResult.mk true
          (buffer ++ (List.replicate c (options.opcode ++ [(v % 256).toNat])).flatten)
          report) ∧
      (buffer ++ (List.replicate c (options.opcode ++ [(v % 256).toNat])).flatten).length =
        buffer.length + c * (options.opcode.length + 1) ∧
      (c = 0 →
        buffer ++ (List.replicate c (options.opcode ++ [(v % 256).toNat])).flatten = buffer)) ∧
    (∀ (p0 p1 : Nat) (v : Int), options.parameter[0]? = some p0 →
      options.parameter[1]? = some p1 →
      captureInteger captureLists p0 0 = some v →
      captureInteger captureLists p1 0 = some (Int.ofNat c) →
      encodingRepeatedU16Operand.calculateSize options captureLists
        = some (c * (options.opcode.length + 2)) ∧
      encodingRepeatedU16Operand.write report bank buffer options captureLists location =
        some (WriteResult.mk true
          (buffer ++ (List.replicate c
            (options.opcode ++
              [(v % 65536).toNat % 256, (v % 65536).toNat / 256])).flatten)
          report) ∧
      (buffer ++ (List.replicate c
          (options.opcode ++
            [(v % 65536).toNat % 256, (v % 65536).toNat / 256])).flatten).length =
        buffer.length + c * (options.opcode.length + 2) ∧
      (c = 0 →
        buffer ++ (List.replicate c
          (options.opcode ++
            [(v % 65536).toNat % 256, (v % 65536).toNat / 256])).flatten = buffer)) ∧
    shiftInstructions.all (fun instruction =>
      instruction.signature.operandPatterns[1]? =
        some (InstructionOperandPattern.IntegerRange 0 0xFF)) = true := by
  have hcount : toU8 (Int.ofNat c) = c := by
    rw [toU8_ofNat, Nat.mod_eq_of_lt (by omega)]
  refine ⟨?_, ?_, ?_, by decide⟩
  · intro p0 h0 hcap
    refine ⟨?_, ?_, ?_, ?_⟩
    · have := repeated_size_eq c options.opcode.length 0 hc hopcode (by omega)
      simp only [Nat.add_zero] at this
      simp only [encodingRepeatedImplicit, h0, hcap, Option.bind_eq_bind, Option.some_bind,
        Option.pure_def, this]
    · simp only [encodingRepeatedImplicit, h0, hcap, Option.bind_eq_bind, Option.some_bind,
        Option.pure_def, hcount, appendRepeated_eq]
    · rw [List.length_append, flatten_replicate_length]
    · intro h
      subst h
      simp
  · intro p0 p1 v h0 h1 hv hcap
    refine ⟨?_, ?_, ?_, ?_⟩
    · have := repeated_size_eq c options.opcode.length 1 hc hopcode (by omega)
      simp only [encodingRepeatedU8Operand, h1, hcap, Option.bind_eq_bind, Option.some_bind,
        Option.pure_def, this]
    · have hcount1 : (Int.ofNat c % 256).toNat = c := hcount
      simp only [encodingRepeatedU8Operand, h0, h1, hv, hcap, Option.bind_eq_bind,
        Option.some_bind, Option.pure_def, appendRepeated_eq, toU8, hcount1]
    · rw [List.length_append, flatten_replicate_length, List.length_append]
      rfl
    · intro h
      subst h
      simp
  · intro p0 p1 v h0 h1 hv hcap
    have hlt := toU16_lt v
    have hlow : (toU16 v &&& 0xFF) % 256 = (v % 65536).toNat % 256 := by
      rw [and_0xFF, Nat.mod_mod]
      rfl
    have hhigh : ((toU16 v >>> 8) &&& 0xFF) % 256 = (v % 65536).toNat / 256 := by
      rw [and_0xFF, Nat.mod_mod, Nat.shiftRight_eq_div_pow]
      unfold toU16 at hlt ⊢
      omega
    refine ⟨?_, ?_, ?_, ?_⟩
    · have := repeated_size_eq c options.opcode.length 2 hc hopcode (by omega)
      simp only [encodingRepeatedU16Operand, h1, hcap, Option.bind_eq_bind, Option.some_bind,
        Option.pure_def, this]
    · simp only [encodingRepeatedU16Operand, h0, h1, hv, hcap, Option.bind_eq_bind,
        Option.some_bind, Option.pure_def, hcount, appendRepeated_eq, hlow, hhigh]
    · rw [List.length_append, flatten_replicate_length, List.length_append]
      rfl
    · intro h
      subst h
      simp

/-- C20 at a concrete input: `a <<= 3` (opcode `0x1C`, count captured at operand 1) emits
the opcode three times. -/
theorem repeated_encodings_write_size_witness :
    encodingRepeatedImplicit.calculateSize (InstructionOptions.mk [0x1C] [1] [])
        [[], [InstructionOperand.Integer (Int.ofNat 3)]]
      = some (3 * (InstructionOptions.mk [0x1C] [1] []).opcode.length) ∧
    encodingRepeatedImplicit.write [] (Bank.mk 0) [0xEA] (InstructionOptions.mk [0x1C] [1] [])
        [[], [InstructionOperand.Integer (Int.ofNat 3)]] (SourceLocation.mk 1) =
      some (WriteResult.mk true
        ([0xEA] ++ (List.replicate 3 (InstructionOptions.mk [0x1C] [1] []).opcode).flatten)
        []) ∧
    ([0xEA] ++ (List.replicate 3 (InstructionOptions.mk [0x1C] [1] []).opcode).flatten).length =
      [0xEA].length + 3 * (InstructionOptions.mk [0x1C] [1] []).opcode.length ∧
    (3 = 0 →
      [0xEA] ++ (List.replicate 3 (InstructionOptions.mk [0x1C] [1] []).opcode).flatten =
        [0xEA]) :=
  (repeated_encodings_write_size [] (Bank.mk 0) [0xEA] (InstructionOptions.mk [0x1C] [1] [])
    [[], [InstructionOperand.Integer (Int.ofNat 3)]] (SourceLocation.mk 1) 3 (by decide)
    (by decide)).1 1 rfl rfl

/-! ### Properties of the buffer and of the branch lengths -/

/-- C21 (the code at the failing input): the write function of
`encodingU8OperandBitIndexBranch`, called for `goto 0x210 if !(*(0x20) $ 3)` at the bank
address `0x200` with the byte `0xAA` already in the buffer, OR's the bit subscript into
`buffer[0]`: the buffer `[0xAA]` becomes `[0xBA, 0x13, 0x20, 0x0D]`, of which `[0xAA]` is
no prefix.  (The parameter map `{2, 2, 1, 1}` is the one that locates the three captures;
with the registered map `{0, 0, 1}` the same call reads outside the capture lists.) -/
theorem encodingU8OperandBitIndexBranch_modifies_first_byte :
    encodingU8OperandBitIndexBranch.write [] (Bank.mk 0x200) [0xAA]
        (InstructionOptions.mk [0x13] [2, 2, 1, 1] [])
        [[InstructionOperand.Integer 0], [InstructionOperand.Integer 0x210],
          [InstructionOperand.Integer 0x20, InstructionOperand.Integer 3], []]
        (SourceLocation.mk 1) =
      some (WriteResult.mk true [0xBA, 0x13, 0x20, 0x0D] []) ∧
    ¬ ([0xAA] <+: [0xBA, 0x13, 0x20, 0x0D]) ∧
    extractCaptureLists [patternAtLeast0, patternImmU16, patternDirectU8BitIndex, patternFalse]
        [InstructionOperandRoot.mk none (some (InstructionOperand.Integer 0)),
          InstructionOperandRoot.mk none (some (InstructionOperand.Integer 0x210)),
          InstructionOperandRoot.mk none (some (InstructionOperand.BitIndex
            (InstructionOperand.Dereference false (InstructionOperand.Integer 0x20) 1)
            (InstructionOperand.Integer 3))),
          InstructionOperandRoot.mk none (some (InstructionOperand.Boolean false))] =
      some [[InstructionOperand.Integer 0], [InstructionOperand.Integer 0x210],
        [InstructionOperand.Integer 0x20, InstructionOperand.Integer 3], []] ∧
    registered (InstructionSignature.mk (InstructionType.Branch BranchKind.Goto) 0
        [patternAtLeast0, patternImmU16, patternDirectU8BitIndex, patternFalse]) =
      [Instruction.mk (InstructionSignature.mk (InstructionType.Branch BranchKind.Goto) 0
          [patternAtLeast0, patternImmU16, patternDirectU8BitIndex, patternFalse])
        encodingU8OperandBitIndexBranch (InstructionOptions.mk [0x13] [0, 0, 1] [])] ∧
    encodingU8OperandBitIndexBranch.write [] (Bank.mk 0x200) [0xAA]
        (InstructionOptions.mk [0x13] [0, 0, 1] [])
        [[InstructionOperand.Integer 0], [InstructionOperand.Integer 0x210],
          [InstructionOperand.Integer 0x20, InstructionOperand.Integer 3], []]
        (SourceLocation.mk 1) = none := by
  refine ⟨by decide, by decide, by decide, ?_, by decide⟩
  set_option maxRecDepth 100000 in rfl

/-- C22 (the code at the failing input): the long bit-test branches are registered with
`encodingU8OperandBitIndexBranch` and the three-byte opcodes `{0x03, 3, 0x5F}` and
`{0x13, 3, 0x5F}`, so their size function returns 5, while the write function subtracts 3:
at the bank address `0x200` the destination `0x282 = 0x200 + 3 + 127` is written as the
offset byte `0x7F`, and `0x283` is out of range. -/
theorem long_bit_branch_size_and_offset_constant :
    registered (InstructionSignature.mk (InstructionType.Branch BranchKind.Goto) 0
        [patternAtLeast1, patternImmU16, patternDirectU8BitIndex, patternFalse]) =
      [Instruction.mk (InstructionSignature.mk (InstructionType.Branch BranchKind.Goto) 0
          [patternAtLeast1, patternImmU16, patternDirectU8BitIndex, patternFalse])
        encodingU8OperandBitIndexBranch (InstructionOptions.mk [0x03, 3, 0x5F] [0, 0, 1] [])] ∧
    registered (InstructionSignature.mk (InstructionType.Branch BranchKind.Goto) 0
        [patternAtLeast1, patternImmU16, patternDirectU8BitIndex, patternTrue]) =
      [Instruction.mk (InstructionSignature.mk (InstructionType.Branch BranchKind.Goto) 0
          [patternAtLeast1, patternImmU16, patternDirectU8BitIndex, patternTrue])
        encodingU8OperandBitIndexBranch (InstructionOptions.mk [0x13, 3, 0x5F] [0, 0, 1] [])] ∧
    encodingU8OperandBitIndexBranch.calculateSize
        (InstructionOptions.mk [0x03, 3, 0x5F] [0, 0, 1] []) [] = some 5 ∧
    encodingU8OperandBitIndexBranch.calculateSize
        (InstructionOptions.mk [0x13, 3, 0x5F] [0, 0, 1] []) [] = some 5 ∧
    encodingU8OperandBitIndexBranch.write [] (Bank.mk 0x200) []
        (InstructionOptions.mk [0x03, 3, 0x5F] [2, 2, 1, 1] [])
        [[InstructionOperand.Integer 1], [InstructionOperand.Integer 0x282],
          [InstructionOperand.Integer 0x20, InstructionOperand.Integer 3], []]
        (SourceLocation.mk 1) =
      some (WriteResult.mk true [0x33, 3, 0x5F, 0x20, 0x7F] []) ∧
    encodingU8OperandBitIndexBranch.write [] (Bank.mk 0x200) []
        (InstructionOptions.mk [0x03, 3, 0x5F] [2, 2, 1, 1] [])
        [[InstructionOperand.Integer 1], [InstructionOperand.Integer 0x283],
          [InstructionOperand.Integer 0x20, InstructionOperand.Integer 3], []]
        (SourceLocation.mk 1) =
      some (WriteResult.mk false [0x33, 3, 0x5F, 0x20, 0]
        [Diagnostic.mk pcRelativeRangeMessage (SourceLocation.mk 1)]) := by
  refine ⟨?_, ?_, rfl, rfl, by decide, ?_⟩
  · set_option maxRecDepth 100000 in rfl
  · set_option maxRecDepth 100000 in rfl
  · rfl

/-! ### Shared lemmas on selection -/

theorem selectInstruction_eq_candidates (builtins : Builtins) (type : InstructionType)
    (distanceHint : Nat) (operandRoots : List InstructionOperandRoot) :
    builtins.selectInstruction type distanceHint operandRoots =
      (builtins.candidates type distanceHint).findSome? (Instruction.extract operandRoots) := by
  unfold Builtins.selectInstruction Builtins.candidates
  induction builtins.instructions with
  | nil => rfl
  | cons instruction rest ih =>
    by_cases h : instruction.signature.type = type ∧
        instruction.signature.distanceHint = distanceHint
    · simp only [List.findSome?_cons, h, and_self, if_true, List.filter_cons, decide_True,
        Instruction.extract]
      cases extractCaptureLists instruction.signature.operandPatterns operandRoots with
      | none =>
        simp only [Option.map_none']
        exact ih
      | some captureLists => simp only [Option.map_some']
    · simp only [List.findSome?_cons, h, if_false, List.filter_cons, decide_False]
      exact ih

theorem selectInstruction_of_take (builtins : Builtins) (type : InstructionType)
    (distanceHint : Nat) (operandRoots : List InstructionOperandRoot) (n : Nat)
    (selected : Instruction × CaptureLists)
    (h : ((builtins.candidates type distanceHint).take n).findSome?
      (Instruction.extract operandRoots) = some selected) :
    builtins.selectInstruction type distanceHint operandRoots = some selected := by
  rw [selectInstruction_eq_candidates,
    ← List.take_append_drop n (builtins.candidates type distanceHint),
    List.findSome?_append, h]
  rfl

/-! ### Selection on the registered table -/

theorem assignment_candidates_take :
    (builtins.candidates (InstructionType.BinaryOperator BinaryOperatorKind.Assignment) 0).take 5 =
      [Instruction.mk (InstructionSignature.mk (InstructionType.BinaryOperator BinaryOperatorKind.Assignment) 0 [patternA, patternImmU8])
        encodingU8Operand (InstructionOptions.mk [0xE8] [1] []),
       Instruction.mk (InstructionSignature.mk (InstructionType.BinaryOperator BinaryOperatorKind.Assignment) 0 [patternA, patternXIndirectU8])
        encodingImplicit (InstructionOptions.mk [0xE6] [] []),
       Instruction.mk (InstructionSignature.mk (InstructionType.BinaryOperator BinaryOperatorKind.Assignment) 0 [patternA, patternDirectU8])
        encodingU8Operand (InstructionOptions.mk [0xE4] [1] []),
       Instruction.mk (InstructionSignature.mk (InstructionType.BinaryOperator BinaryOperatorKind.Assignment) 0 [patternA, patternDirectIndexedByXU8])
        encodingU8Operand (InstructionOptions.mk [0xF4] [1] []),
       Instruction.mk (InstructionSignature.mk (InstructionType.BinaryOperator BinaryOperatorKind.Assignment) 0 [patternA, patternAbsoluteU8])
        encodingU16Operand (InstructionOptions.mk [0xE5] [1] [])] := by
  set_option maxRecDepth 100000 in rfl

/-- C23: on the registered table, for the assignment `a = *(addr)` of a byte at a constant
address, the selection of the first registered candidate whose patterns all match picks the
direct-page form (bytes `[0xE4, addr]`, size 2) for every `addr` in `0..0xFF`, where the
absolute candidate matches as well, and the absolute form (bytes
`[0xE5, addr mod 256, addr div 256]`, size 3) for every `addr` in `0x100..0xFFFF`. -/
theorem assignment_from_memory_selection (report : Report) (bank : Bank) (buffer : List Nat)
    (location : SourceLocation) (e1 e2 : Option Expression) (addr : Nat) :
    (addr ≤ 0xFF →
      builtins.selectInstruction (InstructionType.BinaryOperator BinaryOperatorKind.Assignment) 0
          [InstructionOperandRoot.mk e1 (some (InstructionOperand.Register a)),
            InstructionOperandRoot.mk e2 (some (InstructionOperand.Dereference false
              (InstructionOperand.Integer (Int.ofNat addr)) 1))] =
        some (Instruction.mk (InstructionSignature.mk (InstructionType.BinaryOperator BinaryOperatorKind.Assignment) 0 [patternA, patternDirectU8])
        encodingU8Operand (InstructionOptions.mk [0xE4] [1] []),
          [[], [InstructionOperand.Integer (Int.ofNat addr)]]) ∧
      extractCaptureLists [patternA, patternAbsoluteU8]
          [InstructionOperandRoot.mk e1 (some (InstructionOperand.Register a)),
            InstructionOperandRoot.mk e2 (some (InstructionOperand.Dereference false
              (InstructionOperand.Integer (Int.ofNat addr)) 1))] =
        some [[], [InstructionOperand.Integer (Int.ofNat addr)]] ∧
      encodingU8Operand.calculateSize (InstructionOptions.mk [0xE4] [1] [])
        [[], [InstructionOperand.Integer (Int.ofNat addr)]] = some 2 ∧
      encodingU8Operand.write report bank buffer (InstructionOptions.mk [0xE4] [1] [])
          [[], [InstructionOperand.Integer (Int.ofNat addr)]] location =
        some (WriteResult.mk true (buffer ++ [0xE4, addr]) report)) ∧
    (0x100 ≤ addr → addr ≤ 0xFFFF →
      builtins.selectInstruction (InstructionType.BinaryOperator BinaryOperatorKind.Assignment) 0
          [InstructionOperandRoot.mk e1 (some (InstructionOperand.Register a)),
            InstructionOperandRoot.mk e2 (some (InstructionOperand.Dereference false
              (InstructionOperand.Integer (Int.ofNat addr)) 1))] =
        some (Instruction.mk (InstructionSignature.mk (InstructionType.BinaryOperator BinaryOperatorKind.Assignment) 0 [patternA, patternAbsoluteU8])
        encodingU16Operand (InstructionOptions.mk [0xE5] [1] []),
          [[], [InstructionOperand.Integer (Int.ofNat addr)]]) ∧
      encodingU16Operand.calculateSize (InstructionOptions.mk [0xE5] [1] [])
        [[], [InstructionOperand.Integer (Int.ofNat addr)]] = some 3 ∧
      encodingU16Operand.write report bank buffer (InstructionOptions.mk [0xE5] [1] [])
          [[], [InstructionOperand.Integer (Int.ofNat addr)]] location =
        some (WriteResult.mk true (buffer ++ [0xE5, addr % 256, addr / 256]) report)) := by
  have hnonneg : (0 : Int) ≤ Int.ofNat addr := by
    simp only [Int.ofNat_eq_coe]
    omega
  constructor
  · intro hlow
    have h255 : Int.ofNat addr ≤ 255 := by
      simp only [Int.ofNat_eq_coe]
      omega
    have h65535 : Int.ofNat addr ≤ 65535 := by
      simp only [Int.ofNat_eq_coe]
      omega
    refine ⟨?_, ?_, rfl, ?_⟩
    · apply selectInstruction_of_take builtins _ 0 _ 5
      rw [assignment_candidates_take]
      simp [List.findSome?, Instruction.extract, extractCaptureLists, patternA, patternImmU8,
        patternXIndirectU8, patternX, patternDirectU8, InstructionOperandPattern.extract,
        hnonneg, h255, hlow]
    · have hmax : addr ≤ 65535 := by omega
      simp [extractCaptureLists, patternA, patternAbsoluteU8, patternImmU16,
        InstructionOperandPattern.extract, hnonneg, h65535, hmax]
    · have hbyte : toU8 (Int.ofNat addr) = addr := by
        rw [toU8_ofNat, Nat.mod_eq_of_lt (by omega)]
      have hw : encodingU8Operand.write report bank buffer (InstructionOptions.mk [0xE4] [1] [])
          [[], [InstructionOperand.Integer (Int.ofNat addr)]] location =
          some (WriteResult.mk true (buffer ++ [0xE4] ++ [toU8 (Int.ofNat addr)]) report) := rfl
      rw [hw, hbyte, List.append_assoc]
      rfl
  · intro hhigh hmax
    have h255 : ¬ Int.ofNat addr ≤ 255 := by
      simp only [Int.ofNat_eq_coe]
      omega
    have h65535 : Int.ofNat addr ≤ 65535 := by
      simp only [Int.ofNat_eq_coe]
      omega
    refine ⟨?_, rfl, ?_⟩
    · apply selectInstruction_of_take builtins _ 0 _ 5
      rw [assignment_candidates_take]
      simp [List.findSome?, Instruction.extract, extractCaptureLists, patternA, patternImmU8,
        patternXIndirectU8, patternX, patternDirectU8, patternDirectIndexedByXU8,
        patternAbsoluteU8, patternImmU16, InstructionOperandPattern.extract,
        hnonneg, h255, h65535, hmax, show ¬ addr ≤ 255 by omega]
    · have hval : toU16 (Int.ofNat addr) = addr := by
        rw [toU16_ofNat, Nat.mod_eq_of_lt (by omega)]
      have hlow : (addr &&& 0xFF) % 256 = addr % 256 := by
        rw [and_0xFF, Nat.mod_mod]
      have hhi : ((addr >>> 8) &&& 0xFF) % 256 = addr / 256 := by
        rw [and_0xFF, Nat.mod_mod, Nat.shiftRight_eq_div_pow]
        omega
      have hw : encodingU16Operand.write report bank buffer
          (InstructionOptions.mk [0xE5] [1] [])
          [[], [InstructionOperand.Integer (Int.ofNat addr)]] location =
          some (WriteResult.mk true
            (buffer ++ [0xE5] ++ [(toU16 (Int.ofNat addr) &&& 0xFF) % 256] ++
              [((toU16 (Int.ofNat addr) >>> 8) &&& 0xFF) % 256]) report) := rfl
      rw [hw, hval, hlow, hhi, List.append_assoc, List.append_assoc]
      rfl

/-- C23 at concrete inputs: `a = *(0x20)` and `a = *(0x1234)`. -/
theorem assignment_from_memory_selection_witness :
    (builtins.selectInstruction (InstructionType.BinaryOperator BinaryOperatorKind.Assignment) 0
        [InstructionOperandRoot.mk none (some (InstructionOperand.Register a)),
          InstructionOperandRoot.mk none (some (InstructionOperand.Dereference false
            (InstructionOperand.Integer (Int.ofNat 0x20)) 1))] =
      some (Instruction.mk (InstructionSignature.mk (InstructionType.BinaryOperator BinaryOperatorKind.Assignment) 0 [patternA, patternDirectU8])
        encodingU8Operand (InstructionOptions.mk [0xE4] [1] []),
        [[], [InstructionOperand.Integer (Int.ofNat 0x20)]]) ∧
      encodingU8Operand.write [] (Bank.mk 0) [] (InstructionOptions.mk [0xE4] [1] [])
          [[], [InstructionOperand.Integer (Int.ofNat 0x20)]] (SourceLocation.mk 1) =
        some (WriteResult.mk true ([] ++ [0xE4, 0x20]) [])) ∧
    (builtins.selectInstruction (InstructionType.BinaryOperator BinaryOperatorKind.Assignment) 0
        [InstructionOperandRoot.mk none (some (InstructionOperand.Register a)),
          InstructionOperandRoot.mk none (some (InstructionOperand.Dereference false
            (InstructionOperand.Integer (Int.ofNat 0x1234)) 1))] =
      some (Instruction.mk (InstructionSignature.mk (InstructionType.BinaryOperator BinaryOperatorKind.Assignment) 0 [patternA, patternAbsoluteU8])
        encodingU16Operand (InstructionOptions.mk [0xE5] [1] []),
        [[], [InstructionOperand.Integer (Int.ofNat 0x1234)]]) ∧
      encodingU16Operand.write [] (Bank.mk 0) [] (InstructionOptions.mk [0xE5] [1] [])
          [[], [InstructionOperand.Integer (Int.ofNat 0x1234)]] (SourceLocation.mk 1) =
        some (WriteResult.mk true ([] ++ [0xE5, 0x1234 % 256, 0x1234 / 256]) [])) :=
  ⟨⟨((assignment_from_memory_selection [] (Bank.mk 0) [] (SourceLocation.mk 1) none none
        0x20).1 (by decide)).1,
      ((assignment_from_memory_selection [] (Bank.mk 0) [] (SourceLocation.mk 1) none none
        0x20).1 (by decide)).2.2.2⟩,
    ⟨((assignment_from_memory_selection [] (Bank.mk 0) [] (SourceLocation.mk 1) none none
        0x1234).2 (by decide) (by decide)).1,
      ((assignment_from_memory_selection [] (Bank.mk 0) [] (SourceLocation.mk 1) none none
        0x1234).2 (by decide) (by decide)).2.2⟩⟩

theorem call_candidates_take :
    (builtins.candidates (InstructionType.Branch BranchKind.Call) 0).take 2 =
      [Instruction.mk (InstructionSignature.mk (InstructionType.Branch BranchKind.Call) 0 [patternAtLeast0, patternImmHighPageAddress])
        encodingU8Operand (InstructionOptions.mk [0x4F] [1] []),
       Instruction.mk (InstructionSignature.mk (InstructionType.Branch BranchKind.Call) 0 [patternAtLeast0, patternImmU16])
        encodingU16Operand (InstructionOptions.mk [0x3F] [1] [])] := by
  set_option maxRecDepth 100000 in rfl

/-- C24: for a call to a constant destination `d`, the selection of the first registered
candidate whose patterns all match picks the high-page form for every `d` in
`0xFF00..0xFFFF`, which emits `[0x4F, d - 0xFF00]` (size 2), and the general form for every
`d` in `0..0xFEFF`, which emits `[0x3F, d mod 256, d div 256]` (size 3); the high-page form
is registered before the general form, which matches every destination of the high page as
well. -/
theorem call_selection (report : Report) (bank : Bank) (buffer : List Nat)
    (location : SourceLocation) (e1 e2 : Option Expression) (distance d : Nat) :
    (0xFF00 ≤ d → d ≤ 0xFFFF →
      builtins.selectInstruction (InstructionType.Branch BranchKind.Call) 0
          [InstructionOperandRoot.mk e1 (some (InstructionOperand.Integer (Int.ofNat distance))),
            InstructionOperandRoot.mk e2 (some (InstructionOperand.Integer (Int.ofNat d)))] =
        some (Instruction.mk (InstructionSignature.mk (InstructionType.Branch BranchKind.Call) 0 [patternAtLeast0, patternImmHighPageAddress])
        encodingU8Operand (InstructionOptions.mk [0x4F] [1] []),
          [[InstructionOperand.Integer (Int.ofNat distance)],
            [InstructionOperand.Integer (Int.ofNat d)]]) ∧
      extractCaptureLists [patternAtLeast0, patternImmU16]
          [InstructionOperandRoot.mk e1 (some (InstructionOperand.Integer (Int.ofNat distance))),
            InstructionOperandRoot.mk e2 (some (InstructionOperand.Integer (Int.ofNat d)))] =
        some [[InstructionOperand.Integer (Int.ofNat distance)],
            [InstructionOperand.Integer (Int.ofNat d)]] ∧
      encodingU8Operand.calculateSize (InstructionOptions.mk [0x4F] [1] [])
        [[InstructionOperand.Integer (Int.ofNat distance)],
            [InstructionOperand.Integer (Int.ofNat d)]] = some 2 ∧
      encodingU8Operand.write report bank buffer (InstructionOptions.mk [0x4F] [1] [])
          [[InstructionOperand.Integer (Int.ofNat distance)],
            [InstructionOperand.Integer (Int.ofNat d)]] location =
        some (WriteResult.mk true (buffer ++ [0x4F, d - 0xFF00]) report)) ∧
    (d ≤ 0xFEFF →
      builtins.selectInstruction (InstructionType.Branch BranchKind.Call) 0
          [InstructionOperandRoot.mk e1 (some (InstructionOperand.Integer (Int.ofNat distance))),
            InstructionOperandRoot.mk e2 (some (InstructionOperand.Integer (Int.ofNat d)))] =
        some (Instruction.mk (InstructionSignature.mk (InstructionType.Branch BranchKind.Call) 0 [patternAtLeast0, patternImmU16])
        encodingU16Operand (InstructionOptions.mk [0x3F] [1] []),
          [[InstructionOperand.Integer (Int.ofNat distance)],
            [InstructionOperand.Integer (Int.ofNat d)]]) ∧
      encodingU16Operand.calculateSize (InstructionOptions.mk [0x3F] [1] [])
        [[InstructionOperand.Integer (Int.ofNat distance)],
            [InstructionOperand.Integer (Int.ofNat d)]] = some 3 ∧
      encodingU16Operand.write report bank buffer (InstructionOptions.mk [0x3F] [1] [])
          [[InstructionOperand.Integer (Int.ofNat distance)],
            [InstructionOperand.Integer (Int.ofNat d)]] location =
        some (WriteResult.mk true (buffer ++ [0x3F, d % 256, d / 256]) report)) ∧
    (registeredPatterns (InstructionType.Branch BranchKind.Call)).take 2 =
      [[patternAtLeast0, patternImmHighPageAddress], [patternAtLeast0, patternImmU16]] := by
  refine ⟨?_, ?_, ?_⟩
  · intro hlo hhi
    refine ⟨?_, ?_, rfl, ?_⟩
    · apply selectInstruction_of_take builtins _ 0 _ 2
      rw [call_candidates_take]
      simp [List.findSome?, Instruction.extract, extractCaptureLists, patternAtLeast0,
        patternImmHighPageAddress, InstructionOperandPattern.extract, hlo, hhi]
    · simp [extractCaptureLists, patternAtLeast0, patternImmU16,
        InstructionOperandPattern.extract, hhi]
    · have hbyte : toU8 (Int.ofNat d) = d - 0xFF00 := by
        rw [toU8_ofNat]
        omega
      have hw : encodingU8Operand.write report bank buffer (InstructionOptions.mk [0x4F] [1] [])
          [[InstructionOperand.Integer (Int.ofNat distance)],
            [InstructionOperand.Integer (Int.ofNat d)]] location =
          some (WriteResult.mk true (buffer ++ [0x4F] ++ [toU8 (Int.ofNat d)]) report) := rfl
      rw [hw, hbyte, List.append_assoc]
      rfl
  · intro hhi
    refine ⟨?_, rfl, ?_⟩
    · apply selectInstruction_of_take builtins _ 0 _ 2
      rw [call_candidates_take]
      simp [List.findSome?, Instruction.extract, extractCaptureLists, patternAtLeast0,
        patternImmHighPageAddress, patternImmU16, InstructionOperandPattern.extract,
        show ¬ 65280 ≤ d by omega, show d ≤ 65535 by omega]
    · have hval : toU16 (Int.ofNat d) = d := by
        rw [toU16_ofNat, Nat.mod_eq_of_lt (by omega)]
      have hlow : (d &&& 0xFF) % 256 = d % 256 := by
        rw [and_0xFF, Nat.mod_mod]
      have hhigh : ((d >>> 8) &&& 0xFF) % 256 = d / 256 := by
        rw [and_0xFF, Nat.mod_mod, Nat.shiftRight_eq_div_pow]
        omega
      have hw : encodingU16Operand.write report bank buffer
          (InstructionOptions.mk [0x3F] [1] [])
          [[InstructionOperand.Integer (Int.ofNat distance)],
            [InstructionOperand.Integer (Int.ofNat d)]] location =
          some (WriteResult.mk true
            (buffer ++ [0x3F] ++ [(toU16 (Int.ofNat d) &&& 0xFF) % 256] ++
              [((toU16 (Int.ofNat d) >>> 8) &&& 0xFF) % 256]) report) := rfl
      rw [hw, hval, hlow, hhigh, List.append_assoc, List.append_assoc]
      rfl
  · set_option maxRecDepth 100000 in decide

/-- C24 at concrete inputs: the calls to `0xFF40` and to `0x1234`. -/
theorem call_selection_witness :
    encodingU8Operand.write [] (Bank.mk 0) [] (InstructionOptions.mk [0x4F] [1] [])
        [[InstructionOperand.Integer (Int.ofNat 0)],
          [InstructionOperand.Integer (Int.ofNat 0xFF40)]] (SourceLocation.mk 1) =
      some (WriteResult.mk true ([] ++ [0x4F, 0xFF40 - 0xFF00]) []) ∧
    encodingU16Operand.write [] (Bank.mk 0) [] (InstructionOptions.mk [0x3F] [1] [])
        [[InstructionOperand.Integer (Int.ofNat 0)],
          [InstructionOperand.Integer (Int.ofNat 0x1234)]] (SourceLocation.mk 1) =
      some (WriteResult.mk true ([] ++ [0x3F, 0x1234 % 256, 0x1234 / 256]) []) :=
  ⟨((call_selection [] (Bank.mk 0) [] (SourceLocation.mk 1) none none 0 0xFF40).1
      (by decide) (by decide)).2.2.2,
    ((call_selection [] (Bank.mk 0) [] (SourceLocation.mk 1) none none 0 0x1234).2.1
      (by decide)).2.2⟩

theorem goto_candidates_take :
    (builtins.candidates (InstructionType.Branch BranchKind.Goto) 0).take 2 =
      [Instruction.mk (InstructionSignature.mk (InstructionType.Branch BranchKind.Goto) 0 [patternAtLeast0, patternImmU16])
        encodingPCRelativeI8Operand (InstructionOptions.mk [0x2F] [1] []),
       Instruction.mk (InstructionSignature.mk (InstructionType.Branch BranchKind.Goto) 0 [patternAtLeast1, patternImmU16])
        encodingU16Operand (InstructionOptions.mk [0x5F] [1] [])] := by
  set_option maxRecDepth 100000 in rfl

theorem cmp_branch_not_equal_candidates :
    builtins.candidates (InstructionType.VoidIntrinsic cmp_branch_not_equal) 0 =
      [Instruction.mk (InstructionSignature.mk (InstructionType.VoidIntrinsic cmp_branch_not_equal) 0
          [patternA, patternDirectU8, patternImmU16])
        encodingU8OperandPCRelativeI8Operand (InstructionOptions.mk [0x2E] [1, 2] []),
       Instruction.mk (InstructionSignature.mk (InstructionType.VoidIntrinsic cmp_branch_not_equal) 0
          [patternA, patternDirectIndexedByXU8, patternImmU16])
        encodingU8OperandPCRelativeI8Operand (InstructionOptions.mk [0xDE] [1, 2] [])] := by
  set_option maxRecDepth 100000 in rfl

theorem patternDirectU8_extract_isSome_iff (operand : InstructionOperand) :
    (patternDirectU8.extract operand).isSome = true ↔
      ∃ v : Int, 0 ≤ v ∧ v ≤ 0xFF ∧
        operand = InstructionOperand.Dereference false (InstructionOperand.Integer v) 1 := by
  constructor
  · intro h
    cases operand with
    | Dereference far inner size =>
      cases inner with
      | Integer value =>
        by_cases hc : far = false ∧ 1 = size
        · by_cases hv : 0 ≤ value ∧ value ≤ 255
          · exact ⟨value, hv.1, hv.2, by rw [hc.1, ← hc.2]⟩
          · simp [patternDirectU8, patternImmU8, InstructionOperandPattern.extract, hc, hv] at h
        · simp [patternDirectU8, patternImmU8, InstructionOperandPattern.extract, hc] at h
      | _ => simp [patternDirectU8, patternImmU8, InstructionOperandPattern.extract] at h
    | _ => simp [patternDirectU8, InstructionOperandPattern.extract] at h
  · rintro ⟨v, hv0, hv1, rfl⟩
    simp [patternDirectU8, patternImmU8, InstructionOperandPattern.extract, hv0, hv1]

theorem patternDirectIndexedByXU8_extract_isSome_iff (operand : InstructionOperand) :
    (patternDirectIndexedByXU8.extract operand).isSome = true ↔
      ∃ v : Int, 0 ≤ v ∧ v ≤ 0xFF ∧
        operand = InstructionOperand.Index false (InstructionOperand.Integer v)
          (InstructionOperand.Register x) 1 1 := by
  constructor
  · intro h
    cases operand with
    | Index far base subscript scale size =>
      cases base with
      | Integer value =>
        cases subscript with
        | Register definition =>
          by_cases hc : far = false ∧ 1 = scale ∧ 1 = size
          · by_cases hv : 0 ≤ value ∧ value ≤ 255
            · by_cases hx : x = definition
              · exact ⟨value, hv.1, hv.2, by rw [hc.1, ← hc.2.1, ← hc.2.2, ← hx]⟩
              · simp [patternDirectIndexedByXU8, patternImmU8, patternX,
                  InstructionOperandPattern.extract, hc, hv, hx] at h
            · simp [patternDirectIndexedByXU8, patternImmU8, patternX,
                InstructionOperandPattern.extract, hc, hv] at h
          · simp [patternDirectIndexedByXU8, patternImmU8, patternX,
              InstructionOperandPattern.extract, hc] at h
        | _ =>
          simp [patternDirectIndexedByXU8, patternImmU8, patternX,
            InstructionOperandPattern.extract] at h
      | _ =>
        simp [patternDirectIndexedByXU8, patternImmU8, patternX,
          InstructionOperandPattern.extract] at h
    | _ => simp [patternDirectIndexedByXU8, InstructionOperandPattern.extract] at h
  · rintro ⟨v, hv0, hv1, rfl⟩
    simp [patternDirectIndexedByXU8, patternImmU8, patternX,
      InstructionOperandPattern.extract, hv0, hv1]

theorem cmp_branch_not_equal_probe_iff (e1 e2 e3 : Option Expression)
    (operand : Option InstructionOperand) (placeholder : Int)
    (hlo : 0 ≤ placeholder) (hhi : placeholder ≤ 0xFFFF) :
    (builtins.selectInstruction (InstructionType.VoidIntrinsic cmp_branch_not_equal) 0
        [InstructionOperandRoot.mk e1 (some (InstructionOperand.Register a)),
          InstructionOperandRoot.mk e2 operand,
          InstructionOperandRoot.mk e3 (some (InstructionOperand.Integer placeholder))]).isSome
        = true ↔
      ∃ v : Int, 0 ≤ v ∧ v ≤ 0xFF ∧
        (operand = some (InstructionOperand.Dereference false
            (InstructionOperand.Integer v) 1) ∨
          operand = some (InstructionOperand.Index false (InstructionOperand.Integer v)
            (InstructionOperand.Register x) 1 1)) := by
  rw [selectInstruction_eq_candidates, cmp_branch_not_equal_candidates]
  cases operand with
  | none =>
    simp [List.findSome?, Instruction.extract, extractCaptureLists]
  | some operand =>
    have hdirect := patternDirectU8_extract_isSome_iff operand
    have hindexed := patternDirectIndexedByXU8_extract_isSome_iff operand
    cases h1 : patternDirectU8.extract operand with
    | some captures =>
      rw [h1] at hdirect
      obtain ⟨v, hv0, hv1, hv⟩ := hdirect.1 rfl
      have hl : (List.findSome?
          (Instruction.extract
            [InstructionOperandRoot.mk e1 (some (InstructionOperand.Register a)),
              InstructionOperandRoot.mk e2 (some operand),
              InstructionOperandRoot.mk e3 (some (InstructionOperand.Integer placeholder))])
          [Instruction.mk (InstructionSignature.mk (InstructionType.VoidIntrinsic cmp_branch_not_equal) 0
              [patternA, patternDirectU8, patternImmU16])
            encodingU8OperandPCRelativeI8Operand (InstructionOptions.mk [0x2E] [1, 2] []),
           Instruction.mk (InstructionSignature.mk (InstructionType.VoidIntrinsic cmp_branch_not_equal) 0
              [patternA, patternDirectIndexedByXU8, patternImmU16])
            encodingU8OperandPCRelativeI8Operand
              (InstructionOptions.mk [0xDE] [1, 2] [])]).isSome = true := by
        simp [List.findSome?, Instruction.extract, extractCaptureLists, patternA,
          patternImmU16, InstructionOperandPattern.extract, hlo, hhi, h1]
      rw [hl]
      simp only [true_iff]
      exact ⟨v, hv0, hv1, Or.inl (by rw [hv])⟩
    | none =>
      rw [h1] at hdirect
      cases h2 : patternDirectIndexedByXU8.extract operand with
      | some captures =>
        rw [h2] at hindexed
        obtain ⟨v, hv0, hv1, hv⟩ := hindexed.1 rfl
        have hl : (List.findSome?
            (Instruction.extract
              [InstructionOperandRoot.mk e1 (some (InstructionOperand.Register a)),
                InstructionOperandRoot.mk e2 (some operand),
                InstructionOperandRoot.mk e3 (some (InstructionOperand.Integer placeholder))])
            [Instruction.mk (InstructionSignature.mk (InstructionType.VoidIntrinsic cmp_branch_not_equal) 0
                [patternA, patternDirectU8, patternImmU16])
              encodingU8OperandPCRelativeI8Operand (InstructionOptions.mk [0x2E] [1, 2] []),
             Instruction.mk (InstructionSignature.mk (InstructionType.VoidIntrinsic cmp_branch_not_equal) 0
                [patternA, patternDirectIndexedByXU8, patternImmU16])
              encodingU8OperandPCRelativeI8Operand
                (InstructionOptions.mk [0xDE] [1, 2] [])]).isSome = true := by
          simp [List.findSome?, Instruction.extract, extractCaptureLists, patternA,
            patternImmU16, InstructionOperandPattern.extract, hlo, hhi, h1, h2]
        rw [hl]
        simp only [true_iff]
        exact ⟨v, hv0, hv1, Or.inr (by rw [hv])⟩
      | none =>
        rw [h2] at hindexed
        have hl : (List.findSome?
            (Instruction.extract
              [InstructionOperandRoot.mk e1 (some (InstructionOperand.Register a)),
                InstructionOperandRoot.mk e2 (some operand),
                InstructionOperandRoot.mk e3 (some (InstructionOperand.Integer placeholder))])
            [Instruction.mk (InstructionSignature.mk (InstructionType.VoidIntrinsic cmp_branch_not_equal) 0
                [patternA, patternDirectU8, patternImmU16])
              encodingU8OperandPCRelativeI8Operand (InstructionOptions.mk [0x2E] [1, 2] []),
             Instruction.mk (InstructionSignature.mk (InstructionType.VoidIntrinsic cmp_branch_not_equal) 0
                [patternA, patternDirectIndexedByXU8, patternImmU16])
              encodingU8OperandPCRelativeI8Operand
                (InstructionOptions.mk [0xDE] [1, 2] [])]).isSome = false := by
          simp [List.findSome?, Instruction.extract, extractCaptureLists, patternA,
            patternImmU16, InstructionOperandPattern.extract, hlo, hhi, h1, h2]
        rw [hl]
        simp only [Bool.false_eq_true, false_iff]
        rintro ⟨v, hv0, hv1, hv | hv⟩
        · have := hdirect.2 ⟨v, hv0, hv1, Option.some.inj hv⟩
          simp at this
        · have := hindexed.2 ⟨v, hv0, hv1, Option.some.inj hv⟩
          simp at this

theorem compareBranchFusionWith_eq (compiler : Compiler) (hb : compiler.builtins = builtins)
    (placeholder : Int) (hlo : 0 ≤ placeholder) (hhi : placeholder ≤ 0xFFFF)
    (op : BinaryOperatorKind) (left right : Expression) (distanceHint : Nat) :
    compareBranchFusionWith placeholder compiler op left right distanceHint =
      compareBranchFusion compiler op left right distanceHint := by
  have hprobe : (compiler.builtins.selectInstruction (InstructionType.VoidIntrinsic cmp_branch_not_equal) 0
        (operandRoots compiler left right placeholder)).isSome =
      (compiler.builtins.selectInstruction (InstructionType.VoidIntrinsic cmp_branch_not_equal) 0
        (operandRoots compiler left right 0x1234)).isSome := by
    rw [hb, Bool.eq_iff_iff]
    unfold operandRoots
    rw [cmp_branch_not_equal_probe_iff _ _ _ _ placeholder hlo hhi,
      cmp_branch_not_equal_probe_iff _ _ _ _ 0x1234 (by decide) (by decide)]
  simp only [compareBranchFusionWith, compareBranchFusion, hprobe]

/-- C26: on the registered table the probe of the fused compare-and-branch checks the
operand shape only.  With the placeholder destination `0x1234` replaced by any integer in
`0..0xFFFF`, `getTestAndBranch` returns the same result; and for the distance hint 0 and
`left = a`, `a != right` lowers to `cmp_branch_not_equal` exactly when `right` resolves to a
direct-page byte `*(v)` or to a direct-page byte indexed by `x`, with `v` in `0..0xFF`: the
two registered operand shapes of `cmp_branch_not_equal`. -/
theorem compare_branch_probe_shape_only (compiler : Compiler)
    (hb : compiler.builtins = builtins) (type : Definition) (right : Expression) :
    (∀ placeholder : Int, 0 ≤ placeholder → placeholder ≤ 0xFFFF →
      ∀ (op : BinaryOperatorKind) (left : Expression) (distanceHint : Nat),
        getTestAndBranchWith placeholder compiler type op left right distanceHint =
          getTestAndBranch compiler type op left right distanceHint) ∧
    (getTestAndBranch compiler type BinaryOperatorKind.NotEqual
          (Expression.ResolvedIdentifier a) right 0 =
        some (PlatformTestAndBranch.mk (InstructionType.VoidIntrinsic cmp_branch_not_equal)
          [Expression.ResolvedIdentifier a, right] []) ↔
      ∃ v : Int, 0 ≤ v ∧ v ≤ 0xFF ∧
        (compiler.createOperandFromExpression right true =
            some (InstructionOperand.Dereference false (InstructionOperand.Integer v) 1) ∨
          compiler.createOperandFromExpression right true =
            some (InstructionOperand.Index false (InstructionOperand.Integer v)
              (InstructionOperand.Register x) 1 1))) ∧
    (builtins.candidates (InstructionType.VoidIntrinsic cmp_branch_not_equal) 0).map (fun instruction => instruction.signature.operandPatterns) =
      [[patternA, patternDirectU8, patternImmU16],
        [patternA, patternDirectIndexedByXU8, patternImmU16]] := by
  refine ⟨?_, ?_, ?_⟩
  · intro placeholder hlo hhi op left distanceHint
    have hfusion := compareBranchFusionWith_eq compiler hb placeholder hlo hhi op left right
      distanceHint
    cases op <;> first
      | rfl
      | simp only [getTestAndBranchWith, getTestAndBranch, hfusion, equalityComparePlan]
  · have hprobe := cmp_branch_not_equal_probe_iff (some (Expression.ResolvedIdentifier a))
      (some right) none (compiler.createOperandFromExpression right true) 0x1234
      (by decide) (by decide)
    rw [getTestAndBranch_equality _ _ _ _ _ _ (Or.inr rfl)]
    have hd : decrementBranchFusion BinaryOperatorKind.NotEqual
        (Expression.ResolvedIdentifier a) right = none := by
      simp [decrementBranchFusion]
    rw [hd]
    cases hc : compareBranchFusion compiler BinaryOperatorKind.NotEqual
        (Expression.ResolvedIdentifier a) right 0 with
    | some result =>
      obtain ⟨hcond, hres⟩ := (compareBranchFusion_eq_some_iff compiler _ _ _ _ result).1 hc
      subst hres
      simp only [true_iff]
      have hsome := hcond.2.2.2
      rw [hb] at hsome
      exact hprobe.1 hsome
    | none =>
      constructor
      · intro h
        have h1 := congrArg PlatformTestAndBranch.intrinsicOrCompareOperation
          (Option.some.inj h)
        exact absurd h1 cmp_ne_cmp_branch_not_equal
      · intro hshape
        have hsome := hprobe.2 hshape
        have := (compareBranchFusion_eq_some_iff compiler BinaryOperatorKind.NotEqual
          (Expression.ResolvedIdentifier a) right 0 _).2
          ⟨⟨rfl, rfl, rfl, by rw [hb]; exact hsome⟩, rfl⟩
        rw [hc] at this
        cases this
  · rw [cmp_branch_not_equal_candidates]
    rfl

/-- C26 at a concrete input: for `a != *(0x10)` the placeholder `0` gives the same result
as `0x1234`. -/
theorem compare_branch_probe_shape_only_witness :
    getTestAndBranchWith 0 exampleCompiler u8Type BinaryOperatorKind.NotEqual
        (Expression.ResolvedIdentifier a)
        (Expression.UnaryOperator UnaryOperatorKind.Indirection (Expression.IntegerLiteral 0x10))
        0 =
      getTestAndBranch exampleCompiler u8Type BinaryOperatorKind.NotEqual
        (Expression.ResolvedIdentifier a)
        (Expression.UnaryOperator UnaryOperatorKind.Indirection (Expression.IntegerLiteral 0x10))
        0 :=
  (compare_branch_probe_shape_only exampleCompiler rfl u8Type
    (Expression.UnaryOperator UnaryOperatorKind.Indirection
      (Expression.IntegerLiteral 0x10))).1 0 (by decide) (by decide)
    BinaryOperatorKind.NotEqual (Expression.ResolvedIdentifier a) 0

/-! ### The register decomposition and the shape of the plans -/

/-- C27 (counterexample): the sub-register list that `reserveDefinitions` registers for `ya`
starts with `a`, not with `y`. -/
theorem registerDecompositions_first_counterexample :
    registerDecompositions.map (fun entry => (entry.1, entry.2[0]?)) = [(ya, some a)] ∧
    registerDecompositions.map (fun entry => (entry.1, entry.2[0]?)) ≠ [(ya, some y)] := by
  decide

/-- C27 (amended): setup registers exactly one composite-register decomposition, for the
16-bit register `ya`, and its sub-register list is `[a, y]`: the first listed sub-register
is `a` and the second is `y`, each an 8-bit register, so that the widths of the parts sum to
the width of the wide register. -/
theorem registerDecompositions_eq :
    registerDecompositions = [(ya, [a, y])] ∧
    registerDecompositions.length = 1 ∧
    registerSize ya = some 2 ∧ registerSize a = some 1 ∧ registerSize y = some 1 ∧
    registerDecompositions.map
        (fun entry => (registerSize entry.1, entry.2.map registerSize)) =
      [(some (1 + 1), [some 1, some 1])] := by
  decide

theorem getTestAndBranch_equality_cases (compiler : Compiler) (type : Definition)
    (op : BinaryOperatorKind) (left right : Expression) (distanceHint : Nat)
    (result : PlatformTestAndBranch)
    (hop : op = BinaryOperatorKind.Equal ∨ op = BinaryOperatorKind.NotEqual)
    (h : getTestAndBranch compiler type op left right distanceHint = some result) :
    (op = BinaryOperatorKind.NotEqual ∧ ∃ operand, result = PlatformTestAndBranch.mk
        (InstructionType.VoidIntrinsic dec_branch_not_zero) [operand] []) ∨
    (op = BinaryOperatorKind.NotEqual ∧ result = PlatformTestAndBranch.mk
        (InstructionType.VoidIntrinsic cmp_branch_not_equal) [left, right] []) ∨
    result = PlatformTestAndBranch.mk (InstructionType.VoidIntrinsic cmp) [left, right]
        [PlatformBranch.mk zero (op = BinaryOperatorKind.Equal) true] := by
  rw [getTestAndBranch_equality compiler type op left right distanceHint hop] at h
  cases hd : decrementBranchFusion op left right with
  | some fused =>
    rw [hd] at h
    obtain ⟨operand, hne, _, _, hres⟩ :=
      (decrementBranchFusion_eq_some_iff op left right fused).1 hd
    exact Or.inl ⟨hne, operand, by rw [← Option.some.inj h, hres]⟩
  | none =>
    rw [hd] at h
    cases hc : compareBranchFusion compiler op left right distanceHint with
    | some fused =>
      rw [hc] at h
      have hres := (compareBranchFusion_eq_some_iff compiler op left right distanceHint
        fused).1 hc
      exact Or.inr (Or.inl ⟨hres.1.2.1, by rw [← Option.some.inj h, hres.2]⟩)
    | none =>
      rw [hc] at h
      exact Or.inr (Or.inr (Option.some.inj h).symm)

theorem getTestAndBranch_ordering_cases (compiler : Compiler) (type : Definition)
    (op : BinaryOperatorKind) (left right : Expression) (distanceHint : Nat)
    (result : PlatformTestAndBranch)
    (hop : op ≠ BinaryOperatorKind.Equal ∧ op ≠ BinaryOperatorKind.NotEqual)
    (h : getTestAndBranch compiler type op left right distanceHint = some result) :
    ∃ (size : Nat) (min max : Int) (tests : List PlatformBranch),
      type = Definition.BuiltinIntegerType size min max ∧
      result = PlatformTestAndBranch.mk (InstructionType.VoidIntrinsic cmp) [left, right]
        tests ∧
      ((min < 0 ∧ right = Expression.IntegerLiteral 0 ∧
          ((op = BinaryOperatorKind.LessThan ∧
              tests = [PlatformBranch.mk negative true true]) ∨
            (op = BinaryOperatorKind.GreaterThanOrEqual ∧
              tests = [PlatformBranch.mk negative false true]) ∨
            (op = BinaryOperatorKind.LessThanOrEqual ∧
              tests = [PlatformBranch.mk zero true true,
                PlatformBranch.mk negative true true]) ∨
            (op = BinaryOperatorKind.GreaterThan ∧
              tests = [PlatformBranch.mk zero true false,
                PlatformBranch.mk negative false true]))) ∨
        (¬ min < 0 ∧
          ((op = BinaryOperatorKind.LessThan ∧
              tests = [PlatformBranch.mk carry false true]) ∨
            (op = BinaryOperatorKind.GreaterThanOrEqual ∧
              tests = [PlatformBranch.mk carry true true]) ∨
            (op = BinaryOperatorKind.LessThanOrEqual ∧
              tests = [PlatformBranch.mk zero true true,
                PlatformBranch.mk carry false true]) ∨
            (op = BinaryOperatorKind.GreaterThan ∧
              tests = [PlatformBranch.mk zero true false,
                PlatformBranch.mk carry true true])))) := by
  obtain ⟨h1, h2⟩ := hop
  cases op <;> simp only [getTestAndBranch] at h <;>
    first
    | exact absurd rfl h1
    | exact absurd rfl h2
    | (split at h
       · rename_i size min max
         split at h
         · rename_i hmin
           split at h
           · rename_i hz
             cases h
             exact ⟨size, min, max, _, rfl, rfl,
               Or.inl ⟨hmin, (isZeroLiteral_iff right).1 hz, by simp⟩⟩
           · cases h
         · rename_i hmin
           cases h
           exact ⟨size, min, max, _, rfl, rfl, Or.inr ⟨hmin, by simp⟩⟩
       · cases h)
    | cases h

theorem tested_flags_ne_overflow :
    zero ≠ overflow ∧ carry ≠ overflow ∧ negative ≠ overflow := by decide

/-- C30: every result of `getTestAndBranch` has one of two shapes.  Either it is a fused
intrinsic, `dec_branch_not_zero` with one operand or `cmp_branch_not_equal` with the
operands `[left, right]`, and its list of flag tests is empty; or it is the intrinsic `cmp`
with the operands exactly `[left, right]` and one or two flag tests, each on `zero`,
`carry` or `negative`.  No test is on the overflow flag, and a result whose intrinsic is
not `cmp` has no flag test. -/
theorem getTestAndBranch_result_shape (compiler : Compiler) (type : Definition)
    (op : BinaryOperatorKind) (left right : Expression) (distanceHint : Nat)
    (result : PlatformTestAndBranch)
    (h : getTestAndBranch compiler type op left right distanceHint = some result) :
    (((∃ operand, result = PlatformTestAndBranch.mk
          (InstructionType.VoidIntrinsic dec_branch_not_zero) [operand] []) ∨
        result = PlatformTestAndBranch.mk
          (InstructionType.VoidIntrinsic cmp_branch_not_equal) [left, right] []) ∨
      (result.intrinsicOrCompareOperation = InstructionType.VoidIntrinsic cmp ∧
        result.operandExpressions = [left, right] ∧
        (result.branchTests.length = 1 ∨ result.branchTests.length = 2) ∧
        ∀ test ∈ result.branchTests,
          test.flagDefinition = zero ∨ test.flagDefinition = carry ∨
            test.flagDefinition = negative)) ∧
    (∀ test ∈ result.branchTests, test.flagDefinition ≠ overflow) ∧
    (result.intrinsicOrCompareOperation ≠ InstructionType.VoidIntrinsic cmp →
      result.branchTests = []) := by
  by_cases hop : op = BinaryOperatorKind.Equal ∨ op = BinaryOperatorKind.NotEqual
  · rcases getTestAndBranch_equality_cases compiler type op left right distanceHint result
      hop h with ⟨_, operand, hres⟩ | ⟨_, hres⟩ | hres
    · subst hres
      exact ⟨Or.inl (Or.inl ⟨operand, rfl⟩), by simp, fun _ => rfl⟩
    · subst hres
      exact ⟨Or.inl (Or.inr rfl), by simp, fun _ => rfl⟩
    · subst hres
      refine ⟨Or.inr ⟨rfl, rfl, Or.inl rfl, by simp⟩, ?_, fun hne => absurd rfl hne⟩
      intro test htest
      simp only [List.mem_singleton] at htest
      subst htest
      exact tested_flags_ne_overflow.1
  · obtain ⟨size, min, max, tests, _, hres, htests⟩ :=
      getTestAndBranch_ordering_cases compiler type op left right distanceHint result
        (not_or.1 hop) h
    subst hres
    rcases htests with ⟨_, _, hcase⟩ | ⟨_, hcase⟩ <;>
      rcases hcase with ⟨_, ht⟩ | ⟨_, ht⟩ | ⟨_, ht⟩ | ⟨_, ht⟩ <;>
      subst ht <;>
      exact ⟨Or.inr ⟨rfl, rfl, by simp, by simp⟩,
        by simp [tested_flags_ne_overflow.1, tested_flags_ne_overflow.2.1,
          tested_flags_ne_overflow.2.2],
        fun hne => absurd rfl hne⟩

/-- C30 at a concrete input: `x > 5` on the unsigned 8-bit type is a `cmp` plan with two
flag tests. -/
theorem getTestAndBranch_result_shape_witness :
    getTestAndBranch exampleCompiler (Definition.BuiltinIntegerType 1 0 255)
        BinaryOperatorKind.GreaterThan (Expression.ResolvedIdentifier x)
        (Expression.IntegerLiteral 5) 0 =
      some (PlatformTestAndBranch.mk (InstructionType.VoidIntrinsic cmp)
        [Expression.ResolvedIdentifier x, Expression.IntegerLiteral 5]
        [PlatformBranch.mk zero true false, PlatformBranch.mk carry true true]) ∧
    (∀ test ∈ [PlatformBranch.mk zero true false, PlatformBranch.mk carry true true],
      test.flagDefinition ≠ overflow) :=
  ⟨by decide,
    (getTestAndBranch_result_shape exampleCompiler (Definition.BuiltinIntegerType 1 0 255)
      BinaryOperatorKind.GreaterThan (Expression.ResolvedIdentifier x)
      (Expression.IntegerLiteral 5) 0
      (PlatformTestAndBranch.mk (InstructionType.VoidIntrinsic cmp)
        [Expression.ResolvedIdentifier x, Expression.IntegerLiteral 5]
        [PlatformBranch.mk zero true false, PlatformBranch.mk carry true true])
      (by decide)).2.1⟩

/-- C28: read as a short-circuit decision list (the first entry whose flag equals its
expected value decides and its third field is the outcome; no entry firing means the
comparison does not hold), the branch list of every `cmp` plan returned by
`getTestAndBranch` computes the formula of the comment of its case, for every assignment
of the flags: `==` gives `zero`, `!=` gives `!zero`, `<` gives `negative` (signed) resp.
`!carry` (unsigned), `>=` gives `!negative` resp. `carry`, `<=` gives `zero || negative`
resp. `zero || !carry`, and `>` gives `!zero && !negative` resp. `!zero && carry`; a signed
ordering plan has the literal 0 on the right.  The only other plans are the fused ones of
`!=`, whose branch list is empty. -/
theorem decisionListReading_of_every_plan (compiler : Compiler) (type : Definition)
    (op : BinaryOperatorKind) (left right : Expression) (distanceHint : Nat)
    (flags : Definition → Bool) (result : PlatformTestAndBranch)
    (h : getTestAndBranch compiler type op left right distanceHint = some result) :
    (result.intrinsicOrCompareOperation ≠ InstructionType.VoidIntrinsic cmp →
      op = BinaryOperatorKind.NotEqual ∧ result.branchTests = []) ∧
    (result.intrinsicOrCompareOperation = InstructionType.VoidIntrinsic cmp →
      (op = BinaryOperatorKind.Equal →
        decisionListReading flags result.branchTests = flags zero) ∧
      (op = BinaryOperatorKind.NotEqual →
        decisionListReading flags result.branchTests = !flags zero) ∧
      (∀ (size : Nat) (min max : Int), type = Definition.BuiltinIntegerType size min max →
        (op = BinaryOperatorKind.LessThan →
          decisionListReading flags result.branchTests =
            if min < 0 then flags negative else !flags carry) ∧
        (op = BinaryOperatorKind.GreaterThanOrEqual →
          decisionListReading flags result.branchTests =
            if min < 0 then !flags negative else flags carry) ∧
        (op = BinaryOperatorKind.LessThanOrEqual →
          decisionListReading flags result.branchTests =
            if min < 0 then (flags zero || flags negative)
            else (flags zero || !flags carry)) ∧
        (op = BinaryOperatorKind.GreaterThan →
          decisionListReading flags result.branchTests =
            if min < 0 then (!flags zero && !flags negative)
            else (!flags zero && flags carry)) ∧
        (op ≠ BinaryOperatorKind.Equal → op ≠ BinaryOperatorKind.NotEqual → min < 0 →
          right = Expression.IntegerLiteral 0))) := by
  by_cases hop : op = BinaryOperatorKind.Equal ∨ op = BinaryOperatorKind.NotEqual
  · rcases getTestAndBranch_equality_cases compiler type op left right distanceHint result
      hop h with ⟨hne, operand, hres⟩ | ⟨hne, hres⟩ | hres
    · subst hres
      exact ⟨fun _ => ⟨hne, rfl⟩, fun hcmp => absurd hcmp.symm cmp_ne_dec_branch_not_zero⟩
    · subst hres
      exact ⟨fun _ => ⟨hne, rfl⟩, fun hcmp => absurd hcmp.symm cmp_ne_cmp_branch_not_equal⟩
    · subst hres
      refine ⟨fun hne => absurd rfl hne, fun _ => ?_⟩
      rcases hop with hop | hop <;> subst hop <;>
        cases hz : flags zero <;>
        simp [decisionListReading, PlatformBranch.holds, hz]
  · obtain ⟨size, min, max, tests, hty, hres, htests⟩ :=
      getTestAndBranch_ordering_cases compiler type op left right distanceHint result
        (not_or.1 hop) h
    subst hres
    refine ⟨fun hne => absurd rfl hne, fun _ =>
      ⟨fun he => absurd (Or.inl he) hop, fun he => absurd (Or.inr he) hop, ?_⟩⟩
    intro size1 min1 max1 hty1
    rw [hty] at hty1
    injection hty1 with _ hmin1 _
    subst hmin1
    rcases htests with ⟨hmin, hright, hcase⟩ | ⟨hmin, hcase⟩ <;>
      rcases hcase with ⟨ho, ht⟩ | ⟨ho, ht⟩ | ⟨ho, ht⟩ | ⟨ho, ht⟩ <;>
      subst ho <;> subst ht <;>
      cases hz : flags zero <;> cases hn : flags negative <;> cases hc : flags carry <;>
      simp_all [decisionListReading, PlatformBranch.holds]

/-- C28 at a concrete input: the plan of `x > 5` on the unsigned 8-bit type, with the zero
flag clear and the carry flag set, reads as true. -/
theorem decisionListReading_of_every_plan_witness :
    getTestAndBranch exampleCompiler (Definition.BuiltinIntegerType 1 0 255)
        BinaryOperatorKind.GreaterThan (Expression.ResolvedIdentifier x)
        (Expression.IntegerLiteral 5) 0 =
      some (PlatformTestAndBranch.mk (InstructionType.VoidIntrinsic cmp)
        [Expression.ResolvedIdentifier x, Expression.IntegerLiteral 5]
        [PlatformBranch.mk zero true false, PlatformBranch.mk carry true true]) ∧
    decisionListReading (fun flag => decide (flag = carry))
        [PlatformBranch.mk zero true false, PlatformBranch.mk carry true true] =
      if (0 : Int) < 0 then
        (!(fun flag => decide (flag = carry)) zero &&
          !(fun flag => decide (flag = carry)) negative)
      else
        (!(fun flag => decide (flag = carry)) zero &&
          (fun flag => decide (flag = carry)) carry) :=
  ⟨by decide,
    ((decisionListReading_of_every_plan exampleCompiler (Definition.BuiltinIntegerType 1 0 255)
      BinaryOperatorKind.GreaterThan (Expression.ResolvedIdentifier x)
      (Expression.IntegerLiteral 5) 0 (fun flag => decide (flag = carry))
      (PlatformTestAndBranch.mk (InstructionType.VoidIntrinsic cmp)
        [Expression.ResolvedIdentifier x, Expression.IntegerLiteral 5]
        [PlatformBranch.mk zero true false, PlatformBranch.mk carry true true])
      (by decide)).2 rfl).2.2 1 0 255 rfl |>.2.2.2.1 rfl⟩

/-! ### The flags of a compare -/

theorem cmpFlags_zero (l r : Nat) : cmpFlags l r zero = decide (l = r) := by
  unfold cmpFlags
  rw [if_pos rfl]

theorem cmpFlags_carry (l r : Nat) : cmpFlags l r carry = decide (l ≥ r) := by
  unfold cmpFlags
  rw [if_neg (by decide), if_pos rfl]

theorem cmpFlags_negative (l r : Nat) :
    cmpFlags l r negative = decide ((((l : Int) - (r : Int)) % 256).toNat / 128 % 2 = 1) := by
  unfold cmpFlags
  rw [if_neg (by decide), if_neg (by decide), if_pos rfl]

theorem cmpFlags_negative_zero (l : Nat) (hl : l ≤ 255) :
    cmpFlags l 0 negative = decide (128 ≤ l) := by
  rw [cmpFlags_negative]
  congr 1
  apply propext
  constructor <;> intro h <;> omega

theorem decide_eq_or_lt (l r : Nat) :
    (decide (l = r) || decide (l < r)) = decide (l ≤ r) := by
  rcases Nat.lt_trichotomy l r with h | h | h
  · simp [h, Nat.ne_of_lt h, Nat.le_of_lt h]
  · simp [h]
  · simp [Nat.ne_of_gt h, Nat.not_lt.2 (Nat.le_of_lt h), Nat.not_le.2 h]

theorem decide_ne_and_ge (l r : Nat) :
    (!decide (l = r) && decide (r ≤ l)) = decide (r < l) := by
  rcases Nat.lt_trichotomy l r with h | h | h
  · simp [Nat.ne_of_lt h, Nat.not_le.2 h, Nat.not_lt.2 (Nat.le_of_lt h)]
  · simp [h]
  · simp [Nat.ne_of_gt h, Nat.le_of_lt h, h]

theorem decide_positive_signed (l : Nat) (h128 : ¬ 128 ≤ l) :
    (!decide (l = 0) && decide (l < 128)) = decide (0 < l) := by
  have h : l < 128 := Nat.not_le.1 h128
  by_cases h0 : l = 0
  · simp [h0]
  · simp [h0, h, Nat.pos_of_ne_zero h0]

theorem decide_positive_signed_high (l : Nat) (hl : l ≤ 255) (h128 : 128 ≤ l) :
    (!decide (l = 0) && decide (l < 128)) = decide (256 < l) := by
  have h1 : ¬ l < 128 := Nat.not_lt.2 h128
  have h2 : ¬ 256 < l := by omega
  simp [h1, h2]

/-- C29: the compare-based lowerings are correct on bytes.  With the flags of `cmp(l, r)`
on a byte `l` in 0..255 and a number `r`, in particular a byte (`zero` is `l = r`, `carry`
is `l >= r`, `negative` is bit 7 of `(l - r) mod 256`) and the branch list of a returned `cmp` plan read as a short-circuit
decision list, the outcome is the truth of `l op r` on unsigned numbers for `==` and `!=`
and, on an unsigned type, for `<`, `>=`, `<=`, `>`; on a signed type the ordering plans
have the literal 0 on the right and the outcome with the flags of `cmp(l, 0)` is the truth
of `(signed value of l) op 0`. -/
theorem compare_lowerings_correct_on_bytes (compiler : Compiler) (type : Definition)
    (op : BinaryOperatorKind) (left right : Expression) (distanceHint : Nat)
    (result : PlatformTestAndBranch) (l r : Nat) (hl : l ≤ 255)
    (h : getTestAndBranch compiler type op left right distanceHint = some result)
    (hcmp : result.intrinsicOrCompareOperation = InstructionType.VoidIntrinsic cmp) :
    (op = BinaryOperatorKind.Equal ∨ op = BinaryOperatorKind.NotEqual →
      decisionListReading (cmpFlags l r) result.branchTests = op.holds (l : Int) (r : Int)) ∧
    (∀ (size : Nat) (min max : Int), type = Definition.BuiltinIntegerType size min max →
      (¬ min < 0 →
        decisionListReading (cmpFlags l r) result.branchTests =
          op.holds (l : Int) (r : Int)) ∧
      (min < 0 → op ≠ BinaryOperatorKind.Equal → op ≠ BinaryOperatorKind.NotEqual →
        right = Expression.IntegerLiteral 0 ∧
        decisionListReading (cmpFlags l 0) result.branchTests =
          op.holds (signedByte l) 0)) := by
  by_cases hop : op = BinaryOperatorKind.Equal ∨ op = BinaryOperatorKind.NotEqual
  · have hequal : decisionListReading (cmpFlags l r) result.branchTests =
        op.holds (l : Int) (r : Int) := by
      rcases getTestAndBranch_equality_cases compiler type op left right distanceHint result
        hop h with ⟨_, operand, hres⟩ | ⟨_, hres⟩ | hres
      · subst hres
        exact absurd hcmp.symm cmp_ne_dec_branch_not_zero
      · subst hres
        exact absurd hcmp.symm cmp_ne_cmp_branch_not_equal
      · subst hres
        rcases hop with hop | hop <;> subst hop <;>
          simp [decisionListReading, PlatformBranch.holds, BinaryOperatorKind.holds,
            cmpFlags_zero]
    refine ⟨fun _ => hequal, fun size min max _ => ⟨fun _ => hequal, ?_⟩⟩
    intro _ h1 h2
    rcases hop with hop | hop
    · exact absurd hop h1
    · exact absurd hop h2
  · obtain ⟨size, min, max, tests, hty, hres, htests⟩ :=
      getTestAndBranch_ordering_cases compiler type op left right distanceHint result
        (not_or.1 hop) h
    subst hres
    refine ⟨fun he => absurd he hop, ?_⟩
    intro size1 min1 max1 hty1
    rw [hty] at hty1
    injection hty1 with _ hmin1 _
    subst hmin1
    have hsigned := cmpFlags_negative_zero l hl
    rcases htests with ⟨hmin, hright, hcase⟩ | ⟨hmin, hcase⟩
    · refine ⟨fun hn => absurd hmin hn, fun _ _ _ => ⟨hright, ?_⟩⟩
      rcases hcase with ⟨ho, ht⟩ | ⟨ho, ht⟩ | ⟨ho, ht⟩ | ⟨ho, ht⟩ <;>
        subst ho <;> subst ht <;>
        simp [decisionListReading, PlatformBranch.holds, BinaryOperatorKind.holds,
          cmpFlags_zero, hsigned, signedByte] <;>
        by_cases h128 : 128 ≤ l <;> simp [h128] <;>
        first
        | omega
        | exact decide_positive_signed l h128
        | exact decide_positive_signed_high l hl h128
    · refine ⟨fun _ => ?_, fun hm => absurd hm hmin⟩
      rcases hcase with ⟨ho, ht⟩ | ⟨ho, ht⟩ | ⟨ho, ht⟩ | ⟨ho, ht⟩ <;>
        subst ho <;> subst ht <;>
        simp [decisionListReading, PlatformBranch.holds, BinaryOperatorKind.holds,
          cmpFlags_zero, cmpFlags_carry] <;>
        first
        | omega
        | exact decide_eq_or_lt l r
        | exact decide_ne_and_ge l r

/-- C29 at a concrete input: for `x < 5` on the unsigned 8-bit type and the bytes 3 and 5,
the plan reads as true, the truth of `3 < 5`; the same plan on the bytes 5 and 3 reads as
false. -/
theorem compare_lowerings_correct_on_bytes_witness :
    getTestAndBranch exampleCompiler (Definition.BuiltinIntegerType 1 0 255)
        BinaryOperatorKind.LessThan (Expression.ResolvedIdentifier x)
        (Expression.IntegerLiteral 5) 0 =
      some (PlatformTestAndBranch.mk (InstructionType.VoidIntrinsic cmp)
        [Expression.ResolvedIdentifier x, Expression.IntegerLiteral 5]
        [PlatformBranch.mk carry false true]) ∧
    decisionListReading (cmpFlags 3 5) [PlatformBranch.mk carry false true] =
      BinaryOperatorKind.LessThan.holds ((3 : Nat) : Int) ((5 : Nat) : Int) ∧
    decisionListReading (cmpFlags 3 5) [PlatformBranch.mk carry false true] = true ∧
    decisionListReading (cmpFlags 5 3) [PlatformBranch.mk carry false true] = false :=
  ⟨by decide,
    ((compare_lowerings_correct_on_bytes exampleCompiler
      (Definition.BuiltinIntegerType 1 0 255) BinaryOperatorKind.LessThan
      (Expression.ResolvedIdentifier x) (Expression.IntegerLiteral 5) 0
      (PlatformTestAndBranch.mk (InstructionType.VoidIntrinsic cmp)
        [Expression.ResolvedIdentifier x, Expression.IntegerLiteral 5]
        [PlatformBranch.mk carry false true])
      3 5 (by decide) (by decide) rfl).2 1 0 255 rfl).1 (by decide),
    by decide, by decide⟩

/-! ### The opcode byte of the bit-test branches -/

/-- C31 (the code at the failing input): the write function of
`encodingU8OperandBitIndexBranch`, called on an empty buffer for a branch on bit `n` of
`*(0x20)` to `0x210` at the bank address `0x200`, ORs `n << 4` into the opcode byte.  With
the registered opcode `0x13` the subscripts 0 and 1 give the same bytes
`[0x13, 0x20, 0x0D]`, and so does the registered opcode `0x03` with the subscript 1: the
opcode byte determines neither the subscript nor the polarity.  The sixteen opcode bytes
take eight values.  (The parameter map `{2, 2, 1, 1}` is the one that locates the three
captures of the registered patterns.) -/
theorem encodingU8OperandBitIndexBranch_opcode_byte_collision :
    encodingU8OperandBitIndexBranch.write [] (Bank.mk 0x200) []
        (InstructionOptions.mk [0x13] [2, 2, 1, 1] [])
        [[InstructionOperand.Integer 0], [InstructionOperand.Integer 0x210],
          [InstructionOperand.Integer 0x20, InstructionOperand.Integer 0], []]
        (SourceLocation.mk 1) =
      some (WriteResult.mk true [0x13, 0x20, 0x0D] []) ∧
    encodingU8OperandBitIndexBranch.write [] (Bank.mk 0x200) []
        (InstructionOptions.mk [0x13] [2, 2, 1, 1] [])
        [[InstructionOperand.Integer 0], [InstructionOperand.Integer 0x210],
          [InstructionOperand.Integer 0x20, InstructionOperand.Integer 1], []]
        (SourceLocation.mk 1) =
      some (WriteResult.mk true [0x13, 0x20, 0x0D] []) ∧
    encodingU8OperandBitIndexBranch.write [] (Bank.mk 0x200) []
        (InstructionOptions.mk [0x03] [2, 2, 1, 1] [])
        [[InstructionOperand.Integer 0], [InstructionOperand.Integer 0x210],
          [InstructionOperand.Integer 0x20, InstructionOperand.Integer 1], []]
        (SourceLocation.mk 1) =
      some (WriteResult.mk true [0x13, 0x20, 0x0D] []) ∧
    (List.range 8).map (fun n =>
        (encodingU8OperandBitIndexBranch.write [] (Bank.mk 0x200) []
          (InstructionOptions.mk [0x03] [2, 2, 1, 1] [])
          [[InstructionOperand.Integer 0], [InstructionOperand.Integer 0x210],
            [InstructionOperand.Integer 0x20, InstructionOperand.Integer (Int.ofNat n)], []]
          (SourceLocation.mk 1)).map (fun result => result.buffer[0]?)) =
      [some (some 0x03), some (some 0x13), some (some 0x23), some (some 0x33),
        some (some 0x43), some (some 0x53), some (some 0x63), some (some 0x73)] ∧
    (List.range 8).map (fun n =>
        (encodingU8OperandBitIndexBranch.write [] (Bank.mk 0x200) []
          (InstructionOptions.mk [0x13] [2, 2, 1, 1] [])
          [[InstructionOperand.Integer 0], [InstructionOperand.Integer 0x210],
            [InstructionOperand.Integer 0x20, InstructionOperand.Integer (Int.ofNat n)], []]
          (SourceLocation.mk 1)).map (fun result => result.buffer[0]?)) =
      [some (some 0x13), some (some 0x13), some (some 0x33), some (some 0x33),
        some (some 0x53), some (some 0x53), some (some 0x73), some (some 0x73)] ∧
    registered (InstructionSignature.mk (InstructionType.Branch BranchKind.Goto) 0
        [patternAtLeast0, patternImmU16, patternDirectU8BitIndex, patternTrue]) =
      [Instruction.mk (InstructionSignature.mk (InstructionType.Branch BranchKind.Goto) 0
          [patternAtLeast0, patternImmU16, patternDirectU8BitIndex, patternTrue])
        encodingU8OperandBitIndexBranch (InstructionOptions.mk [0x03] [0, 0, 1] [])] ∧
    registered (InstructionSignature.mk (InstructionType.Branch BranchKind.Goto) 0
        [patternAtLeast0, patternImmU16, patternDirectU8BitIndex, patternFalse]) =
      [Instruction.mk (InstructionSignature.mk (InstructionType.Branch BranchKind.Goto) 0
          [patternAtLeast0, patternImmU16, patternDirectU8BitIndex, patternFalse])
        encodingU8OperandBitIndexBranch (InstructionOptions.mk [0x13] [0, 0, 1] [])] := by
  refine ⟨by decide, by decide, by decide, by decide, by decide, ?_, ?_⟩
  · set_option maxRecDepth 100000 in rfl
  · set_option maxRecDepth 100000 in rfl

/-! ### The arithmetic table -/

/-- C33: in the arithmetic table there are 12 operand shapes, and for each of them the opcode
registered for `Addition` is the byte `0x60` followed by exactly the opcode registered for
`AdditionWithCarry` on that shape, `[0x80 + bits]`, and the opcode registered for
`Subtraction` is the byte `0x80` followed by exactly the opcode registered for
`SubtractionWithCarry`, `[0xA0 + bits]`: the mode bits are OR'ed into the last opcode byte
only.  For the six single-byte operators (or, and, xor, adc, cmp, sbc) the registered
opcode is the one byte `base + bits`, and the 72 bytes are pairwise distinct. -/
theorem arithmetic_table_opcodes :
    arithmeticOperandSignatures.length = 12 ∧
    (∀ sig ∈ arithmeticOperandSignatures,
      registeredOpcodes (arithmeticSignature
          (InstructionType.BinaryOperator BinaryOperatorKind.AdditionWithCarry) sig) =
        [[0x80 + sig.bits]] ∧
      registeredOpcodes (arithmeticSignature
          (InstructionType.BinaryOperator BinaryOperatorKind.Addition) sig) =
        (registeredOpcodes (arithmeticSignature
          (InstructionType.BinaryOperator BinaryOperatorKind.AdditionWithCarry) sig)).map
          (fun opcode => 0x60 :: opcode) ∧
      registeredOpcodes (arithmeticSignature
          (InstructionType.BinaryOperator BinaryOperatorKind.SubtractionWithCarry) sig) =
        [[0xA0 + sig.bits]] ∧
      registeredOpcodes (arithmeticSignature
          (InstructionType.BinaryOperator BinaryOperatorKind.Subtraction) sig) =
        (registeredOpcodes (arithmeticSignature
          (InstructionType.BinaryOperator BinaryOperatorKind.SubtractionWithCarry) sig)).map
          (fun opcode => 0x80 :: opcode)) ∧
    (arithmeticOperators.filter (fun op => op.2.length = 1)).map (fun op => op.2) =
      [[0x00], [0x20], [0x40], [0x80], [0x60], [0xA0]] ∧
    (∀ op ∈ arithmeticOperators, ∀ base ∈ op.2, op.2.length = 1 →
      ∀ sig ∈ arithmeticOperandSignatures,
        registeredOpcodes (arithmeticSignature op.1 sig) = [[base + sig.bits]]) ∧
    ((arithmeticInstructions.map (fun instruction => instruction.options.opcode)).filter
        (fun opcode => opcode.length = 1)).length = 72 ∧
    ((arithmeticInstructions.map (fun instruction => instruction.options.opcode)).filter
        (fun opcode => opcode.length = 1)).Nodup := by
  set_option maxRecDepth 1000000 in decide

theorem arithmetic_table_opcodes_witness :
    registeredOpcodes (arithmeticSignature
        (InstructionType.BinaryOperator BinaryOperatorKind.AdditionWithCarry)
        (ArithmeticOperandSignature.mk patternA patternImmU8 encodingU8Operand 0x08 [1])) =
      [[0x80 + 0x08]] ∧
    registeredOpcodes (arithmeticSignature
        (InstructionType.BinaryOperator BinaryOperatorKind.Addition)
        (ArithmeticOperandSignature.mk patternA patternImmU8 encodingU8Operand 0x08 [1])) =
      (registeredOpcodes (arithmeticSignature
        (InstructionType.BinaryOperator BinaryOperatorKind.AdditionWithCarry)
        (ArithmeticOperandSignature.mk patternA patternImmU8 encodingU8Operand 0x08 [1]))).map
        (fun opcode => 0x60 :: opcode) :=
  ⟨(arithmetic_table_opcodes.2.1 _ (List.Mem.head _)).1,
    (arithmetic_table_opcodes.2.1 _ (List.Mem.head _)).2.1⟩

/-! ### The long conditional branches -/

/-- C34: for each flag among carry, zero, negative and overflow and each polarity `p`, the
table registers exactly one short conditional branch for `(flag, not p)`, with
`encodingPCRelativeI8Operand` and a one-byte opcode `[s]`, and exactly one long conditional
branch for `(flag, p)`, with `encodingU16Operand` and the three-byte opcode `[s, 3, 0x5F]`;
the size function gives the long form 5 bytes.  The byte 3 is the size of the
unconditional long jump, registered with `encodingU16Operand` and the opcode `0x5F`. -/
theorem long_conditional_branch_opcodes :
    (∀ flag ∈ [patternCarry, patternZero, patternNegative, patternOverflow],
      ∀ polarity : Bool, ∃ s : Nat,
        registered (conditionalBranchSignature patternAtLeast0 flag (!polarity)) =
          [Instruction.mk (conditionalBranchSignature patternAtLeast0 flag (!polarity))
            encodingPCRelativeI8Operand (InstructionOptions.mk [s] [1] [])] ∧
        registered (conditionalBranchSignature patternAtLeast1 flag polarity) =
          [Instruction.mk (conditionalBranchSignature patternAtLeast1 flag polarity)
            encodingU16Operand (InstructionOptions.mk [s, 3, 0x5F] [1] [])] ∧
        ∀ captureLists : CaptureLists,
          encodingU16Operand.calculateSize (InstructionOptions.mk [s, 3, 0x5F] [1] [])
            captureLists = some 5) ∧
    ([patternCarry, patternZero, patternNegative, patternOverflow].flatMap fun flag =>
        [false, true].map fun polarity =>
          (registeredOpcodes (conditionalBranchSignature patternAtLeast0 flag polarity),
            registeredOpcodes (conditionalBranchSignature patternAtLeast1 flag polarity))) =
      [([[0x90]], [[0xB0, 3, 0x5F]]), ([[0xB0]], [[0x90, 3, 0x5F]]),
        ([[0xD0]], [[0xF0, 3, 0x5F]]), ([[0xF0]], [[0xD0, 3, 0x5F]]),
        ([[0x10]], [[0x30, 3, 0x5F]]), ([[0x30]], [[0x10, 3, 0x5F]]),
        ([[0x50]], [[0x70, 3, 0x5F]]), ([[0x70]], [[0x50, 3, 0x5F]])] ∧
    registered (InstructionSignature.mk (InstructionType.Branch BranchKind.Goto) 0
        [patternAtLeast1, patternImmU16]) =
      [Instruction.mk (InstructionSignature.mk (InstructionType.Branch BranchKind.Goto) 0
          [patternAtLeast1, patternImmU16])
        encodingU16Operand (InstructionOptions.mk [0x5F] [1] [])] ∧
    (∀ captureLists : CaptureLists,
      encodingU16Operand.calculateSize (InstructionOptions.mk [0x5F] [1] []) captureLists =
        some 3) := by
  refine ⟨?_, ?_, ?_, fun _ => rfl⟩
  · intro flag hflag polarity
    simp only [List.mem_cons, List.mem_singleton, List.not_mem_nil, or_false] at hflag
    rcases hflag with rfl | rfl | rfl | rfl <;> cases polarity
    · exact ⟨0xB0, by set_option maxRecDepth 100000 in rfl,
        by set_option maxRecDepth 100000 in rfl, fun _ => rfl⟩
    · exact ⟨0x90, by set_option maxRecDepth 100000 in rfl,
        by set_option maxRecDepth 100000 in rfl, fun _ => rfl⟩
    · exact ⟨0xF0, by set_option maxRecDepth 100000 in rfl,
        by set_option maxRecDepth 100000 in rfl, fun _ => rfl⟩
    · exact ⟨0xD0, by set_option maxRecDepth 100000 in rfl,
        by set_option maxRecDepth 100000 in rfl, fun _ => rfl⟩
    · exact ⟨0x30, by set_option maxRecDepth 100000 in rfl,
        by set_option maxRecDepth 100000 in rfl, fun _ => rfl⟩
    · exact ⟨0x10, by set_option maxRecDepth 100000 in rfl,
        by set_option maxRecDepth 100000 in rfl, fun _ => rfl⟩
    · exact ⟨0x70, by set_option maxRecDepth 100000 in rfl,
        by set_option maxRecDepth 100000 in rfl, fun _ => rfl⟩
    · exact ⟨0x50, by set_option maxRecDepth 100000 in rfl,
        by set_option maxRecDepth 100000 in rfl, fun _ => rfl⟩
  · set_option maxRecDepth 1000000 in decide
  · set_option maxRecDepth 100000 in rfl

/-- C34 at a concrete input: the long branch on carry set is the short branch on carry
clear, `0x90`, over the long jump. -/
theorem long_conditional_branch_opcodes_witness :
    ∃ s : Nat,
      registered (conditionalBranchSignature patternAtLeast0 patternCarry (!true)) =
        [Instruction.mk (conditionalBranchSignature patternAtLeast0 patternCarry (!true))
          encodingPCRelativeI8Operand (InstructionOptions.mk [s] [1] [])] ∧
      registered (conditionalBranchSignature patternAtLeast1 patternCarry true) =
        [Instruction.mk (conditionalBranchSignature patternAtLeast1 patternCarry true)
          encodingU16Operand (InstructionOptions.mk [s, 3, 0x5F] [1] [])] ∧
      ∀ captureLists : CaptureLists,
        encodingU16Operand.calculateSize (InstructionOptions.mk [s, 3, 0x5F] [1] [])
          captureLists = some 5 :=
  long_conditional_branch_opcodes.1 patternCarry (List.Mem.head _) true

/-! ### The table calls -/

theorem patternTableCall_extract_isSome_iff (entry : Int) (operand : InstructionOperand) :
    ((patternTableCall entry).extract operand).isSome = true ↔
      operand = InstructionOperand.Dereference false (InstructionOperand.Integer entry) 2 := by
  constructor
  · intro h
    cases operand with
    | Dereference far inner size =>
      cases inner with
      | Integer value =>
        by_cases hc : far = false ∧ 2 = size
        · by_cases hv : entry ≤ value ∧ value ≤ entry
          · have hvalue : value = entry := le_antisymm hv.2 hv.1
            rw [hc.1, ← hc.2, hvalue]
          · simp [patternTableCall, InstructionOperandPattern.extract, hc, hv] at h
        · simp [patternTableCall, InstructionOperandPattern.extract, hc] at h
      | _ => simp [patternTableCall, InstructionOperandPattern.extract] at h
    | _ => simp [patternTableCall, InstructionOperandPattern.extract] at h
  · rintro rfl
    simp [patternTableCall, InstructionOperandPattern.extract]

/-- C37: the sixteen table calls form a consistent mapping.  For every `n` in `0..15` the
`n`-th table-call pattern is the 2-byte dereference of the single address `0xFFDE - 2 * n`
and matches exactly that operand; the table registers exactly one call for it, with the
implicit encoding and the one-byte opcode `16 * n + 1`, of size 1; the sixteen addresses and
the sixteen opcodes are pairwise distinct. -/
theorem table_call_mapping :
    tableCallPatterns.length = 16 ∧
    (∀ n : Nat, n < 16 → ∃ pattern,
      tableCallPatterns[n]? = some pattern ∧
      pattern = InstructionOperandPattern.Dereference false
        (InstructionOperandPattern.IntegerRange (0xFFDE - 2 * (n : Int)) (0xFFDE - 2 * (n : Int)))
        2 ∧
      (∀ operand : InstructionOperand,
        (pattern.extract operand).isSome = true ↔
          operand = InstructionOperand.Dereference false
            (InstructionOperand.Integer (0xFFDE - 2 * (n : Int))) 2) ∧
      registered (callSignature pattern) =
        [Instruction.mk (callSignature pattern) encodingImplicit
          (InstructionOptions.mk [16 * n + 1] [] [])] ∧
      ∀ captureLists : CaptureLists,
        encodingImplicit.calculateSize (InstructionOptions.mk [16 * n + 1] [] [])
          captureLists = some 1) ∧
    ((List.range 16).map (fun n => 0xFFDE - 2 * (n : Int))).Nodup ∧
    ((List.range 16).map (fun n => 16 * n + 1)).Nodup ∧
    (tableCallPatterns.flatMap fun pattern => registeredOpcodes (callSignature pattern)) =
      (List.range 16).map (fun n => [16 * n + 1]) := by
  refine ⟨rfl, ?_, by decide, by decide, ?_⟩
  · intro n hn
    interval_cases n <;>
      exact ⟨_, rfl, rfl, fun operand => patternTableCall_extract_isSome_iff _ operand,
        by set_option maxRecDepth 100000 in rfl, fun _ => rfl⟩
  · set_option maxRecDepth 1000000 in decide

/-- C37 at a concrete input: the table call 5 is the dereference of `0xFFD4` with the
opcode `0x51`. -/
theorem table_call_mapping_witness :
    ∃ pattern,
      tableCallPatterns[5]? = some pattern ∧
      pattern = InstructionOperandPattern.Dereference false
        (InstructionOperandPattern.IntegerRange (0xFFDE - 2 * ((5 : Nat) : Int))
          (0xFFDE - 2 * ((5 : Nat) : Int))) 2 ∧
      (∀ operand : InstructionOperand,
        (pattern.extract operand).isSome = true ↔
          operand = InstructionOperand.Dereference false
            (InstructionOperand.Integer (0xFFDE - 2 * ((5 : Nat) : Int))) 2) ∧
      registered (callSignature pattern) =
        [Instruction.mk (callSignature pattern) encodingImplicit
          (InstructionOptions.mk [16 * 5 + 1] [] [])] ∧
      ∀ captureLists : CaptureLists,
        encodingImplicit.calculateSize (InstructionOptions.mk [16 * 5 + 1] [] [])
          captureLists = some 1 :=
  table_call_mapping.2.1 5 (by decide)

/-! ### Duplicate signatures -/

theorem bitwise_negation_candidates :
    builtins.candidates (InstructionType.UnaryOperator UnaryOperatorKind.BitwiseNegation) 0 =
      [Instruction.mk (InstructionSignature.mk
          (InstructionType.UnaryOperator UnaryOperatorKind.BitwiseNegation) 0 [patternA])
        encodingImplicit (InstructionOptions.mk [0x48, 0xFF] [] []),
       Instruction.mk (InstructionSignature.mk
          (InstructionType.UnaryOperator UnaryOperatorKind.BitwiseNegation) 0 [patternA])
        encodingImplicit (InstructionOptions.mk [0x48, 0xFF, 0x60, 0x88, 0x01] [] [])] := by
  set_option maxRecDepth 100000 in rfl

/-- C35 (the code at the failing input): the table registers two instructions with the
signature `(BitwiseNegation, 0, {patternA})`, the bitwise negation `[0x48, 0xFF]` and,
under the comment `signed negation`, `[0x48, 0xFF, 0x60, 0x88, 0x01]`.  For every operand
list the selection of the first registered candidate whose patterns all match returns
nothing or the first of the two, so the second is selected for no operand list; for
`~a` it returns the first.  No instruction is registered for `SignedNegation`. -/
theorem bitwise_negation_registered_twice :
    registered (InstructionSignature.mk
        (InstructionType.UnaryOperator UnaryOperatorKind.BitwiseNegation) 0 [patternA]) =
      [Instruction.mk (InstructionSignature.mk
          (InstructionType.UnaryOperator UnaryOperatorKind.BitwiseNegation) 0 [patternA])
        encodingImplicit (InstructionOptions.mk [0x48, 0xFF] [] []),
       Instruction.mk (InstructionSignature.mk
          (InstructionType.UnaryOperator UnaryOperatorKind.BitwiseNegation) 0 [patternA])
        encodingImplicit (InstructionOptions.mk [0x48, 0xFF, 0x60, 0x88, 0x01] [] [])] ∧
    (∀ operandRoots : List InstructionOperandRoot,
      (builtins.selectInstruction
          (InstructionType.UnaryOperator UnaryOperatorKind.BitwiseNegation) 0
          operandRoots).map (fun selected => selected.1.options.opcode) = none ∨
      (builtins.selectInstruction
          (InstructionType.UnaryOperator UnaryOperatorKind.BitwiseNegation) 0
          operandRoots).map (fun selected => selected.1.options.opcode) =
        some [0x48, 0xFF]) ∧
    (builtins.selectInstruction
        (InstructionType.UnaryOperator UnaryOperatorKind.BitwiseNegation) 0
        [InstructionOperandRoot.mk none (some (InstructionOperand.Register a))]).map
        (fun selected => selected.1.options.opcode) = some [0x48, 0xFF] ∧
    (instructions.filter (fun instruction =>
      instruction.signature.type =
        InstructionType.UnaryOperator UnaryOperatorKind.SignedNegation)).length = 0 ∧
    instructions.length = 269 ∧
    ((instructions.map (fun instruction => instruction.signature)).eraseDups).length = 268 := by
  refine ⟨?_, ?_, ?_, ?_, ?_, ?_⟩
  · set_option maxRecDepth 100000 in rfl
  · intro operandRoots
    rw [selectInstruction_eq_candidates, bitwise_negation_candidates]
    cases h : extractCaptureLists [patternA] operandRoots <;>
      simp [List.findSome?, Instruction.extract, h]
  · rw [selectInstruction_eq_candidates, bitwise_negation_candidates]
    decide
  · set_option maxRecDepth 100000 in decide
  · set_option maxRecDepth 100000 in decide
  · set_option maxRecDepth 1000000 in decide

/-! ### The operand byte of the indirect direct-page forms -/

/-- C36 (the code at the failing input): `patternDirectIndexedByXIndirectU8` and
`patternDirectIndirectIndexedByYU8` capture the address with `patternImmU16`, so they
accept the address `0x1234`; the selection returns for `a = *(*((0x1234 + x) as *u16))`
the instruction with the opcode `0xE7` and for `a = *(*(0x1234 as *u16) + y)` the one
with the opcode `0xF7`, both with `encodingU8Operand`, whose write function emits the
single operand byte `0x34`: the matched address is truncated.  The direct-page sibling
`patternDirectU8` rejects the address `0x1234`. -/
theorem indirect_direct_page_operand_truncated :
    builtins.selectInstruction (InstructionType.BinaryOperator BinaryOperatorKind.Assignment) 0
        [InstructionOperandRoot.mk none (some (InstructionOperand.Register a)),
          InstructionOperandRoot.mk none (some (InstructionOperand.Dereference false
            (InstructionOperand.Index false (InstructionOperand.Integer 0x1234)
              (InstructionOperand.Register x) 1 2) 1))] =
      some (Instruction.mk (InstructionSignature.mk
          (InstructionType.BinaryOperator BinaryOperatorKind.Assignment) 0
          [patternA, patternDirectIndexedByXIndirectU8])
        encodingU8Operand (InstructionOptions.mk [0xE7] [1] []),
        [[], [InstructionOperand.Integer 0x1234]]) ∧
    encodingU8Operand.write [] (Bank.mk 0) [] (InstructionOptions.mk [0xE7] [1] [])
        [[], [InstructionOperand.Integer 0x1234]] (SourceLocation.mk 1) =
      some (WriteResult.mk true [0xE7, 0x34] []) ∧
    builtins.selectInstruction (InstructionType.BinaryOperator BinaryOperatorKind.Assignment) 0
        [InstructionOperandRoot.mk none (some (InstructionOperand.Register a)),
          InstructionOperandRoot.mk none (some (InstructionOperand.Index false
            (InstructionOperand.Dereference false (InstructionOperand.Integer 0x1234) 2)
            (InstructionOperand.Register y) 1 1))] =
      some (Instruction.mk (InstructionSignature.mk
          (InstructionType.BinaryOperator BinaryOperatorKind.Assignment) 0
          [patternA, patternDirectIndirectIndexedByYU8])
        encodingU8Operand (InstructionOptions.mk [0xF7] [1] []),
        [[], [InstructionOperand.Integer 0x1234]]) ∧
    encodingU8Operand.write [] (Bank.mk 0) [] (InstructionOptions.mk [0xF7] [1] [])
        [[], [InstructionOperand.Integer 0x1234]] (SourceLocation.mk 1) =
      some (WriteResult.mk true [0xF7, 0x34] []) ∧
    encodingU8Operand.calculateSize (InstructionOptions.mk [0xE7] [1] [])
        [[], [InstructionOperand.Integer 0x1234]] = some 2 ∧
    patternDirectU8.extract
        (InstructionOperand.Dereference false (InstructionOperand.Integer 0x1234) 1) = none ∧
    (instructions.filter (fun instruction =>
        patternDirectIndexedByXIndirectU8 ∈ instruction.signature.operandPatterns ∨
          patternDirectIndirectIndexedByYU8 ∈ instruction.signature.operandPatterns)).map
        (fun instruction => (instruction.options.opcode,
          instruction.encoding.calculateSize instruction.options [])) =
      [([0xE7], some 2), ([0xF7], some 2), ([0xC7], some 2), ([0xD7], some 2),
        ([0x07], some 2), ([0x17], some 2), ([0x27], some 2), ([0x37], some 2),
        ([0x47], some 2), ([0x57], some 2), ([0x87], some 2), ([0x97], some 2),
        ([0x60, 0x87], some 3), ([0x60, 0x97], some 3), ([0x67], some 2), ([0x77], some 2),
        ([0xA7], some 2), ([0xB7], some 2), ([0x80, 0xA7], some 3),
        ([0x80, 0xB7], some 3)] := by
  refine ⟨?_, by decide, ?_, by decide, rfl, by decide, ?_⟩
  · set_option maxRecDepth 100000 in rfl
  · set_option maxRecDepth 100000 in rfl
  · set_option maxRecDepth 1000000 in decide

/-! ### The parameter lists of the registered instructions -/

theorem extract_length (pattern : InstructionOperandPattern) :
    ∀ (operand : InstructionOperand) (captures : List InstructionOperand),
      pattern.extract operand = some captures → captures.length = pattern.captureCount := by
  induction pattern with
  | Capture inner _ =>
    intro operand captures h
    simp only [InstructionOperandPattern.extract] at h
    split at h
    · cases h; rfl
    · cases h
  | Register d =>
    intro operand captures h
    cases operand <;> simp [InstructionOperandPattern.extract] at h
    obtain ⟨_, rfl⟩ := h
    rfl
  | Boolean b =>
    intro operand captures h
    cases operand <;> simp [InstructionOperandPattern.extract] at h
    obtain ⟨_, rfl⟩ := h
    rfl
  | IntegerRange lo hi =>
    intro operand captures h
    cases operand <;> simp [InstructionOperandPattern.extract] at h
    obtain ⟨_, rfl⟩ := h
    rfl
  | IntegerAtLeast lo =>
    intro operand captures h
    cases operand <;> simp [InstructionOperandPattern.extract] at h
    obtain ⟨_, rfl⟩ := h
    rfl
  | Dereference far inner size ih =>
    intro operand captures h
    cases operand <;> simp [InstructionOperandPattern.extract] at h
    exact ih _ _ h.2
  | Unary kind inner ih =>
    intro operand captures h
    cases operand <;> simp [InstructionOperandPattern.extract] at h
    exact ih _ _ h.2
  | Index far base sub scale size ihb ihs =>
    intro operand captures h
    cases operand <;> simp [InstructionOperandPattern.extract] at h
    rename_i far1 operand subscript scale1 size1
    obtain ⟨_, h⟩ := h
    cases hb : base.extract operand with
    | none => simp [hb] at h
    | some c1 =>
      cases hs : sub.extract subscript with
      | none => simp [hb, hs] at h
      | some c2 =>
        simp [hb, hs] at h
        subst h
        simp [InstructionOperandPattern.captureCount, ihb _ _ hb, ihs _ _ hs]
  | BitIndex container sub ihc ihs =>
    intro operand captures h
    cases operand <;> simp [InstructionOperandPattern.extract] at h
    rename_i operand subscript
    cases hc : container.extract operand with
    | none => simp [hc] at h
    | some c1 =>
      cases hs : sub.extract subscript with
      | none => simp [hc, hs] at h
      | some c2 =>
        simp [hc, hs] at h
        subst h
        simp [InstructionOperandPattern.captureCount, ihc _ _ hc, ihs _ _ hs]

theorem parameterSlotsRead_spec :
    ∀ pair ∈ parameterSlotsRead,
      ∀ (report : Report) (bank : Bank) (buffer : List Nat) (options : InstructionOptions)
        (captureLists : CaptureLists) (location : SourceLocation),
        (pair.1.write report bank buffer options captureLists location).isSome = true →
          pair.2 ≤ options.parameter.length := by
  intro pair hp report bank buffer options captureLists location h
  rcases options with ⟨opcode, parameter, flags⟩
  simp only [parameterSlotsRead, List.mem_cons, List.mem_singleton, List.not_mem_nil,
    or_false] at hp
  rcases hp with rfl | rfl | rfl | rfl | rfl | rfl | rfl | rfl | rfl | rfl | rfl | rfl <;>
    rcases parameter with _ | ⟨p0, _ | ⟨p1, _ | ⟨p2, _ | ⟨p3, rest⟩⟩⟩⟩ <;>
    first
    | (simp only [List.length_cons, List.length_nil]; omega)
    | (exfalso
       simp [encodingU8Operand, encodingU16Operand, encodingPCRelativeI8Operand,
         encodingU8OperandPCRelativeI8Operand, encodingU8OperandBitIndex,
         encodingU8OperandBitIndexBranch, encodingU13OperandBitIndex,
         encodingU8OperandU8Operand, encodingRepeatedImplicit, encodingRepeatedU8Operand,
         encodingRepeatedU16Operand] at h)

/-- C32 (counterexample): the instruction registered for `mem$bit = !mem$bit`, signature
`(LogicalNegation, 0, {patternAbsoluteU8BitIndex})`, has the parameter list `{0, 0, 1}`
and one operand: the value 1 of slot 2 is no operand position of the signature.  And the
bit-index branch, which reads `options.parameter[3]`, is registered with the three-slot
list `{0, 0, 1}`. -/
theorem registered_parameter_values_counterexample :
    registered (InstructionSignature.mk
        (InstructionType.UnaryOperator UnaryOperatorKind.LogicalNegation) 0
        [patternAbsoluteU8BitIndex]) =
      [Instruction.mk (InstructionSignature.mk
          (InstructionType.UnaryOperator UnaryOperatorKind.LogicalNegation) 0
          [patternAbsoluteU8BitIndex])
        encodingU13OperandBitIndex (InstructionOptions.mk [0xEA] [0, 0, 1] [])] ∧
    ¬ (∀ position ∈ [0, 0, 1], position < [patternAbsoluteU8BitIndex].length) ∧
    ¬ (∀ instruction ∈ instructions, ∀ position ∈ instruction.options.parameter,
        position < instruction.signature.operandPatterns.length) ∧
    registered (conditionalBranchSignature patternAtLeast0 patternDirectU8BitIndex false) =
      [Instruction.mk (conditionalBranchSignature patternAtLeast0 patternDirectU8BitIndex false)
        encodingU8OperandBitIndexBranch (InstructionOptions.mk [0x13] [0, 0, 1] [])] ∧
    ¬ (3 < [0, 0, 1].length) ∧
    encodingU8OperandBitIndexBranch.write [] (Bank.mk 0x200) []
        (InstructionOptions.mk [0x13] [0, 0, 1] [])
        [[InstructionOperand.Integer 0], [InstructionOperand.Integer 0x210],
          [InstructionOperand.Integer 0x20, InstructionOperand.Integer 3], []]
        (SourceLocation.mk 1) = none := by
  refine ⟨?_, by decide, ?_, ?_, by decide, by decide⟩
  · set_option maxRecDepth 100000 in rfl
  · set_option maxRecDepth 1000000 in decide
  · set_option maxRecDepth 100000 in rfl

set_option maxHeartbeats 4000000 in
/-- C32 (amended): every registered instruction has one of the twelve encodings, and for
every registered instruction whose encoding is not the bit-index branch encoding the
parameter list is long enough for it: the number of slots that the encoding reads (0 for
Implicit; 1 for U8, U16, PC-relative and RepeatedImplicit; 2 for U8+PC-relative, U8U8 and
RepeatedU8/U16; 3 for the bit-index and 13-bit bit-index encodings) is at most the length
of the registered list; every value stored in slot 0 or 1 is an operand position of the
signature; and for the three-slot encodings the value of slot 2 is an index into the
captures of the operand that slot 1 names.  The slot counts are those of the write
functions: a write function reads without fault only if the list has that many slots, and
does so on a list of exactly that many slots. -/
theorem registered_parameter_lists_fit :
    (∀ instruction ∈ instructions, ∃ pair ∈ parameterSlotsRead,
      instruction.encoding = pair.1 ∧
      (pair.2 ≤ 3 →
        pair.2 ≤ instruction.options.parameter.length ∧
        (∀ position ∈ instruction.options.parameter.take 2,
          position < instruction.signature.operandPatterns.length) ∧
        (pair.2 = 3 →
          bitSubscriptSlotFits instruction.options instruction.signature = true))) ∧
    (∀ pair ∈ parameterSlotsRead, pair.2 ≤ 3 ∨ pair.1 = encodingU8OperandBitIndexBranch) ∧
    (∀ pair ∈ parameterSlotsRead,
      ∀ (report : Report) (bank : Bank) (buffer : List Nat) (options : InstructionOptions)
        (captureLists : CaptureLists) (location : SourceLocation),
        (pair.1.write report bank buffer options captureLists location).isSome = true →
          pair.2 ≤ options.parameter.length) ∧
    (∀ pair ∈ parameterSlotsRead,
      (pair.1.write [] (Bank.mk 0) []
        (InstructionOptions.mk [0] (List.replicate pair.2 0) [])
        [[InstructionOperand.Integer 0, InstructionOperand.Integer 0]]
        (SourceLocation.mk 1)).isSome = true) := by
  refine ⟨?_, ?_, parameterSlotsRead_spec, by decide⟩
  · set_option maxRecDepth 100000 in
    simp only [instructions, loadStoreInstructions, registerInstructions, branchInstructions,
      miscInstructions, arithmeticInstructions, arithmeticOperators,
      arithmeticOperandSignatures, shiftInstructions, shiftOperators,
      List.flatMap_cons, List.flatMap_nil, List.map_cons, List.map_nil, List.cons_append,
      List.nil_append, List.append_nil, List.append_assoc,
      List.forall_mem_cons, List.not_mem_nil, false_imp_iff,
      implies_true, and_true]
    constructorm* _ ∧ _ <;>
      first
      | (refine ⟨(encodingImplicit, 0), ?mem, ?enc, ?fit⟩
         case enc => with_reducible rfl
         case mem => simp [parameterSlotsRead]
         case fit => intro _; decide)
      | (refine ⟨(encodingU8Operand, 1), ?mem, ?enc, ?fit⟩
         case enc => with_reducible rfl
         case mem => simp [parameterSlotsRead]
         case fit => intro _; decide)
      | (refine ⟨(encodingU16Operand, 1), ?mem, ?enc, ?fit⟩
         case enc => with_reducible rfl
         case mem => simp [parameterSlotsRead]
         case fit => intro _; decide)
      | (refine ⟨(encodingPCRelativeI8Operand, 1), ?mem, ?enc, ?fit⟩
         case enc => with_reducible rfl
         case mem => simp [parameterSlotsRead]
         case fit => intro _; decide)
      | (refine ⟨(encodingU8OperandPCRelativeI8Operand, 2), ?mem, ?enc, ?fit⟩
         case enc => with_reducible rfl
         case mem => simp [parameterSlotsRead]
         case fit => intro _; decide)
      | (refine ⟨(encodingU8OperandBitIndex, 3), ?mem, ?enc, ?fit⟩
         case enc => with_reducible rfl
         case mem => simp [parameterSlotsRead]
         case fit => intro _; decide)
      | (refine ⟨(encodingU8OperandBitIndexBranch, 4), ?mem, ?enc, ?fit⟩
         case enc => with_reducible rfl
         case mem => simp [parameterSlotsRead]
         case fit => intro h; exact absurd h (by decide))
      | (refine ⟨(encodingU13OperandBitIndex, 3), ?mem, ?enc, ?fit⟩
         case enc => with_reducible rfl
         case mem => simp [parameterSlotsRead]
         case fit => intro _; decide)
      | (refine ⟨(encodingU8OperandU8Operand, 2), ?mem, ?enc, ?fit⟩
         case enc => with_reducible rfl
         case mem => simp [parameterSlotsRead]
         case fit => intro _; decide)
      | (refine ⟨(encodingRepeatedImplicit, 1), ?mem, ?enc, ?fit⟩
         case enc => with_reducible rfl
         case mem => simp [parameterSlotsRead]
         case fit => intro _; decide)
      | (refine ⟨(encodingRepeatedU8Operand, 2), ?mem, ?enc, ?fit⟩
         case enc => with_reducible rfl
         case mem => simp [parameterSlotsRead]
         case fit => intro _; decide)
      | (refine ⟨(encodingRepeatedU16Operand, 2), ?mem, ?enc, ?fit⟩
         case enc => with_reducible rfl
         case mem => simp [parameterSlotsRead]
         case fit => intro _; decide)
  · intro pair hp
    simp only [parameterSlotsRead, List.mem_cons, List.mem_singleton, List.not_mem_nil,
      or_false] at hp
    rcases hp with rfl | rfl | rfl | rfl | rfl | rfl | rfl | rfl | rfl | rfl | rfl | rfl <;>
      first
      | exact Or.inl (by decide)
      | exact Or.inr rfl

/-- C32 (amended) at a concrete input: the first registered instruction, `a = imm` with
`encodingU8Operand` and the parameter list `{1}`. -/
theorem registered_parameter_lists_fit_witness :
    ∃ pair ∈ parameterSlotsRead,
      (Instruction.mk (InstructionSignature.mk
          (InstructionType.BinaryOperator BinaryOperatorKind.Assignment) 0
          [patternA, patternImmU8])
        encodingU8Operand (InstructionOptions.mk [0xE8] [1] [])).encoding = pair.1 ∧
      (pair.2 ≤ 3 →
        pair.2 ≤ (InstructionOptions.mk [0xE8] [1] []).parameter.length ∧
        (∀ position ∈ (InstructionOptions.mk [0xE8] [1] []).parameter.take 2,
          position < [patternA, patternImmU8].length) ∧
        (pair.2 = 3 →
          bitSubscriptSlotFits (InstructionOptions.mk [0xE8] [1] [])
            (InstructionSignature.mk
              (InstructionType.BinaryOperator BinaryOperatorKind.Assignment) 0
              [patternA, patternImmU8]) = true)) :=
  registered_parameter_lists_fit.1 _ (List.Mem.head _)

end wiz
